import Mathlib

/-!
LED bar animation and status-display engine (`src/led.c`)

A shallow embedding of the per-segment animation state machine, the
battery / connection / modifier colour policies, the display composer
`update_bars`, one iteration of the render loop, the modifier key handler and
the startup animation of `led_init`, followed by theorems about them.

Conventions of the embedding:

* `uint8_t` fields are `Nat`, every store into one goes through `u8`
  (reduction modulo 256); `int8_t` stores go through `i8`.
* `int` expressions (after the usual integer promotions) are `Int`.
* The Kconfig constants `CONFIG_VISORBEARER_LED_BAR_*` are not part of the
  sources; they are the fields of `Config`, a parameter of every function
  that uses one.
* `int64_t` uptime values are `Int`; the additions on them are assumed not
  to overflow 64 bits.
* The global variables `conn_bar`, `batt_bar` and `system_state` are the
  fields of `State`, passed explicitly.  The values read from the outside
  in a call (uptime, link state, battery, USB power) are the fields of `Env`.
* Calls into the LED driver are returned as a list of `HwCmd`.
* The `while` loops of the startup animation take a bound on their number of
  iterations and return `none` when it is exceeded.
-/

namespace LedBar

/-! ## Constants and configuration -/

/-- The number of segments of a bar, `NUM_SEGMENTS`. -/
abbrev NUM_SEGMENTS : Nat := 4

/-- Full brightness, `MAX_BRIGHTNESS`. -/
abbrev MAX_BRIGHTNESS : Nat := 100

/-- Battery percent per segment, `BATTERY_PER_SEGMENT`. -/
abbrev BATTERY_PER_SEGMENT : Nat := 25

/-- The Kconfig values the source refers to through its `#define`s; each is
a C `int` constant.  `BATTERY_GRANULAR` records whether
`CONFIG_VISORBEARER_LED_BAR_BATTERY_GRANULAR` is defined. -/
structure Config where
  LED_FADE_STEP_SIZE : Int
  LED_INIT_FADE_STEP_SIZE : Int
  LED_BREATH_STEP_SIZE : Int
  LED_BREATH_MIN : Int
  LED_BREATH_MAX : Int
  MODIFIER_FADE_STEP_SIZE : Int
  LED_STARTUP_DISPLAY_TIME_MS : Int
  LED_EVENT_DISPLAY_TIME_MS : Int
  LED_INIT_PAUSE_TIME_MS : Int
  BATTERY_CRITICAL_THRESHOLD : Int
  BATTERY_LOW_THRESHOLD : Int
  BATTERY_FULL_THRESHOLD : Int
  BATTERY_GRANULAR : Bool
deriving DecidableEq, Repr

/-- Conversion of an `int` value to `uint8_t`. -/
def u8 (x : Int) : Nat := (x % 256).toNat

/-- Conversion of an `int` value to `int8_t` (two's complement wrap). -/
def i8 (x : Int) : Int := (x + 128) % 256 - 128

/-- The C library function `abs` on `int`. -/
def abs (x : Int) : Int := if x < 0 then -x else x

/-! ## Data model -/

/-- The enumeration `color_index`; the last two members exist only in
granular builds and are only produced there. -/
inductive color_index where
  | COLOR_OFF
  | COLOR_PROFILE_CONNECTED
  | COLOR_PROFILE_OPEN
  | COLOR_PROFILE_PAIRED
  | COLOR_BACKGROUND
  | COLOR_BACKGROUND_RED
  | COLOR_BATTERY_WHITE
  | COLOR_BATTERY_YELLOW
  | COLOR_BATTERY_RED
  | COLOR_CHARGING_GREEN
  | COLOR_MODIFIER_ACTIVE
  | COLOR_BATTERY_WHITE_MID
  | COLOR_BATTERY_YELLOW_MID
deriving DecidableEq, Repr

open color_index

/-- Three colour channel bytes, `uint8_t[3]`. -/
abbrev RGB := Nat × Nat × Nat

/-- The table `colors[][3]`. -/
def colors : color_index → RGB
  | COLOR_OFF => (0x00, 0x00, 0x00)
  | COLOR_PROFILE_CONNECTED => (0xFF, 0xFF, 0xFF)
  | COLOR_PROFILE_OPEN => (0xCC, 0xCC, 0x00)
  | COLOR_PROFILE_PAIRED => (0x00, 0xFF, 0xFF)
  | COLOR_BACKGROUND => (0x08, 0x08, 0x08)
  | COLOR_BACKGROUND_RED => (0x10, 0x00, 0x00)
  | COLOR_BATTERY_WHITE => (0xFF, 0xFF, 0xFF)
  | COLOR_BATTERY_YELLOW => (0xB3, 0xB3, 0x00)
  | COLOR_BATTERY_RED => (0xB3, 0x00, 0x00)
  | COLOR_CHARGING_GREEN => (0x00, 0xB3, 0x00)
  | COLOR_MODIFIER_ACTIVE => (0x1A, 0x1A, 0x1A)
  | COLOR_BATTERY_WHITE_MID => (0x4D, 0x4D, 0x4D)
  | COLOR_BATTERY_YELLOW_MID => (0x4D, 0x4D, 0x00)

/-- The enumeration `animation_type`. -/
inductive animation_type where
  | ANIM_NONE
  | ANIM_FADE
  | ANIM_BREATH
deriving DecidableEq, Repr

open animation_type

/-- The record `struct led_segment`. -/
structure led_segment where
  color : RGB
  brightness : Nat
  target_brightness : Nat
  animation : animation_type
  fade_step : Int
  breath_ascending : Bool
  dirty : Bool
deriving DecidableEq, Repr

/-! ## Segment state machine -/

/-- The function `segment_set` (led.c:134-158). -/
def segment_set (cfg : Config) (seg : led_segment) (color : color_index)
    (target : Nat) (anim : animation_type) (fade_step : Int) : led_segment :=
  let target := u8 target
  let fade_step := i8 fade_step
  if seg.color = colors color ∧ seg.target_brightness = target ∧ seg.animation = anim then
    seg
  else
    let seg := { seg with
      color := colors color
      target_brightness := target
      animation := anim
      fade_step := fade_step
      dirty := true }
    if anim = ANIM_BREATH then
      if (seg.brightness : Int) > cfg.LED_BREATH_MAX then
        { seg with brightness := u8 cfg.LED_BREATH_MAX, breath_ascending := false }
      else if (seg.brightness : Int) < cfg.LED_BREATH_MIN then
        { seg with brightness := u8 cfg.LED_BREATH_MIN, breath_ascending := true }
      else seg
    else seg

/-- The function `segment_update` (led.c:160-196): one animation tick. -/
def segment_update (cfg : Config) (seg : led_segment) : led_segment :=
  match seg.animation with
  | ANIM_NONE =>
    if seg.brightness ≠ seg.target_brightness then
      { seg with brightness := seg.target_brightness, dirty := true }
    else seg
  | ANIM_FADE =>
    if seg.brightness ≠ seg.target_brightness then
      let diff : Int := (seg.target_brightness : Int) - (seg.brightness : Int)
      if abs diff ≤ abs seg.fade_step then
        { seg with brightness := seg.target_brightness, animation := ANIM_NONE, dirty := true }
      else
        { seg with
          brightness :=
            u8 ((seg.brightness : Int) + (if diff > 0 then abs seg.fade_step else -abs seg.fade_step))
          dirty := true }
    else
      { seg with animation := ANIM_NONE }
  | ANIM_BREATH =>
    let b : Nat :=
      u8 ((seg.brightness : Int) +
        (if seg.breath_ascending then cfg.LED_BREATH_STEP_SIZE else -cfg.LED_BREATH_STEP_SIZE))
    if (b : Int) ≥ cfg.LED_BREATH_MAX then
      { seg with brightness := u8 cfg.LED_BREATH_MAX, breath_ascending := false, dirty := true }
    else if (b : Int) ≤ cfg.LED_BREATH_MIN then
      { seg with brightness := u8 cfg.LED_BREATH_MIN, breath_ascending := true, dirty := true }
    else
      { seg with brightness := b, dirty := true }

/-- The segment after `n` consecutive calls of `segment_update`. -/
def ticks (cfg : Config) (n : Nat) (seg : led_segment) : led_segment :=
  (segment_update cfg)^[n] seg

/-! ## Hardware boundary -/

/-- The two LED controllers, `led_conn_dev` and `led_batt_dev`. -/
inductive Device where
  | led_conn_dev
  | led_batt_dev
deriving DecidableEq, Repr

/-- A call into the LED driver, with its arguments. -/
inductive HwCmd where
  | led_off (dev : Device) (index : Nat)
  | led_set_color (dev : Device) (index : Nat) (color : RGB)
  | led_on (dev : Device) (index : Nat)
  | led_set_brightness (dev : Device) (index : Nat) (value : Nat)
deriving DecidableEq, Repr

/-- The function `segment_write_hardware` (led.c:198-209): the segment
afterwards and the driver calls made. -/
def segment_write_hardware (dev : Device) (index : Nat) (seg : led_segment) :
    led_segment × List HwCmd :=
  if !seg.dirty then (seg, [])
  else
    let cmds :=
      if seg.brightness = 0 then [HwCmd.led_off dev index]
      else [HwCmd.led_set_color dev index seg.color, HwCmd.led_on dev index,
            HwCmd.led_set_brightness dev index seg.brightness]
    ({ seg with dirty := false }, cmds)

/-! ## Bars and global state -/

/-- The record `struct led_bar`. -/
structure led_bar where
  segments : Fin NUM_SEGMENTS → led_segment
  expire_time : Int
  showing_modifiers : Bool
deriving DecidableEq

/-- The record `struct battery_segment_config`. -/
structure battery_segment_config where
  color : color_index
  animation : animation_type
deriving DecidableEq, Repr

/-- The anonymous record type of the global `system_state`. -/
structure system_state_t where
  active_profile : Nat
  connected : Bool
  advertising : Bool
  battery_percentage : Nat
  charging : Bool
  modifiers : Fin NUM_SEGMENTS → Bool
deriving DecidableEq

/-- The global variables of led.c that the engine reads and writes. -/
structure State where
  conn_bar : led_bar
  batt_bar : led_bar
  system_state : system_state_t
deriving DecidableEq

/-- What one call reads from outside the module: `k_uptime_get`,
`zmk_ble_active_profile_is_connected`, `zmk_ble_active_profile_is_open`,
`zmk_battery_state_of_charge` and `zmk_usb_is_powered`. -/
structure Env where
  uptime : Int
  profile_connected : Bool
  profile_open : Bool
  state_of_charge : Nat
  usb_powered : Bool
deriving DecidableEq, Repr

/-- The assignment `bar->segments[i] = seg`. -/
def led_bar.setSegment (bar : led_bar) (i : Fin NUM_SEGMENTS) (seg : led_segment) : led_bar :=
  { bar with segments := Function.update bar.segments i seg }

/-- The loop `for (int i = 0; i < NUM_SEGMENTS; i++) body`, as a state
transformer. -/
def for_segments {σ : Type} (body : Fin NUM_SEGMENTS → σ → σ) (s : σ) : σ :=
  (List.finRange NUM_SEGMENTS).foldl (fun acc i => body i acc) s

/-- The function `any_modifier_active` (led.c:211-216). -/
def any_modifier_active (st : State) : Bool :=
  (List.finRange NUM_SEGMENTS).any fun i => st.system_state.modifiers i

/-! ## Colour and animation policies -/

/-- The function `get_battery_segment_config` (led.c:218-275). -/
def get_battery_segment_config (cfg : Config) (segment : Int) (battery_pct : Nat)
    (charging : Bool) : battery_segment_config :=
  let battery_pct := u8 battery_pct
  let is_critical : Bool := decide ((battery_pct : Int) < cfg.BATTERY_CRITICAL_THRESHOLD) && !charging
  let config : battery_segment_config :=
    { color := if is_critical then COLOR_BACKGROUND_RED else COLOR_BACKGROUND
      animation := ANIM_FADE }
  let filled_segments : Nat := u8 (battery_pct / BATTERY_PER_SEGMENT : Nat)
  if segment < (filled_segments : Int) then
    if charging then { config with color := COLOR_CHARGING_GREEN }
    else if is_critical then { color := COLOR_BATTERY_RED, animation := ANIM_BREATH }
    else if segment = 0 ∧ (battery_pct : Int) < cfg.BATTERY_LOW_THRESHOLD then
      { config with color := COLOR_BATTERY_YELLOW }
    else { config with color := COLOR_BATTERY_WHITE }
  else if segment = (filled_segments : Int) ∧ filled_segments < NUM_SEGMENTS then
    if charging then
      if (battery_pct : Int) < cfg.BATTERY_FULL_THRESHOLD then
        { color := COLOR_CHARGING_GREEN, animation := ANIM_BREATH }
      else { config with color := COLOR_CHARGING_GREEN }
    else if is_critical then { color := COLOR_BATTERY_RED, animation := ANIM_BREATH }
    else if cfg.BATTERY_GRANULAR then
      let segment_start : Nat := u8 (filled_segments * BATTERY_PER_SEGMENT : Nat)
      let pct_in_segment : Nat := u8 ((battery_pct : Int) - (segment_start : Int))
      if pct_in_segment < 8 then
        { config with color := if is_critical then COLOR_BACKGROUND_RED else COLOR_BACKGROUND }
      else
        let is_yellow : Bool :=
          decide (segment = 0 ∧ (battery_pct : Int) < cfg.BATTERY_LOW_THRESHOLD)
        if pct_in_segment < 17 then
          { config with
            color := if is_yellow then COLOR_BATTERY_YELLOW_MID else COLOR_BATTERY_WHITE_MID }
        else
          { config with color := if is_yellow then COLOR_BATTERY_YELLOW else COLOR_BATTERY_WHITE }
    else
      { config with
        color :=
          if segment = 0 ∧ (battery_pct : Int) < cfg.BATTERY_LOW_THRESHOLD then COLOR_BATTERY_YELLOW
          else COLOR_BATTERY_WHITE }
  else config

/-- The function `display_connection_status` (led.c:277-294). -/
def display_connection_status (cfg : Config) (st : State) : State :=
  for_segments (fun i st =>
    if (i : Nat) = st.system_state.active_profile then
      let color :=
        if st.system_state.connected then COLOR_PROFILE_CONNECTED
        else if st.system_state.advertising then COLOR_PROFILE_OPEN
        else COLOR_PROFILE_PAIRED
      let anim :=
        if st.system_state.advertising ||
            (!st.system_state.connected && !st.system_state.advertising)
        then ANIM_BREATH else ANIM_FADE
      let seg := segment_set cfg (st.conn_bar.segments i) color MAX_BRIGHTNESS anim
        cfg.LED_FADE_STEP_SIZE
      { st with conn_bar := st.conn_bar.setSegment i seg }
    else
      let seg := segment_set cfg (st.conn_bar.segments i) COLOR_BACKGROUND MAX_BRIGHTNESS
        ANIM_FADE cfg.LED_FADE_STEP_SIZE
      { st with conn_bar := st.conn_bar.setSegment i seg }) st

/-- The function `display_modifiers` (led.c:296-307). -/
def display_modifiers (cfg : Config) (st : State) : State :=
  for_segments (fun i st =>
    if st.system_state.modifiers i then
      let seg := segment_set cfg (st.conn_bar.segments i) COLOR_MODIFIER_ACTIVE MAX_BRIGHTNESS
        ANIM_FADE cfg.MODIFIER_FADE_STEP_SIZE
      { st with conn_bar := st.conn_bar.setSegment i seg }
    else if (st.conn_bar.segments i).target_brightness ≠ 0 then
      let seg : led_segment :=
        { (st.conn_bar.segments i) with
          target_brightness := 0
          animation := ANIM_FADE
          fade_step := i8 cfg.MODIFIER_FADE_STEP_SIZE }
      { st with conn_bar := st.conn_bar.setSegment i seg }
    else st) st

/-- The function `display_battery_status` (led.c:309-317). -/
def display_battery_status (cfg : Config) (st : State) : State :=
  for_segments (fun i st =>
    let config := get_battery_segment_config cfg ((i : Nat) : Int)
      st.system_state.battery_percentage st.system_state.charging
    let seg := segment_set cfg (st.batt_bar.segments i) config.color MAX_BRIGHTNESS
      config.animation cfg.LED_FADE_STEP_SIZE
    { st with batt_bar := st.batt_bar.setSegment i seg }) st

/-- The function `fade_out_bar` (led.c:319-325). -/
def fade_out_bar (cfg : Config) (bar : led_bar) : led_bar :=
  for_segments (fun i bar =>
    let seg : led_segment :=
      { (bar.segments i) with
        target_brightness := 0
        animation := ANIM_FADE
        fade_step := i8 cfg.LED_FADE_STEP_SIZE }
    bar.setSegment i seg) bar

/-- The function `bars_animating` (led.c:327-335). -/
def bars_animating (st : State) : Bool :=
  (List.finRange NUM_SEGMENTS).any fun i =>
    decide ((st.conn_bar.segments i).animation ≠ ANIM_NONE) ||
    decide ((st.batt_bar.segments i).animation ≠ ANIM_NONE)

/-! ## Display composer and render loop -/

/-- The function `refresh_system_state` (led.c:338-343). -/
def refresh_system_state (env : Env) (st : State) : State :=
  { st with system_state :=
      { st.system_state with
        connected := env.profile_connected
        advertising := env.profile_open && !env.profile_connected
        battery_percentage := u8 env.state_of_charge
        charging := env.usb_powered } }

/-- The status refresh at the start of `update_bars` (led.c:348-350). -/
def update_bars_refresh (env : Env) (st : State) : State :=
  if st.conn_bar.expire_time > 0 ∨ st.batt_bar.expire_time > 0 then refresh_system_state env st
  else st

/-- The connection-bar part of `update_bars` (led.c:352-367): window expiry,
then the choice between connection status, modifier overlay and fade-out. -/
def update_bars_conn (cfg : Config) (current_time : Int) (st : State) : State :=
  let st :=
    if st.conn_bar.expire_time > 0 ∧ current_time ≥ st.conn_bar.expire_time then
      let st := { st with conn_bar := { st.conn_bar with expire_time := 0 } }
      if !st.conn_bar.showing_modifiers then { st with conn_bar := fade_out_bar cfg st.conn_bar }
      else st
    else st
  if st.conn_bar.expire_time > 0 ∧ st.conn_bar.showing_modifiers = false then
    display_connection_status cfg st
  else if any_modifier_active st then
    display_modifiers cfg { st with conn_bar := { st.conn_bar with showing_modifiers := true } }
  else if st.conn_bar.showing_modifiers then
    let st := { st with conn_bar := { st.conn_bar with showing_modifiers := false } }
    { st with conn_bar := fade_out_bar cfg st.conn_bar }
  else st

/-- The battery-bar part of `update_bars` (led.c:369-376): window expiry, then
the battery status while the window is set. -/
def update_bars_batt (cfg : Config) (current_time : Int) (st : State) : State :=
  let st :=
    if st.batt_bar.expire_time > 0 ∧ current_time ≥ st.batt_bar.expire_time then
      let st := { st with batt_bar := { st.batt_bar with expire_time := 0 } }
      { st with batt_bar := fade_out_bar cfg st.batt_bar }
    else st
  if st.batt_bar.expire_time > 0 then display_battery_status cfg st else st

/-- The part of `update_bars` before its last loop (led.c:346-376), with
`current_time = k_uptime_get()`. -/
def update_bars_compose (cfg : Config) (env : Env) (st : State) : State :=
  let current_time := env.uptime
  update_bars_batt cfg current_time (update_bars_conn cfg current_time (update_bars_refresh env st))

/-- The last loop of `update_bars` (led.c:378-383): tick every segment and
write the dirty ones; the driver calls are appended in program order. -/
def update_bars_tick (cfg : Config) (p : State × List HwCmd) : State × List HwCmd :=
  for_segments (fun i p =>
    let st := p.1
    let c := segment_update cfg (st.conn_bar.segments i)
    let st := { st with conn_bar := st.conn_bar.setSegment i c }
    let b := segment_update cfg (st.batt_bar.segments i)
    let st := { st with batt_bar := st.batt_bar.setSegment i b }
    let wc := segment_write_hardware Device.led_conn_dev i (st.conn_bar.segments i)
    let st := { st with conn_bar := st.conn_bar.setSegment i wc.1 }
    let wb := segment_write_hardware Device.led_batt_dev i (st.batt_bar.segments i)
    let st := { st with batt_bar := st.batt_bar.setSegment i wb.1 }
    (st, p.2 ++ wc.2 ++ wb.2)) p

/-- The function `update_bars` (led.c:345-384): the state afterwards and the
driver calls made. -/
def update_bars (cfg : Config) (env : Env) (st : State) : State × List HwCmd :=
  update_bars_tick cfg (update_bars_compose cfg env st, [])

/-- The function `show_connection_status` (led.c:386-393), called at uptime
`now`.  The final `k_sem_give` wakes the render thread and changes none of
the variables of `State`. -/
def show_connection_status (cfg : Config) (now : Int) (st : State) : State :=
  let new_expire := now + cfg.LED_EVENT_DISPLAY_TIME_MS
  let st :=
    if st.conn_bar.expire_time < new_expire then
      { st with conn_bar := { st.conn_bar with expire_time := new_expire } }
    else st
  { st with conn_bar := { st.conn_bar with showing_modifiers := false } }

/-- The function `show_battery_status` (led.c:395-401), called at uptime
`now`. -/
def show_battery_status (cfg : Config) (now : Int) (st : State) : State :=
  let new_expire := now + cfg.LED_EVENT_DISPLAY_TIME_MS
  if st.batt_bar.expire_time < new_expire then
    { st with batt_bar := { st.batt_bar with expire_time := new_expire } }
  else st

/-- How an iteration of the render loop waits before the next one:
`k_sleep(K_MSEC(ms))` or `k_sem_take(&led_update_sem, K_MSEC(timeout_ms))`. -/
inductive Wait where
  | k_sleep (ms : Nat)
  | k_sem_take (timeout_ms : Nat)
deriving DecidableEq, Repr

/-- One iteration of the `while (1)` loop of `led_thread` (led.c:500-508):
the state after `update_bars`, the driver calls made, and the wait chosen. -/
def led_thread_iteration (cfg : Config) (env : Env) (st : State) :
    State × List HwCmd × Wait :=
  let r := update_bars cfg env st
  if bars_animating r.1 then (r.1, r.2, Wait.k_sleep 10)
  else (r.1, r.2, Wait.k_sem_take 100)

/-- A zeroed segment with `dirty = true`, as `led_init` leaves every segment
before the startup animation (led.c:440-445). -/
def zero_segment : led_segment :=
  { color := (0, 0, 0), brightness := 0, target_brightness := 0, animation := ANIM_NONE,
    fade_step := 0, breath_ascending := false, dirty := true }

/-! ## Window expiry, modifier events and the startup animation -/

/-- The window-expiry step of the connection bar in `update_bars`
(led.c:352-357), the first statement of `update_bars_conn`. -/
def update_bars_conn_expire (cfg : Config) (current_time : Int) (st : State) : State :=
  if st.conn_bar.expire_time > 0 ∧ current_time ≥ st.conn_bar.expire_time then
    let st := { st with conn_bar := { st.conn_bar with expire_time := 0 } }
    if !st.conn_bar.showing_modifiers then { st with conn_bar := fade_out_bar cfg st.conn_bar }
    else st
  else st

/-- Consecutive calls of `update_bars`, one per element of `envs` (the values
read from outside in that call), with no other operation in between; the
driver calls are dropped. -/
def update_bars_run (cfg : Config) (envs : List Env) (st : State) : State :=
  envs.foldl (fun s env => (update_bars cfg env s).1) st

/-- The segment positions `MOD_SEGMENT_SHIFT`, `MOD_SEGMENT_CTRL`,
`MOD_SEGMENT_ALT`, `MOD_SEGMENT_GUI`. -/
abbrev MOD_SEGMENT_SHIFT : Fin NUM_SEGMENTS := 0

abbrev MOD_SEGMENT_CTRL : Fin NUM_SEGMENTS := 1

abbrev MOD_SEGMENT_ALT : Fin NUM_SEGMENTS := 2

abbrev MOD_SEGMENT_GUI : Fin NUM_SEGMENTS := 3

/-- The eight `HID_USAGE_KEY_KEYBOARD_*` usage codes that `update_modifier_state`
switches on; they come from a header that is not part of the sources. -/
structure HidUsage where
  HID_USAGE_KEY_KEYBOARD_LEFTSHIFT : Nat
  HID_USAGE_KEY_KEYBOARD_RIGHTSHIFT : Nat
  HID_USAGE_KEY_KEYBOARD_LEFTCONTROL : Nat
  HID_USAGE_KEY_KEYBOARD_RIGHTCONTROL : Nat
  HID_USAGE_KEY_KEYBOARD_LEFTALT : Nat
  HID_USAGE_KEY_KEYBOARD_RIGHTALT : Nat
  HID_USAGE_KEY_KEYBOARD_LEFT_GUI : Nat
  HID_USAGE_KEY_KEYBOARD_RIGHT_GUI : Nat
deriving DecidableEq, Repr

/-- The `switch` of `update_modifier_state` (led.c:404-423): the value of the
local `segment`, with `none` for its initial value `-1`. -/
def modifier_segment (hid : HidUsage) (keycode : Nat) : Option (Fin NUM_SEGMENTS) :=
  if keycode = hid.HID_USAGE_KEY_KEYBOARD_LEFTSHIFT ∨
      keycode = hid.HID_USAGE_KEY_KEYBOARD_RIGHTSHIFT then some MOD_SEGMENT_SHIFT
  else if keycode = hid.HID_USAGE_KEY_KEYBOARD_LEFTCONTROL ∨
      keycode = hid.HID_USAGE_KEY_KEYBOARD_RIGHTCONTROL then some MOD_SEGMENT_CTRL
  else if keycode = hid.HID_USAGE_KEY_KEYBOARD_LEFTALT ∨
      keycode = hid.HID_USAGE_KEY_KEYBOARD_RIGHTALT then some MOD_SEGMENT_ALT
  else if keycode = hid.HID_USAGE_KEY_KEYBOARD_LEFT_GUI ∨
      keycode = hid.HID_USAGE_KEY_KEYBOARD_RIGHT_GUI then some MOD_SEGMENT_GUI
  else none

/-- The function `update_modifier_state` (led.c:403-429).  The `k_sem_give`
changes none of the variables of `State`. -/
def update_modifier_state (hid : HidUsage) (keycode : Nat) (pressed : Bool) (st : State) :
    State :=
  match modifier_segment hid (u8 keycode) with
  | some segment =>
    if st.system_state.modifiers segment ≠ pressed then
      { st with system_state :=
          { st.system_state with
            modifiers := Function.update st.system_state.modifiers segment pressed } }
    else st
  | none => st

/-- A sequence of key events `(keycode, pressed)` handled one after the other
by `update_modifier_state`. -/
def handle_key_events (hid : HidUsage) (events : List (Nat × Bool)) (st : State) : State :=
  events.foldl (fun s e => update_modifier_state hid e.1 e.2 s) st

/-- Whether the physical key `key` is held after a sequence of key events that
starts with every key released: the state given by its last event. -/
def key_held (events : List (Nat × Bool)) (key : Nat) : Bool :=
  events.foldl (fun held e => if u8 e.1 = key then e.2 else held) false

/-- The body of the `while` loop of a startup stage (led.c:474-477): tick and
write the stage's two segments (the `k_sleep` is not modelled). -/
def led_init_stage_body (cfg : Config) (conn_idx batt_idx : Fin NUM_SEGMENTS)
    (p : State × List HwCmd) : State × List HwCmd :=
  let st := p.1
  let c := segment_update cfg (st.conn_bar.segments conn_idx)
  let st := { st with conn_bar := st.conn_bar.setSegment conn_idx c }
  let b := segment_update cfg (st.batt_bar.segments batt_idx)
  let st := { st with batt_bar := st.batt_bar.setSegment batt_idx b }
  let wc := segment_write_hardware Device.led_conn_dev conn_idx (st.conn_bar.segments conn_idx)
  let st := { st with conn_bar := st.conn_bar.setSegment conn_idx wc.1 }
  let wb := segment_write_hardware Device.led_batt_dev batt_idx (st.batt_bar.segments batt_idx)
  let st := { st with batt_bar := st.batt_bar.setSegment batt_idx wb.1 }
  (st, p.2 ++ wc.2 ++ wb.2)

/-- The `while` loop of a startup stage (led.c:472-479), run for at most `fuel`
iterations: `none` if the loop condition still holds when the fuel is used
up, otherwise the state, the driver calls and the number of iterations made. -/
def led_init_stage_loop (cfg : Config) (conn_idx batt_idx : Fin NUM_SEGMENTS) :
    Nat → State × List HwCmd → Option (State × List HwCmd × Nat)
  | fuel, p =>
    if (p.1.conn_bar.segments conn_idx).animation ≠ ANIM_NONE ∨
        (p.1.batt_bar.segments batt_idx).animation ≠ ANIM_NONE then
      match fuel with
      | 0 => none
      | fuel + 1 =>
        (led_init_stage_loop cfg conn_idx batt_idx fuel
          (led_init_stage_body cfg conn_idx batt_idx p)).map
          fun r => (r.1, r.2.1, r.2.2 + 1)
    else some (p.1, p.2, 0)

/-- The connection segment of a startup stage,
`conn_idx = NUM_SEGMENTS - 1 - stage` (led.c:464). -/
def stage_conn_idx (stage : Fin NUM_SEGMENTS) : Fin NUM_SEGMENTS :=
  ⟨NUM_SEGMENTS - 1 - stage, Nat.lt_of_le_of_lt (Nat.sub_le _ _) (by decide)⟩

/-- The start of a startup stage (led.c:464-470): the two `segment_set` calls
that make the stage's connection and battery segment fade to full
brightness in the background colour. -/
def led_init_stage_start (cfg : Config) (stage : Fin NUM_SEGMENTS) (p : State × List HwCmd) :
    State × List HwCmd :=
  let conn_idx : Fin NUM_SEGMENTS := stage_conn_idx stage
  let batt_idx : Fin NUM_SEGMENTS := stage
  let st := p.1
  let c := segment_set cfg (st.conn_bar.segments conn_idx) COLOR_BACKGROUND MAX_BRIGHTNESS
    ANIM_FADE cfg.LED_INIT_FADE_STEP_SIZE
  let st := { st with conn_bar := st.conn_bar.setSegment conn_idx c }
  let b := segment_set cfg (st.batt_bar.segments batt_idx) COLOR_BACKGROUND MAX_BRIGHTNESS
    ANIM_FADE cfg.LED_INIT_FADE_STEP_SIZE
  let st := { st with batt_bar := st.batt_bar.setSegment batt_idx b }
  (st, p.2)

/-- One stage of the startup animation (the body of the `for` loop,
led.c:464-479): the two `segment_set` calls, then the `while` loop. -/
def led_init_stage (cfg : Config) (fuel : Nat) (stage : Fin NUM_SEGMENTS)
    (p : State × List HwCmd) : Option (State × List HwCmd × Nat) :=
  led_init_stage_loop cfg (stage_conn_idx stage) stage fuel (led_init_stage_start cfg stage p)

/-- The startup animation of `led_init` (led.c:463-482): the four stages in
order, each with `fuel` as the bound of its `while` loop.  The result is the
state, the driver calls and the iteration count of every stage. -/
def led_init_startup_animation (cfg : Config) (fuel : Nat) (st : State) :
    Option (State × List HwCmd × List Nat) :=
  (List.finRange NUM_SEGMENTS).foldl
    (fun acc stage =>
      acc.bind fun r =>
        (led_init_stage cfg fuel stage (r.1, r.2.1)).map
          fun q => (q.1, q.2.1, r.2.2 ++ [q.2.2]))
    (some (st, [], []))

/-- What `segment_update` followed by `segment_write_hardware` leaves of a
segment, the pair of calls that `update_bars` and the startup stages make on
every segment they animate. -/
def tick_and_write (cfg : Config) (dev : Device) (index : Nat) (seg : led_segment) :
    led_segment :=
  (segment_write_hardware dev index (segment_update cfg seg)).1

/-! ## Derived quantities and concrete instances -/

/-- The number of ticks a fade over distance `D` with step `S` takes, `ceil(D/S)`. -/
def fade_ticks (D S : Nat) : Nat := (D + S - 1) / S

/-- A configuration with the values the specification uses in its examples
(critical threshold 15, full threshold 95). -/
def example_config : Config :=
  { LED_FADE_STEP_SIZE := 5, LED_INIT_FADE_STEP_SIZE := 3, LED_BREATH_STEP_SIZE := 2,
    LED_BREATH_MIN := 20, LED_BREATH_MAX := 100, MODIFIER_FADE_STEP_SIZE := 10,
    LED_STARTUP_DISPLAY_TIME_MS := 5000, LED_EVENT_DISPLAY_TIME_MS := 3000,
    LED_INIT_PAUSE_TIME_MS := 500, BATTERY_CRITICAL_THRESHOLD := 15,
    BATTERY_LOW_THRESHOLD := 30, BATTERY_FULL_THRESHOLD := 95, BATTERY_GRANULAR := false }

/-- A fading segment: brightness 0,
target 100, `fade_step = -7`. -/
def fade_example : led_segment :=
  { color := colors COLOR_BACKGROUND, brightness := 0, target_brightness := 100,
    animation := ANIM_FADE, fade_step := -7, breath_ascending := false, dirty := true }

/-- The globals as `led_init` leaves them after its two `memset`s and the
`dirty = true` loop (led.c:440-445), with the given status snapshot. -/
def zeroed_state (sys : system_state_t) : State :=
  { conn_bar := { segments := fun _ => zero_segment, expire_time := 0, showing_modifiers := false }
    batt_bar := { segments := fun _ => zero_segment, expire_time := 0, showing_modifiers := false }
    system_state := sys }

/-- The status snapshot of the connection example of the specification:
profile 1 selected, not connected, advertising; no modifier held. -/
def advertising_status : system_state_t :=
  { active_profile := 1, connected := false, advertising := true, battery_percentage := 60,
    charging := false, modifiers := fun _ => false }

/-- The zeroed bars with the connection window open until uptime 1000 and
the shift modifier held. -/
def window_with_shift_held : State :=
  { conn_bar := { segments := fun _ => zero_segment, expire_time := 1000, showing_modifiers := false }
    batt_bar := { segments := fun _ => zero_segment, expire_time := 0, showing_modifiers := false }
    system_state :=
      { active_profile := 1, connected := false, advertising := true, battery_percentage := 60,
        charging := false, modifiers := fun i => decide (i = 0) } }

/-- The outside world at uptime `t`: profile not connected but open, battery
at 60 percent, no USB power. -/
def env_at (t : Int) : Env :=
  { uptime := t, profile_connected := false, profile_open := true, state_of_charge := 60,
    usb_powered := false }

/-- The usage codes of the USB HID keyboard page for the eight modifier keys. -/
def usb_hid_usage : HidUsage :=
  { HID_USAGE_KEY_KEYBOARD_LEFTCONTROL := 0xE0
    HID_USAGE_KEY_KEYBOARD_LEFTSHIFT := 0xE1
    HID_USAGE_KEY_KEYBOARD_LEFTALT := 0xE2
    HID_USAGE_KEY_KEYBOARD_LEFT_GUI := 0xE3
    HID_USAGE_KEY_KEYBOARD_RIGHTCONTROL := 0xE4
    HID_USAGE_KEY_KEYBOARD_RIGHTSHIFT := 0xE5
    HID_USAGE_KEY_KEYBOARD_RIGHTALT := 0xE6
    HID_USAGE_KEY_KEYBOARD_RIGHT_GUI := 0xE7 }

/-- Left shift down, right shift down, right shift up. -/
def shift_events : List (Nat × Bool) := [(0xE1, true), (0xE5, true), (0xE5, false)]

/-- A status snapshot with profile 1 connected and the given modifier flags. -/
def connected_status (modifiers : Fin NUM_SEGMENTS → Bool) : system_state_t :=
  { active_profile := 1, connected := true, advertising := false, battery_percentage := 60,
    charging := false, modifiers := modifiers }

/-- A segment whose fade to full brightness has finished and has been written:
brightness 100, target 100, `None`, clean, with the fade step 5 of
`example_config`. -/
def settled_segment (color : color_index) : led_segment :=
  { color := colors color, brightness := 100, target_brightness := 100, animation := ANIM_NONE,
    fade_step := 5, breath_ascending := false, dirty := false }

/-- A segment that is off and has been written. -/
def off_segment : led_segment :=
  { color := (0, 0, 0), brightness := 0, target_brightness := 0, animation := ANIM_NONE,
    fade_step := 0, breath_ascending := false, dirty := false }

/-- The state in the middle of a connection window that lasts until uptime
1000: profile 1 is connected, the four connection segments have settled on
what `display_connection_status` asks for (segment 1 connected-white, the
others background), the battery bar is off. -/
def settled_window_state (modifiers : Fin NUM_SEGMENTS → Bool) : State :=
  { conn_bar :=
      { segments := fun i =>
          if i = 1 then settled_segment COLOR_PROFILE_CONNECTED
          else settled_segment COLOR_BACKGROUND
        expire_time := 1000, showing_modifiers := false }
    batt_bar := { segments := fun _ => off_segment, expire_time := 0, showing_modifiers := false }
    system_state := connected_status modifiers }

/-- The outside world at uptime `t` with the profile connected, battery at 60
percent, no USB power. -/
def connected_env_at (t : Int) : Env :=
  { uptime := t, profile_connected := true, profile_open := false, state_of_charge := 60,
    usb_powered := false }

/-- The state that `update_bars` hands to `display_modifiers` when the window
of `settled_window_state` expires with shift held: the window cleared, every
segment retargeted to 0 by `fade_out_bar` (normal step 5, brightness still
100), overlay mode entered. -/
def fading_out_shift_held : State :=
  { conn_bar :=
      { segments := fun i =>
          { color := if i = 1 then colors COLOR_PROFILE_CONNECTED else colors COLOR_BACKGROUND
            brightness := 100, target_brightness := 0, animation := ANIM_FADE, fade_step := 5,
            breath_ascending := false, dirty := false }
        expire_time := 0, showing_modifiers := true }
    batt_bar := { segments := fun _ => off_segment, expire_time := 0, showing_modifiers := false }
    system_state := connected_status fun i => decide (i = 0) }

/-- A configuration whose breath range starts at 0: `LED_BREATH_MIN = 0`,
`LED_BREATH_MAX = 100`, `LED_BREATH_STEP_SIZE = 3`. -/
def breath_from_zero_config : Config :=
  { example_config with LED_BREATH_MIN := 0, LED_BREATH_MAX := 100, LED_BREATH_STEP_SIZE := 3 }

/-- A breathing segment on its way down at brightness 1, as reached from
brightness 100 by 33 descending ticks of step 3. -/
def breath_low_segment : led_segment :=
  { color := colors COLOR_PROFILE_OPEN, brightness := 1, target_brightness := 100,
    animation := ANIM_BREATH, fade_step := 5, breath_ascending := false, dirty := false }

/-- The range invariant of the data model: brightness and target brightness
are at most 100. -/
abbrev brightness_in_range (seg : led_segment) : Prop :=
  seg.brightness ≤ 100 ∧ seg.target_brightness ≤ 100

/-- The configuration of the examples in granular mode. -/
def granular_config : Config := { example_config with BATTERY_GRANULAR := true }

/-- A segment as the startup animation leaves it: background colour,
brightness 100, target 100, `None`, written. -/
abbrev startup_settled (seg : led_segment) : Prop :=
  seg.color = colors COLOR_BACKGROUND ∧ seg.brightness = 100 ∧ seg.target_brightness = 100 ∧
    seg.animation = ANIM_NONE ∧ seg.dirty = false

/-- The state at the end of a battery window that lasts until uptime 1000:
the four battery segments have settled at full brightness in white, the
connection bar is off and has no window. -/
def battery_window_state : State :=
  { conn_bar := { segments := fun _ => off_segment, expire_time := 0, showing_modifiers := false }
    batt_bar :=
      { segments := fun _ => settled_segment COLOR_BATTERY_WHITE
        expire_time := 1000, showing_modifiers := false }
    system_state := connected_status fun _ => false }

/-- The configuration of the examples with `LED_INIT_FADE_STEP_SIZE = -30`. -/
def fast_startup_config : Config := { example_config with LED_INIT_FADE_STEP_SIZE := -30 }

/-! ## Initialisation and event listeners -/

/-- The eight `MOD_*` masks that `led_init` tests in the value of
`zmk_hid_get_explicit_mods()`; they come from a header that is not part of
the sources. -/
structure ModFlags where
  MOD_LCTL : Nat
  MOD_LSFT : Nat
  MOD_LALT : Nat
  MOD_LGUI : Nat
  MOD_RCTL : Nat
  MOD_RSFT : Nat
  MOD_RALT : Nat
  MOD_RGUI : Nat
deriving DecidableEq, Repr

/-- What `led_init` reads from outside: whether the two LED devices are ready,
`zmk_ble_active_profile_index()`, the values that `refresh_system_state` reads
(the `uptime` of `status` is not read), `zmk_hid_get_explicit_mods()`, the
value that the call number `k` of `zmk_battery_state_of_charge()` in the retry
loop returns, and `k_uptime_get()` at line 486. -/
structure InitEnv where
  conn_dev_ready : Bool
  batt_dev_ready : Bool
  active_profile_index : Int
  status : Env
  explicit_mods : Nat
  battery_reading : Nat → Nat
  uptime : Int

/-- The globals `conn_bar`, `batt_bar` and `system_state` before `led_init`
runs: objects of static storage duration, hence all zero. -/
def static_state : State :=
  { conn_bar := { segments := fun _ => off_segment, expire_time := 0, showing_modifiers := false }
    batt_bar := { segments := fun _ => off_segment, expire_time := 0, showing_modifiers := false }
    system_state :=
      { active_profile := 0, connected := false, advertising := false, battery_percentage := 0,
        charging := false, modifiers := fun _ => false } }

/-- The retry loop of `led_init` (led.c:457-460),
`for (retry = 0; retry < 10 && battery_percentage == 0; retry++)`; the first
argument counts the retries that are left, `10 - retry`. -/
def led_init_battery_retry (reading : Nat → Nat) : Nat → Nat → Nat → Nat
  | 0, _, battery => battery
  | left + 1, retry, battery =>
    if battery = 0 then led_init_battery_retry reading left (retry + 1) (u8 (reading retry))
    else battery

/-- The function `led_init` (led.c:431-495). When a device is not ready it
returns at once and leaves the globals as they are; otherwise it zeroes both
bars with every segment dirty, takes the status snapshot, plays the startup
animation and opens both windows until
`k_uptime_get() + LED_STARTUP_DISPLAY_TIME_MS`. The result is `none` when the
fuel of the animation runs out; the return code, which `led_thread` ignores,
is left out. -/
def led_init (cfg : Config) (mod : ModFlags) (fuel : Nat) (ienv : InitEnv) (st : State) :
    Option (State × List HwCmd) :=
  if !ienv.conn_dev_ready || !ienv.batt_dev_ready then some (st, [])
  else
    let st := zeroed_state st.system_state
    let st := { st with system_state :=
                  { st.system_state with active_profile := u8 ienv.active_profile_index } }
    let st := refresh_system_state ienv.status st
    let mods := u8 ienv.explicit_mods
    let modifiers := Function.update st.system_state.modifiers MOD_SEGMENT_SHIFT
      (decide (mods &&& (mod.MOD_LSFT ||| mod.MOD_RSFT) ≠ 0))
    let modifiers := Function.update modifiers MOD_SEGMENT_CTRL
      (decide (mods &&& (mod.MOD_LCTL ||| mod.MOD_RCTL) ≠ 0))
    let modifiers := Function.update modifiers MOD_SEGMENT_ALT
      (decide (mods &&& (mod.MOD_LALT ||| mod.MOD_RALT) ≠ 0))
    let modifiers := Function.update modifiers MOD_SEGMENT_GUI
      (decide (mods &&& (mod.MOD_LGUI ||| mod.MOD_RGUI) ≠ 0))
    let st := { st with system_state := { st.system_state with modifiers := modifiers } }
    let battery := led_init_battery_retry ienv.battery_reading 10 0
      st.system_state.battery_percentage
    let st := { st with system_state := { st.system_state with battery_percentage := battery } }
    (led_init_startup_animation cfg fuel st).map fun r =>
      let st := r.1
      let startup_expire := ienv.uptime + cfg.LED_STARTUP_DISPLAY_TIME_MS
      let st := { st with conn_bar := { st.conn_bar with expire_time := startup_expire } }
      let st := { st with batt_bar := { st.batt_bar with expire_time := startup_expire } }
      (st, r.2.1)

/-- The listener `ble_profile_changed_listener` (led.c:511-516): the `int`
that `zmk_ble_active_profile_index()` returns is stored in the `uint8_t` field
without a range check, then the connection window is opened. -/
def ble_profile_changed_listener (cfg : Config) (index : Int) (now : Int) (st : State) : State :=
  let st := { st with system_state := { st.system_state with active_profile := u8 index } }
  show_connection_status cfg now st

/-- The listener `activity_state_changed_listener` (led.c:521-534). `active` is
`event && event->state == ZMK_ACTIVITY_ACTIVE`, `transport_ble` is
`zmk_endpoints_selected().transport == ZMK_TRANSPORT_BLE`, and `now_conn`,
`now_batt` are the uptimes that the two display requests read. -/
def activity_state_changed_listener (cfg : Config) (active : Bool) (env : Env)
    (transport_ble : Bool) (now_conn now_batt : Int) (st : State) : State :=
  if active then
    let st := refresh_system_state env st
    let st := if !st.system_state.connected && transport_ble then
        show_connection_status cfg now_conn st else st
    if (st.system_state.battery_percentage : Int) < cfg.BATTERY_CRITICAL_THRESHOLD then
      show_battery_status cfg now_batt st
    else st
  else st

/-- The operations that change the globals once `led_init` has returned: an
iteration of the render loop (`update_bars`), the two display requests (also
reached through `led_show_ble_status`, `led_show_battery_status` and
`usb_conn_state_changed_listener`), a modifier update (the body of
`keycode_state_changed_listener`), and the profile and activity listeners. -/
inductive EngineOp where
  | tick (env : Env)
  | show_connection (now : Int)
  | show_battery (now : Int)
  | modifier (keycode : Nat) (pressed : Bool)
  | profile_changed (index : Int) (now : Int)
  | activity_changed (active : Bool) (env : Env) (transport_ble : Bool) (now_conn now_batt : Int)

/-- One operation applied to the globals; the driver calls of a tick are
dropped. -/
def engine_step (cfg : Config) (hid : HidUsage) (op : EngineOp) (st : State) : State :=
  match op with
  | .tick env => (update_bars cfg env st).1
  | .show_connection now => show_connection_status cfg now st
  | .show_battery now => show_battery_status cfg now st
  | .modifier keycode pressed => update_modifier_state hid keycode pressed st
  | .profile_changed index now => ble_profile_changed_listener cfg index now st
  | .activity_changed active env transport_ble now_conn now_batt =>
    activity_state_changed_listener cfg active env transport_ble now_conn now_batt st

/-- A sequence of operations applied one after the other, each one as a
whole. -/
def engine_run (cfg : Config) (hid : HidUsage) (ops : List EngineOp) (st : State) : State :=
  ops.foldl (fun s op => engine_step cfg hid op s) st

/-- The modifier masks of the HID modifier byte. -/
def hid_mod_flags : ModFlags :=
  { MOD_LCTL := 0x01, MOD_LSFT := 0x02, MOD_LALT := 0x04, MOD_LGUI := 0x08,
    MOD_RCTL := 0x10, MOD_RSFT := 0x20, MOD_RALT := 0x40, MOD_RGUI := 0x80 }

/-- A boot with both devices ready, profile 1 advertising, no modifier held,
a battery reading of 60 and the windows opened at uptime 1000. -/
def example_init_env : InitEnv :=
  { conn_dev_ready := true, batt_dev_ready := true, active_profile_index := 1,
    status := env_at 0, explicit_mods := 0, battery_reading := fun _ => 60, uptime := 1000 }

/-- The result of `led_init` for the example boot with init step `-30`. -/
def example_boot : Option (State × List HwCmd) :=
  led_init fast_startup_config hid_mod_flags 4 example_init_env static_state

/-- The status snapshot of the connection example with the profile index 4,
one past the last segment. -/
def out_of_range_status : system_state_t := { advertising_status with active_profile := 4 }

/-- The configuration of the examples with `LED_FADE_STEP_SIZE = 200`, a
value that does not fit the `int8_t` field `fade_step`. -/
def wide_fade_config : Config := { example_config with LED_FADE_STEP_SIZE := 200 }

/-- The configuration of the examples with `LED_INIT_FADE_STEP_SIZE = 200`, a
value that does not fit the `int8_t` parameter of `segment_set`. -/
def wide_init_config : Config := { example_config with LED_INIT_FADE_STEP_SIZE := 200 }

/-- The configuration of the examples with `LED_INIT_FADE_STEP_SIZE = 256`,
which the `int8_t` parameter of `segment_set` holds as 0. -/
def zero_init_config : Config := { example_config with LED_INIT_FADE_STEP_SIZE := 256 }

/-! # Theorems -/

/-! ## Segment state machine: fading -/

theorem ticks_zero (cfg : Config) (seg : led_segment) : ticks cfg 0 seg = seg := rfl

theorem ticks_succ (cfg : Config) (n : Nat) (seg : led_segment) :
    ticks cfg (n + 1) seg = segment_update cfg (ticks cfg n seg) := by
  unfold ticks
  exact Function.iterate_succ_apply' _ _ _

theorem ticks_add (cfg : Config) (m n : Nat) (seg : led_segment) :
    ticks cfg (m + n) seg = ticks cfg m (ticks cfg n seg) := by
  unfold ticks
  exact Function.iterate_add_apply _ _ _ _

/-- A fading segment further than one step below its target rises by the step. -/
theorem segment_update_fade_up (cfg : Config) (seg : led_segment) (S : Nat)
    (hA : seg.animation = ANIM_FADE) (hS : abs seg.fade_step = (S : Int))
    (hT : seg.target_brightness < 256) (hfar : seg.brightness + S < seg.target_brightness) :
    segment_update cfg seg = { seg with brightness := seg.brightness + S, dirty := true } := by
  have h1 : seg.brightness ≠ seg.target_brightness := by omega
  have h2 : ¬ abs ((seg.target_brightness : Int) - (seg.brightness : Int)) ≤ (S : Int) := by
    unfold abs; split_ifs <;> omega
  have h3 : (seg.target_brightness : Int) - (seg.brightness : Int) > 0 := by omega
  have h4 : u8 ((seg.brightness : Int) + (S : Int)) = seg.brightness + S := by
    unfold u8; omega
  simp only [segment_update, hA, hS, h1, h2, h3, h4, ne_eq, not_false_eq_true, if_true, if_false]

/-- A fading segment further than one step above its target falls by the step. -/
theorem segment_update_fade_down (cfg : Config) (seg : led_segment) (S : Nat)
    (hA : seg.animation = ANIM_FADE) (hS : abs seg.fade_step = (S : Int))
    (hB : seg.brightness < 256) (hfar : seg.target_brightness + S < seg.brightness) :
    segment_update cfg seg = { seg with brightness := seg.brightness - S, dirty := true } := by
  have h1 : seg.brightness ≠ seg.target_brightness := by omega
  have h2 : ¬ abs ((seg.target_brightness : Int) - (seg.brightness : Int)) ≤ (S : Int) := by
    unfold abs; split_ifs <;> omega
  have h3 : ¬ (seg.target_brightness : Int) - (seg.brightness : Int) > 0 := by omega
  have h4 : u8 ((seg.brightness : Int) + -(S : Int)) = seg.brightness - S := by
    unfold u8; omega
  simp only [segment_update, hA, hS, h1, h2, h3, h4, ne_eq, not_false_eq_true, if_true, if_false]

/-- A fading segment within one step of its target snaps to it and settles. -/
theorem segment_update_fade_near (cfg : Config) (seg : led_segment) (S : Nat)
    (hA : seg.animation = ANIM_FADE) (hS : abs seg.fade_step = (S : Int))
    (hne : seg.brightness ≠ seg.target_brightness)
    (hnear : seg.brightness ≤ seg.target_brightness + S ∧
      seg.target_brightness ≤ seg.brightness + S) :
    segment_update cfg seg =
      { seg with brightness := seg.target_brightness, animation := ANIM_NONE, dirty := true } := by
  have h2 : abs ((seg.target_brightness : Int) - (seg.brightness : Int)) ≤ (S : Int) := by
    unfold abs; split_ifs <;> omega
  simp only [segment_update, hA, hS, hne, h2, ne_eq, not_false_eq_true, if_true]

/-- A settled segment at its target is a fixed point of the tick. -/
theorem segment_update_none_at_target (cfg : Config) (seg : led_segment)
    (hA : seg.animation = ANIM_NONE) (hB : seg.brightness = seg.target_brightness) :
    segment_update cfg seg = seg := by
  simp only [segment_update, hA, hB, ne_eq, not_true_eq_false, if_false]

theorem lt_fade_ticks_iff (D S k : Nat) (hS : 1 ≤ S) : k < fade_ticks D S ↔ k * S < D := by
  unfold fade_ticks
  have h1 : k < (D + S - 1) / S ↔ k + 1 ≤ (D + S - 1) / S := Iff.rfl
  have h2 : (k + 1) * S = k * S + S := by ring
  rw [h1, Nat.le_div_iff_mul_le (by omega), h2]
  omega

/-- The whole trajectory of a fade: before `ceil(D/S)` ticks the brightness is
`k` steps from the start and the segment still fades; from then on the
brightness is the target and the segment has settled. -/
theorem fade_trajectory (cfg : Config) (seg : led_segment) (S : Nat)
    (hA : seg.animation = ANIM_FADE) (hS : abs seg.fade_step = (S : Int)) (hS1 : 1 ≤ S)
    (hB : seg.brightness < 256) (hT : seg.target_brightness < 256) (k : Nat) :
    (ticks cfg k seg).target_brightness = seg.target_brightness ∧
    ((k * S < Int.natAbs ((seg.target_brightness : Int) - (seg.brightness : Int)) ∧
        (seg.brightness ≤ seg.target_brightness →
          (ticks cfg k seg).brightness = seg.brightness + k * S) ∧
        (seg.target_brightness ≤ seg.brightness →
          (ticks cfg k seg).brightness + k * S = seg.brightness) ∧
        (ticks cfg k seg).animation = ANIM_FADE ∧
        (ticks cfg k seg).fade_step = seg.fade_step) ∨
     (Int.natAbs ((seg.target_brightness : Int) - (seg.brightness : Int)) ≤ k * S ∧
        (ticks cfg k seg).brightness = seg.target_brightness ∧
        ((ticks cfg k seg).animation = ANIM_NONE ∨
          (k = 0 ∧ (ticks cfg k seg).animation = ANIM_FADE)))) := by
  induction k with
  | zero =>
    rw [ticks_zero]
    refine ⟨rfl, ?_⟩
    by_cases h : seg.brightness = seg.target_brightness
    · right
      exact ⟨by omega, h, Or.inr ⟨rfl, hA⟩⟩
    · left
      exact ⟨by omega, fun _ => by omega, fun _ => by omega, hA, rfl⟩
  | succ k ih =>
    rw [ticks_succ]
    have hmul : (k + 1) * S = k * S + S := by ring
    obtain ⟨ht, ih⟩ := ih
    rcases ih with ⟨hk, hup, hdown, hanim, hfs⟩ | ⟨hk, hb, hanim⟩
    · have hS' : abs (ticks cfg k seg).fade_step = (S : Int) := by rw [hfs]; exact hS
      by_cases hfar : (k + 1) * S <
          Int.natAbs ((seg.target_brightness : Int) - (seg.brightness : Int))
      · rcases Nat.lt_or_ge seg.brightness seg.target_brightness with hlt | hge
        · have hb := hup (by omega)
          rw [segment_update_fade_up cfg _ S hanim hS' (by omega) (by omega)]
          exact ⟨ht, Or.inl ⟨hfar, fun _ => by simp only []; omega,
            fun _ => by simp only []; omega, hanim, hfs⟩⟩
        · have hb := hdown hge
          rw [segment_update_fade_down cfg _ S hanim hS' (by omega) (by omega)]
          exact ⟨ht, Or.inl ⟨hfar, fun _ => by simp only []; omega,
            fun _ => by simp only []; omega, hanim, hfs⟩⟩
      · have hne : (ticks cfg k seg).brightness ≠ (ticks cfg k seg).target_brightness := by
          rcases Nat.lt_or_ge seg.brightness seg.target_brightness with hlt | hge
          · have hb := hup (by omega); omega
          · have hb := hdown hge; omega
        have hnear : (ticks cfg k seg).brightness ≤ (ticks cfg k seg).target_brightness + S ∧
            (ticks cfg k seg).target_brightness ≤ (ticks cfg k seg).brightness + S := by
          rcases Nat.lt_or_ge seg.brightness seg.target_brightness with hlt | hge
          · have hb := hup (by omega); omega
          · have hb := hdown hge; omega
        rw [segment_update_fade_near cfg _ S hanim hS' hne hnear]
        exact ⟨ht, Or.inr ⟨by omega, ht, Or.inl rfl⟩⟩
    · have hstep : segment_update cfg (ticks cfg k seg) =
          { ticks cfg k seg with animation := ANIM_NONE } := by
        rcases hanim with hn | ⟨_, hf⟩
        · rw [segment_update_none_at_target cfg _ hn (by rw [hb, ht])]
          cases hseg : ticks cfg k seg
          rw [hseg] at hn
          simp only [] at hn
          rw [hn]
        · have heq : (ticks cfg k seg).brightness = (ticks cfg k seg).target_brightness := by
            rw [hb, ht]
          simp only [segment_update, hf, heq, ne_eq, not_true_eq_false, if_false]
      rw [hstep]
      exact ⟨ht, Or.inr ⟨by omega, hb, Or.inl rfl⟩⟩

/-- C1. A segment in `Fade` with brightness `B` and target `T` in 0..100 and
a fade step of magnitude `S >= 1`: every tick moves the brightness by exactly
`S` toward `T` while the remaining distance exceeds `S`; the brightness never
leaves the interval between `B` and `T`; for `B != T` the brightness differs
from `T` during the first `ceil(|T-B|/S) - 1` ticks, equals `T` after exactly
`ceil(|T-B|/S)` ticks, and on that tick the animation is `None`; and whenever
the brightness is not `T` the animation is still `Fade`. -/
theorem fade_reaches_target_exactly (cfg : Config) (seg : led_segment) (S : Nat)
    (hA : seg.animation = ANIM_FADE)
    (hB : seg.brightness ≤ 100) (hT : seg.target_brightness ≤ 100)
    (hS : abs seg.fade_step = (S : Int)) (hS1 : 1 ≤ S) :
    (∀ k,
      ((ticks cfg k seg).brightness + S < seg.target_brightness →
        (ticks cfg (k + 1) seg).brightness = (ticks cfg k seg).brightness + S) ∧
      (seg.target_brightness + S < (ticks cfg k seg).brightness →
        (ticks cfg (k + 1) seg).brightness + S = (ticks cfg k seg).brightness)) ∧
    (∀ k,
      (seg.brightness ≤ seg.target_brightness →
        seg.brightness ≤ (ticks cfg k seg).brightness ∧
        (ticks cfg k seg).brightness ≤ seg.target_brightness) ∧
      (seg.target_brightness ≤ seg.brightness →
        seg.target_brightness ≤ (ticks cfg k seg).brightness ∧
        (ticks cfg k seg).brightness ≤ seg.brightness)) ∧
    (seg.brightness ≠ seg.target_brightness →
      (∀ k, k < fade_ticks (Int.natAbs ((seg.target_brightness : Int) - seg.brightness)) S →
        (ticks cfg k seg).brightness ≠ seg.target_brightness) ∧
      (ticks cfg (fade_ticks (Int.natAbs ((seg.target_brightness : Int) - seg.brightness)) S)
        seg).brightness = seg.target_brightness ∧
      (ticks cfg (fade_ticks (Int.natAbs ((seg.target_brightness : Int) - seg.brightness)) S)
        seg).animation = ANIM_NONE) ∧
    (∀ k, (ticks cfg k seg).brightness ≠ seg.target_brightness →
      (ticks cfg k seg).animation = ANIM_FADE) := by
  have traj := fade_trajectory cfg seg S hA hS hS1 (by omega) (by omega)
  refine ⟨fun k => ⟨fun h => ?_, fun h => ?_⟩, fun k => ⟨fun h => ?_, fun h => ?_⟩,
    fun hne => ⟨fun k hk => ?_, ?_, ?_⟩, fun k h => ?_⟩
  · obtain ⟨ht, ⟨_, _, _, hanim, hfs⟩ | ⟨_, hb, _⟩⟩ := traj k
    · rw [ticks_succ, segment_update_fade_up cfg _ S hanim (by rw [hfs]; exact hS)
        (by omega) (by omega)]
    · omega
  · obtain ⟨ht, ⟨_, _, _, hanim, hfs⟩ | ⟨_, hb, _⟩⟩ := traj k
    · rw [ticks_succ, segment_update_fade_down cfg _ S hanim (by rw [hfs]; exact hS)
        (by omega) (by omega)]
      simp only []
      omega
    · omega
  · obtain ⟨_, ⟨hk, hup, _, _, _⟩ | ⟨_, hb, _⟩⟩ := traj k
    · have := hup h; omega
    · omega
  · obtain ⟨_, ⟨hk, _, hdown, _, _⟩ | ⟨_, hb, _⟩⟩ := traj k
    · have := hdown h; omega
    · omega
  · rw [lt_fade_ticks_iff _ _ _ hS1] at hk
    obtain ⟨_, ⟨_, hup, hdown, _, _⟩ | ⟨hge, _, _⟩⟩ := traj k
    · rcases Nat.lt_or_ge seg.brightness seg.target_brightness with hlt | hge
      · have := hup (by omega); omega
      · have := hdown hge; omega
    · omega
  · have hn := lt_fade_ticks_iff (Int.natAbs ((seg.target_brightness : Int) - seg.brightness)) S
      (fade_ticks (Int.natAbs ((seg.target_brightness : Int) - seg.brightness)) S) hS1
    obtain ⟨_, ⟨hlt, _, _, _, _⟩ | ⟨_, hb, _⟩⟩ := traj (fade_ticks _ S)
    · exact absurd (hn.2 hlt) (lt_irrefl _)
    · exact hb
  · have hn := lt_fade_ticks_iff (Int.natAbs ((seg.target_brightness : Int) - seg.brightness)) S
      (fade_ticks (Int.natAbs ((seg.target_brightness : Int) - seg.brightness)) S) hS1
    have h0 := lt_fade_ticks_iff (Int.natAbs ((seg.target_brightness : Int) - seg.brightness)) S
      0 hS1
    obtain ⟨_, ⟨hlt, _, _, _, _⟩ | ⟨_, _, hnone | ⟨hz, _⟩⟩⟩ := traj (fade_ticks _ S)
    · exact absurd (hn.2 hlt) (lt_irrefl _)
    · exact hnone
    · have : 0 < fade_ticks (Int.natAbs ((seg.target_brightness : Int) - seg.brightness)) S :=
        h0.2 (by omega)
      omega
  · obtain ⟨_, ⟨_, _, _, hanim, _⟩ | ⟨_, hb, _⟩⟩ := traj k
    · exact hanim
    · exact absurd hb h

/-- Instance of C1: from brightness 0 to target 100 with `fade_step = -7` the
target is first reached after `ceil(100/7) = 15` ticks, where the animation
is `None`; after 14 ticks the brightness is 98. -/
theorem fade_reaches_target_exactly_witness :
    fade_ticks (Int.natAbs ((100 : Int) - (0 : Nat))) 7 = 15 ∧
    (ticks example_config 14 fade_example).brightness ≠ 100 ∧
    (ticks example_config 15 fade_example).brightness = 100 ∧
    (ticks example_config 15 fade_example).animation = ANIM_NONE :=
  have h := (fade_reaches_target_exactly example_config fade_example 7 rfl (by decide)
    (by decide) (by decide) (by decide)).2.2.1 (by decide)
  ⟨by decide, h.1 14 (by decide), h.2.1, h.2.2⟩

/-! ## Segment state machine: breathing -/

/-- One tick of a breathing segment leaves it breathing, with the brightness
inside the breath bounds, whatever the brightness was before. -/
theorem segment_update_breath_range (cfg : Config)
    (hmin : 0 ≤ cfg.LED_BREATH_MIN) (hle : cfg.LED_BREATH_MIN ≤ cfg.LED_BREATH_MAX)
    (hmax : cfg.LED_BREATH_MAX ≤ 100) (seg : led_segment) (hA : seg.animation = ANIM_BREATH) :
    (segment_update cfg seg).animation = ANIM_BREATH ∧
    cfg.LED_BREATH_MIN ≤ ((segment_update cfg seg).brightness : Int) ∧
    ((segment_update cfg seg).brightness : Int) ≤ cfg.LED_BREATH_MAX := by
  have hMax : (u8 cfg.LED_BREATH_MAX : Int) = cfg.LED_BREATH_MAX := by unfold u8; omega
  have hMin : (u8 cfg.LED_BREATH_MIN : Int) = cfg.LED_BREATH_MIN := by unfold u8; omega
  simp only [segment_update, hA]
  split_ifs <;> refine ⟨rfl, ?_, ?_⟩ <;> simp only [hMax, hMin] <;> omega

/-- A call of `segment_set` that selects `Breath` and passes the no-change
guard leaves the segment breathing with the brightness inside the bounds. -/
theorem segment_set_breath_range (cfg : Config)
    (hmin : 0 ≤ cfg.LED_BREATH_MIN) (hle : cfg.LED_BREATH_MIN ≤ cfg.LED_BREATH_MAX)
    (hmax : cfg.LED_BREATH_MAX ≤ 100) (seg : led_segment) (color : color_index)
    (target : Nat) (fade_step : Int)
    (hchg : ¬ (seg.color = colors color ∧ seg.target_brightness = u8 target ∧
      seg.animation = ANIM_BREATH)) :
    (segment_set cfg seg color target ANIM_BREATH fade_step).animation = ANIM_BREATH ∧
    cfg.LED_BREATH_MIN ≤ ((segment_set cfg seg color target ANIM_BREATH fade_step).brightness : Int) ∧
    ((segment_set cfg seg color target ANIM_BREATH fade_step).brightness : Int) ≤
      cfg.LED_BREATH_MAX := by
  have hMax : (u8 cfg.LED_BREATH_MAX : Int) = cfg.LED_BREATH_MAX := by unfold u8; omega
  have hMin : (u8 cfg.LED_BREATH_MIN : Int) = cfg.LED_BREATH_MIN := by unfold u8; omega
  simp only [segment_set, hchg, if_false, if_true]
  split_ifs <;> refine ⟨rfl, ?_, ?_⟩ <;> simp only [hMax, hMin] <;> omega

/-- A call of `segment_set` whose guard holds returns the segment as it was. -/
theorem segment_set_unchanged (cfg : Config) (seg : led_segment) (color : color_index)
    (target : Nat) (anim : animation_type) (fade_step : Int)
    (h : seg.color = colors color ∧ seg.target_brightness = u8 target ∧ seg.animation = anim) :
    segment_set cfg seg color target anim fade_step = seg := by
  simp only [segment_set, h, and_self, if_true]

/-- C2. Once `segment_set` has selected `Breath` in a call that changes the
segment, the brightness lies in `[LED_BREATH_MIN, LED_BREATH_MAX]`, and after
any number `n` of ticks the animation is still `Breath` (never `None`) and the
brightness is still within the bounds, for `0 <= MIN <= MAX <= 100`. -/
theorem breath_never_settles_and_stays_in_range (cfg : Config)
    (hmin : 0 ≤ cfg.LED_BREATH_MIN) (hle : cfg.LED_BREATH_MIN ≤ cfg.LED_BREATH_MAX)
    (hmax : cfg.LED_BREATH_MAX ≤ 100) (seg : led_segment) (color : color_index)
    (target : Nat) (fade_step : Int)
    (hchg : segment_set cfg seg color target ANIM_BREATH fade_step ≠ seg) (n : Nat) :
    (ticks cfg n (segment_set cfg seg color target ANIM_BREATH fade_step)).animation =
      ANIM_BREATH ∧
    (ticks cfg n (segment_set cfg seg color target ANIM_BREATH fade_step)).animation ≠
      ANIM_NONE ∧
    cfg.LED_BREATH_MIN ≤
      ((ticks cfg n (segment_set cfg seg color target ANIM_BREATH fade_step)).brightness : Int) ∧
    ((ticks cfg n (segment_set cfg seg color target ANIM_BREATH fade_step)).brightness : Int) ≤
      cfg.LED_BREATH_MAX := by
  have hguard : ¬ (seg.color = colors color ∧ seg.target_brightness = u8 target ∧
      seg.animation = ANIM_BREATH) :=
    fun h => hchg (segment_set_unchanged cfg seg color target ANIM_BREATH fade_step h)
  have key : (ticks cfg n (segment_set cfg seg color target ANIM_BREATH fade_step)).animation =
        ANIM_BREATH ∧
      cfg.LED_BREATH_MIN ≤
        ((ticks cfg n (segment_set cfg seg color target ANIM_BREATH fade_step)).brightness : Int) ∧
      ((ticks cfg n (segment_set cfg seg color target ANIM_BREATH fade_step)).brightness : Int) ≤
        cfg.LED_BREATH_MAX := by
    induction n with
    | zero =>
      rw [ticks_zero]
      exact segment_set_breath_range cfg hmin hle hmax seg color target fade_step hguard
    | succ n ih =>
      rw [ticks_succ]
      exact segment_update_breath_range cfg hmin hle hmax _ ih.1
  exact ⟨key.1, by rw [key.1]; decide, key.2.1, key.2.2⟩

/-- Instance of C2: selecting `Breath` on a zeroed segment clamps the
brightness to the lower bound 20, and 1000 ticks later the segment still
breathes between 20 and 100. -/
theorem breath_never_settles_and_stays_in_range_witness :
    (segment_set example_config zero_segment COLOR_PROFILE_OPEN 100 ANIM_BREATH 5).brightness = 20 ∧
    (ticks example_config 1000
      (segment_set example_config zero_segment COLOR_PROFILE_OPEN 100 ANIM_BREATH 5)).animation =
      ANIM_BREATH ∧
    (20 : Int) ≤ ((ticks example_config 1000
      (segment_set example_config zero_segment COLOR_PROFILE_OPEN 100 ANIM_BREATH 5)).brightness : Int) ∧
    ((ticks example_config 1000
      (segment_set example_config zero_segment COLOR_PROFILE_OPEN 100 ANIM_BREATH 5)).brightness : Int)
      ≤ 100 :=
  have h := breath_never_settles_and_stays_in_range example_config (by decide) (by decide)
    (by decide) zero_segment COLOR_PROFILE_OPEN 100 5 (by decide) 1000
  ⟨by decide, h.1, h.2.2.1, h.2.2.2⟩

/-! ## Segment state machine: `segment_set` -/

/-- After `segment_set`, whichever branch it took, the segment has the
requested colour bytes, target and animation. -/
theorem segment_set_post (cfg : Config) (seg : led_segment) (color : color_index)
    (target : Nat) (anim : animation_type) (fade_step : Int) :
    (segment_set cfg seg color target anim fade_step).color = colors color ∧
    (segment_set cfg seg color target anim fade_step).target_brightness = u8 target ∧
    (segment_set cfg seg color target anim fade_step).animation = anim := by
  by_cases h : seg.color = colors color ∧ seg.target_brightness = u8 target ∧
      seg.animation = anim
  · rw [segment_set_unchanged cfg seg color target anim fade_step h]
    exact h
  · simp only [segment_set, h, if_false]
    split_ifs <;> exact ⟨rfl, rfl, rfl⟩

/-- C3. `segment_set` on a segment whose colour bytes, target brightness and
animation already equal the requested ones (the target taken as the
`uint8_t` argument value) returns the segment unchanged, whatever fade step
is passed; hence a second call with the same arguments returns the state the
first call produced, `dirty` included. -/
theorem segment_set_idempotent (cfg : Config) (seg : led_segment) (color : color_index)
    (target : Nat) (anim : animation_type) (fade_step : Int) :
    (∀ other_step : Int,
      seg.color = colors color → seg.target_brightness = u8 target → seg.animation = anim →
      segment_set cfg seg color target anim other_step = seg) ∧
    segment_set cfg (segment_set cfg seg color target anim fade_step) color target anim
        fade_step =
      segment_set cfg seg color target anim fade_step ∧
    (segment_set cfg (segment_set cfg seg color target anim fade_step) color target anim
        fade_step).dirty =
      (segment_set cfg seg color target anim fade_step).dirty := by
  have h2 : segment_set cfg (segment_set cfg seg color target anim fade_step) color target anim
        fade_step =
      segment_set cfg seg color target anim fade_step :=
    segment_set_unchanged cfg _ color target anim fade_step
      (segment_set_post cfg seg color target anim fade_step)
  exact ⟨fun other_step hc ht ha =>
      segment_set_unchanged cfg seg color target anim other_step ⟨hc, ht, ha⟩,
    h2, by rw [h2]⟩

/-- Instance of C3: a settled, clean background segment at brightness 40 is
returned untouched by a matching `segment_set` with another fade step, and
setting a zeroed segment twice gives the state of the first call. -/
theorem segment_set_idempotent_witness :
    segment_set example_config
        { color := colors COLOR_BACKGROUND, brightness := 40, target_brightness := 100,
          animation := ANIM_FADE, fade_step := 5, breath_ascending := false, dirty := false }
        COLOR_BACKGROUND 100 ANIM_FADE 9 =
      { color := colors COLOR_BACKGROUND, brightness := 40, target_brightness := 100,
        animation := ANIM_FADE, fade_step := 5, breath_ascending := false, dirty := false } :=
  (segment_set_idempotent example_config
      { color := colors COLOR_BACKGROUND, brightness := 40, target_brightness := 100,
        animation := ANIM_FADE, fade_step := 5, breath_ascending := false, dirty := false }
      COLOR_BACKGROUND 100 ANIM_FADE 5).1 9 rfl (by decide) rfl

/-! ## Battery segment policy -/

theorem u8_of_lt (n : Nat) (h : n < 256) : u8 (n : Int) = n := by
  unfold u8; omega

theorem u8_filled (pct : Nat) (h : pct < 256) :
    u8 ((pct / BATTERY_PER_SEGMENT : Nat) : Int) = pct / 25 := by
  show u8 ((pct / 25 : Nat) : Int) = pct / 25
  unfold u8; omega

/-- C4. Critical battery (`pct < BATTERY_CRITICAL_THRESHOLD`, not charging):
every segment `i` in 0..3 with `i <= pct / 25` is battery-red with `Breath`,
every segment with `i > pct / 25` is red-tinted background with `Fade`; with
threshold 15 and `pct = 10` that is segment 0 red + `Breath` and segments 1-3
red background + `Fade`. -/
theorem battery_critical_policy (cfg : Config) :
    (∀ (pct i : Nat), pct < 256 → (pct : Int) < cfg.BATTERY_CRITICAL_THRESHOLD → i ≤ 3 →
      (i ≤ pct / 25 →
        get_battery_segment_config cfg (i : Int) pct false =
          { color := COLOR_BATTERY_RED, animation := ANIM_BREATH }) ∧
      (pct / 25 < i →
        get_battery_segment_config cfg (i : Int) pct false =
          { color := COLOR_BACKGROUND_RED, animation := ANIM_FADE })) ∧
    (cfg.BATTERY_CRITICAL_THRESHOLD = 15 →
      get_battery_segment_config cfg 0 10 false =
        { color := COLOR_BATTERY_RED, animation := ANIM_BREATH } ∧
      get_battery_segment_config cfg 1 10 false =
        { color := COLOR_BACKGROUND_RED, animation := ANIM_FADE } ∧
      get_battery_segment_config cfg 2 10 false =
        { color := COLOR_BACKGROUND_RED, animation := ANIM_FADE } ∧
      get_battery_segment_config cfg 3 10 false =
        { color := COLOR_BACKGROUND_RED, animation := ANIM_FADE }) := by
  have gen : ∀ (pct i : Nat), pct < 256 → (pct : Int) < cfg.BATTERY_CRITICAL_THRESHOLD → i ≤ 3 →
      (i ≤ pct / 25 →
        get_battery_segment_config cfg (i : Int) pct false =
          { color := COLOR_BATTERY_RED, animation := ANIM_BREATH }) ∧
      (pct / 25 < i →
        get_battery_segment_config cfg (i : Int) pct false =
          { color := COLOR_BACKGROUND_RED, animation := ANIM_FADE }) := by
    intro pct i hpct hcrit hi
    have hu := u8_of_lt pct hpct
    have hf := u8_filled pct hpct
    refine ⟨fun h => ?_, fun h => ?_⟩ <;>
      simp only [get_battery_segment_config, hu, hf, hcrit, decide_True, Bool.not_false,
        Bool.and_self, Bool.false_eq_true, if_true, if_false, NUM_SEGMENTS] <;>
      split_ifs <;> first | rfl | omega
  refine ⟨gen, fun h15 => ?_⟩
  have h10 : ((10 : Nat) : Int) < cfg.BATTERY_CRITICAL_THRESHOLD := by rw [h15]; decide
  exact ⟨(gen 10 0 (by decide) h10 (by decide)).1 (by decide),
    (gen 10 1 (by decide) h10 (by decide)).2 (by decide),
    (gen 10 2 (by decide) h10 (by decide)).2 (by decide),
    (gen 10 3 (by decide) h10 (by decide)).2 (by decide)⟩

/-- Instance of C4 with the configuration of the examples (critical
threshold 15): at 10 percent, not charging, segment 0 is red + `Breath` and
segment 3 is red background + `Fade`. -/
theorem battery_critical_policy_witness :
    get_battery_segment_config example_config 0 10 false =
      { color := COLOR_BATTERY_RED, animation := ANIM_BREATH } ∧
    get_battery_segment_config example_config 3 10 false =
      { color := COLOR_BACKGROUND_RED, animation := ANIM_FADE } :=
  ⟨((battery_critical_policy example_config).1 10 0 (by decide) (by decide) (by decide)).1
      (by decide),
    ((battery_critical_policy example_config).2 rfl).2.2.2⟩

/-- C5. Not charging and not critical (`pct >= BATTERY_CRITICAL_THRESHOLD`):
every fully filled segment `i < pct / 25` (`i` in 0..3) has animation `Fade`
and is low-battery yellow when `i = 0` and `pct < BATTERY_LOW_THRESHOLD`,
full-battery white otherwise; at 100 percent, with both thresholds at most
100, all four segments are white with `Fade`. -/
theorem battery_filled_policy (cfg : Config) :
    (∀ (pct i : Nat), pct < 256 → cfg.BATTERY_CRITICAL_THRESHOLD ≤ (pct : Int) → i ≤ 3 →
      i < pct / 25 →
      get_battery_segment_config cfg (i : Int) pct false =
        { color :=
            if i = 0 ∧ (pct : Int) < cfg.BATTERY_LOW_THRESHOLD then COLOR_BATTERY_YELLOW
            else COLOR_BATTERY_WHITE
          animation := ANIM_FADE }) ∧
    (cfg.BATTERY_CRITICAL_THRESHOLD ≤ 100 → cfg.BATTERY_LOW_THRESHOLD ≤ 100 →
      ∀ i : Nat, i ≤ 3 →
        get_battery_segment_config cfg (i : Int) 100 false =
          { color := COLOR_BATTERY_WHITE, animation := ANIM_FADE }) := by
  have gen : ∀ (pct i : Nat), pct < 256 → cfg.BATTERY_CRITICAL_THRESHOLD ≤ (pct : Int) → i ≤ 3 →
      i < pct / 25 →
      get_battery_segment_config cfg (i : Int) pct false =
        { color :=
            if i = 0 ∧ (pct : Int) < cfg.BATTERY_LOW_THRESHOLD then COLOR_BATTERY_YELLOW
            else COLOR_BATTERY_WHITE
          animation := ANIM_FADE } := by
    intro pct i hpct hcrit hi hfill
    have hu := u8_of_lt pct hpct
    have hf := u8_filled pct hpct
    have hnc : ¬ (pct : Int) < cfg.BATTERY_CRITICAL_THRESHOLD := by omega
    have hlt : (i : Int) < ((pct / 25 : Nat) : Int) := by omega
    have hi0 : (i : Int) = 0 ↔ i = 0 := by omega
    simp only [get_battery_segment_config, hu, hf, hnc, hlt, hi0, decide_False, Bool.not_false,
      Bool.and_true, Bool.false_eq_true, if_true, if_false]
    split_ifs <;> rfl
  refine ⟨gen, fun hc hl i hi => ?_⟩
  rw [gen 100 i (by decide) hc hi (by omega)]
  have : ¬ (i = 0 ∧ ((100 : Nat) : Int) < cfg.BATTERY_LOW_THRESHOLD) := by omega
  simp only [this, if_false]

/-- Instance of C5 with the configuration of the examples (critical 15, low
30): at 100 percent segment 2 is white + `Fade`, and at 28 percent the filled
segment 0 is yellow + `Fade`. -/
theorem battery_filled_policy_witness :
    get_battery_segment_config example_config 2 100 false =
      { color := COLOR_BATTERY_WHITE, animation := ANIM_FADE } ∧
    get_battery_segment_config example_config 0 28 false =
      { color := COLOR_BATTERY_YELLOW, animation := ANIM_FADE } :=
  ⟨(battery_filled_policy example_config).2 (by decide) (by decide) 2 (by decide),
    (battery_filled_policy example_config).1 28 0 (by decide) (by decide) (by decide)
      (by decide)⟩

/-- C6. Charging, with `filled = pct / 25` and `i` in 0..3: a segment
`i < filled` is charging-green with `Fade`; the segment `i = filled` is
charging-green, with `Breath` if `pct < BATTERY_FULL_THRESHOLD` and `Fade`
otherwise; a segment `i > filled` is neutral background with `Fade`.  With
full threshold 95 and `pct = 60`: segments 0-1 green `Fade`, segment 2 green
`Breath`, segment 3 background `Fade`. -/
theorem battery_charging_policy (cfg : Config) :
    (∀ (pct i : Nat), pct < 256 → i ≤ 3 →
      (i < pct / 25 →
        get_battery_segment_config cfg (i : Int) pct true =
          { color := COLOR_CHARGING_GREEN, animation := ANIM_FADE }) ∧
      (i = pct / 25 →
        get_battery_segment_config cfg (i : Int) pct true =
          { color := COLOR_CHARGING_GREEN
            animation :=
              if (pct : Int) < cfg.BATTERY_FULL_THRESHOLD then ANIM_BREATH else ANIM_FADE }) ∧
      (pct / 25 < i →
        get_battery_segment_config cfg (i : Int) pct true =
          { color := COLOR_BACKGROUND, animation := ANIM_FADE })) ∧
    (cfg.BATTERY_FULL_THRESHOLD = 95 →
      get_battery_segment_config cfg 0 60 true =
        { color := COLOR_CHARGING_GREEN, animation := ANIM_FADE } ∧
      get_battery_segment_config cfg 1 60 true =
        { color := COLOR_CHARGING_GREEN, animation := ANIM_FADE } ∧
      get_battery_segment_config cfg 2 60 true =
        { color := COLOR_CHARGING_GREEN, animation := ANIM_BREATH } ∧
      get_battery_segment_config cfg 3 60 true =
        { color := COLOR_BACKGROUND, animation := ANIM_FADE }) := by
  have gen : ∀ (pct i : Nat), pct < 256 → i ≤ 3 →
      (i < pct / 25 →
        get_battery_segment_config cfg (i : Int) pct true =
          { color := COLOR_CHARGING_GREEN, animation := ANIM_FADE }) ∧
      (i = pct / 25 →
        get_battery_segment_config cfg (i : Int) pct true =
          { color := COLOR_CHARGING_GREEN
            animation :=
              if (pct : Int) < cfg.BATTERY_FULL_THRESHOLD then ANIM_BREATH else ANIM_FADE }) ∧
      (pct / 25 < i →
        get_battery_segment_config cfg (i : Int) pct true =
          { color := COLOR_BACKGROUND, animation := ANIM_FADE }) := by
    intro pct i hpct hi
    have hu := u8_of_lt pct hpct
    have hf := u8_filled pct hpct
    refine ⟨fun h => ?_, fun h => ?_, fun h => ?_⟩ <;>
      simp only [get_battery_segment_config, hu, hf, Bool.not_true, Bool.and_false,
        Bool.false_eq_true, if_true, if_false, NUM_SEGMENTS] <;>
      split_ifs <;> first | rfl | omega
  refine ⟨gen, fun h95 => ?_⟩
  have h60 : ((60 : Nat) : Int) < cfg.BATTERY_FULL_THRESHOLD := by rw [h95]; decide
  have h2 := (gen 60 2 (by decide) (by decide)).2.1 (by decide)
  simp only [h60, if_true] at h2
  exact ⟨(gen 60 0 (by decide) (by decide)).1 (by decide),
    (gen 60 1 (by decide) (by decide)).1 (by decide), h2,
    (gen 60 3 (by decide) (by decide)).2.2 (by decide)⟩

/-- Instance of C6 with the configuration of the examples (full threshold
95): at 60 percent while charging segment 2 is green + `Breath`; at 97
percent the partial segment 3 is green + `Fade`. -/
theorem battery_charging_policy_witness :
    get_battery_segment_config example_config 2 60 true =
      { color := COLOR_CHARGING_GREEN, animation := ANIM_BREATH } ∧
    get_battery_segment_config example_config 3 97 true =
      { color := COLOR_CHARGING_GREEN, animation := ANIM_FADE } :=
  ⟨((battery_charging_policy example_config).2 rfl).2.2.1,
    ((battery_charging_policy example_config).1 97 3 (by decide) (by decide)).2.1 (by decide)⟩

/-! ## Loops over the segments of a bar -/

theorem finRange_segments :
    List.finRange NUM_SEGMENTS = [(0 : Fin NUM_SEGMENTS), 1, 2, 3] := rfl

/-- A loop whose iteration `j` rewrites component `j` from its old value and
from data that no iteration changes, and leaves every other component alone,
computes the componentwise map. -/
theorem for_segments_pointwise {σ α ρ : Type} (body : Fin NUM_SEGMENTS → σ → σ)
    (get : σ → Fin NUM_SEGMENTS → α) (rest : σ → ρ) (f : Fin NUM_SEGMENTS → ρ → α → α)
    (hself : ∀ j s, get (body j s) j = f j (rest s) (get s j))
    (hother : ∀ j s i, i ≠ j → get (body j s) i = get s i)
    (hrest : ∀ j s, rest (body j s) = rest s) (s : σ) :
    rest (for_segments body s) = rest s ∧
    ∀ i, get (for_segments body s) i = f i (rest s) (get s i) := by
  have hfold : for_segments body s = body 3 (body 2 (body 1 (body 0 s))) := rfl
  rw [hfold]
  refine ⟨by simp only [hrest], fun i => ?_⟩
  fin_cases i
  · show get (body 3 (body 2 (body 1 (body 0 s)))) 0 = f 0 (rest s) (get s 0)
    rw [hother 3 _ 0 (by decide), hother 2 _ 0 (by decide), hother 1 _ 0 (by decide), hself]
  · show get (body 3 (body 2 (body 1 (body 0 s)))) 1 = f 1 (rest s) (get s 1)
    rw [hother 3 _ 1 (by decide), hother 2 _ 1 (by decide), hself, hrest,
      hother 0 _ 1 (by decide)]
  · show get (body 3 (body 2 (body 1 (body 0 s)))) 2 = f 2 (rest s) (get s 2)
    rw [hother 3 _ 2 (by decide), hself, hrest, hrest, hother 1 _ 2 (by decide),
      hother 0 _ 2 (by decide)]
  · show get (body 3 (body 2 (body 1 (body 0 s)))) 3 = f 3 (rest s) (get s 3)
    rw [hself, hrest, hrest, hrest, hother 2 _ 3 (by decide), hother 1 _ 3 (by decide),
      hother 0 _ 3 (by decide)]

theorem setSegment_same (bar : led_bar) (i : Fin NUM_SEGMENTS) (seg : led_segment) :
    (bar.setSegment i seg).segments i = seg := by
  simp only [led_bar.setSegment, Function.update_same]

theorem setSegment_other (bar : led_bar) (i j : Fin NUM_SEGMENTS) (seg : led_segment)
    (h : i ≠ j) : (bar.setSegment j seg).segments i = bar.segments i := by
  simp only [led_bar.setSegment, Function.update_noteq h]

/-- What `display_connection_status` does to each segment, and that it
changes nothing but the segments of the connection bar. -/
theorem display_connection_status_spec (cfg : Config) (st : State) :
    ((display_connection_status cfg st).system_state = st.system_state ∧
      (display_connection_status cfg st).batt_bar = st.batt_bar ∧
      (display_connection_status cfg st).conn_bar.expire_time = st.conn_bar.expire_time ∧
      (display_connection_status cfg st).conn_bar.showing_modifiers =
        st.conn_bar.showing_modifiers) ∧
    ∀ i : Fin NUM_SEGMENTS,
      (display_connection_status cfg st).conn_bar.segments i =
        if (i : Nat) = st.system_state.active_profile then
          segment_set cfg (st.conn_bar.segments i)
            (if st.system_state.connected then COLOR_PROFILE_CONNECTED
             else if st.system_state.advertising then COLOR_PROFILE_OPEN
             else COLOR_PROFILE_PAIRED)
            MAX_BRIGHTNESS
            (if st.system_state.advertising ||
                (!st.system_state.connected && !st.system_state.advertising)
             then ANIM_BREATH else ANIM_FADE)
            cfg.LED_FADE_STEP_SIZE
        else
          segment_set cfg (st.conn_bar.segments i) COLOR_BACKGROUND MAX_BRIGHTNESS ANIM_FADE
            cfg.LED_FADE_STEP_SIZE := by
  have h := for_segments_pointwise
    (fun i (st : State) =>
      if (i : Nat) = st.system_state.active_profile then
        let color :=
          if st.system_state.connected then COLOR_PROFILE_CONNECTED
          else if st.system_state.advertising then COLOR_PROFILE_OPEN
          else COLOR_PROFILE_PAIRED
        let anim :=
          if st.system_state.advertising ||
              (!st.system_state.connected && !st.system_state.advertising)
          then ANIM_BREATH else ANIM_FADE
        let seg := segment_set cfg (st.conn_bar.segments i) color MAX_BRIGHTNESS anim
          cfg.LED_FADE_STEP_SIZE
        { st with conn_bar := st.conn_bar.setSegment i seg }
      else
        let seg := segment_set cfg (st.conn_bar.segments i) COLOR_BACKGROUND MAX_BRIGHTNESS
          ANIM_FADE cfg.LED_FADE_STEP_SIZE
        { st with conn_bar := st.conn_bar.setSegment i seg })
    (fun st => st.conn_bar.segments)
    (fun st => (st.system_state, st.batt_bar, st.conn_bar.expire_time,
      st.conn_bar.showing_modifiers))
    (fun i r seg =>
      if (i : Nat) = r.1.active_profile then
        segment_set cfg seg
          (if r.1.connected then COLOR_PROFILE_CONNECTED
           else if r.1.advertising then COLOR_PROFILE_OPEN
           else COLOR_PROFILE_PAIRED)
          MAX_BRIGHTNESS
          (if r.1.advertising || (!r.1.connected && !r.1.advertising)
           then ANIM_BREATH else ANIM_FADE)
          cfg.LED_FADE_STEP_SIZE
      else
        segment_set cfg seg COLOR_BACKGROUND MAX_BRIGHTNESS ANIM_FADE cfg.LED_FADE_STEP_SIZE)
    (by intro j s; dsimp only; split_ifs <;> exact setSegment_same _ _ _)
    (by intro j s i hij; dsimp only; split_ifs <;> exact setSegment_other _ _ _ _ hij)
    (by intro j s; dsimp only; split_ifs <;> rfl)
    st
  obtain ⟨hrest, hseg⟩ := h
  simp only [Prod.mk.injEq] at hrest
  exact ⟨hrest, hseg⟩

/-! ## Connection policy -/

theorem u8_max_brightness : u8 ((MAX_BRIGHTNESS : Nat) : Int) = 100 := by decide

/-- C7. When `connected` and `advertising` are not both true, after
`display_connection_status` the connection segment whose index is
`active_profile` has target brightness 100 and is connected-white with `Fade`
if connected, open-yellow with `Breath` if advertising, paired-cyan with
`Breath` if neither; every other segment has the background colour, target 100
and `Fade`.  For profile 1, not connected, advertising: segment 1 is
open-yellow + `Breath` and segments 0, 2, 3 are background + `Fade`. -/
theorem connection_status_policy (cfg : Config) (st : State)
    (hx : ¬ (st.system_state.connected = true ∧ st.system_state.advertising = true)) :
    (∀ i : Fin NUM_SEGMENTS, (i : Nat) = st.system_state.active_profile →
      ((display_connection_status cfg st).conn_bar.segments i).target_brightness = 100 ∧
      (st.system_state.connected = true →
        ((display_connection_status cfg st).conn_bar.segments i).color =
          colors COLOR_PROFILE_CONNECTED ∧
        ((display_connection_status cfg st).conn_bar.segments i).animation = ANIM_FADE) ∧
      (st.system_state.advertising = true →
        ((display_connection_status cfg st).conn_bar.segments i).color =
          colors COLOR_PROFILE_OPEN ∧
        ((display_connection_status cfg st).conn_bar.segments i).animation = ANIM_BREATH) ∧
      (st.system_state.connected = false → st.system_state.advertising = false →
        ((display_connection_status cfg st).conn_bar.segments i).color =
          colors COLOR_PROFILE_PAIRED ∧
        ((display_connection_status cfg st).conn_bar.segments i).animation = ANIM_BREATH)) ∧
    (∀ i : Fin NUM_SEGMENTS, (i : Nat) ≠ st.system_state.active_profile →
      ((display_connection_status cfg st).conn_bar.segments i).color = colors COLOR_BACKGROUND ∧
      ((display_connection_status cfg st).conn_bar.segments i).target_brightness = 100 ∧
      ((display_connection_status cfg st).conn_bar.segments i).animation = ANIM_FADE) ∧
    (st.system_state.active_profile = 1 → st.system_state.connected = false →
      st.system_state.advertising = true →
      ((display_connection_status cfg st).conn_bar.segments 1).color =
        colors COLOR_PROFILE_OPEN ∧
      ((display_connection_status cfg st).conn_bar.segments 1).animation = ANIM_BREATH ∧
      ∀ i : Fin NUM_SEGMENTS, i ≠ 1 →
        ((display_connection_status cfg st).conn_bar.segments i).color =
          colors COLOR_BACKGROUND ∧
        ((display_connection_status cfg st).conn_bar.segments i).animation = ANIM_FADE) := by
  have hseg := (display_connection_status_spec cfg st).2
  have hactive : ∀ i : Fin NUM_SEGMENTS, (i : Nat) = st.system_state.active_profile →
      ((display_connection_status cfg st).conn_bar.segments i).target_brightness = 100 ∧
      (st.system_state.connected = true →
        ((display_connection_status cfg st).conn_bar.segments i).color =
          colors COLOR_PROFILE_CONNECTED ∧
        ((display_connection_status cfg st).conn_bar.segments i).animation = ANIM_FADE) ∧
      (st.system_state.advertising = true →
        ((display_connection_status cfg st).conn_bar.segments i).color =
          colors COLOR_PROFILE_OPEN ∧
        ((display_connection_status cfg st).conn_bar.segments i).animation = ANIM_BREATH) ∧
      (st.system_state.connected = false → st.system_state.advertising = false →
        ((display_connection_status cfg st).conn_bar.segments i).color =
          colors COLOR_PROFILE_PAIRED ∧
        ((display_connection_status cfg st).conn_bar.segments i).animation = ANIM_BREATH) := by
    intro i hi
    rw [hseg i, if_pos hi]
    refine ⟨?_, fun hc => ?_, fun ha => ?_, fun hc ha => ?_⟩
    · rw [(segment_set_post cfg _ _ _ _ _).2.1]; exact u8_max_brightness
    · have hna : st.system_state.advertising = false := by
        cases h : st.system_state.advertising
        · rfl
        · exact absurd ⟨hc, h⟩ hx
      rw [(segment_set_post cfg _ _ _ _ _).1, (segment_set_post cfg _ _ _ _ _).2.2]
      simp only [hc, hna, if_true, Bool.not_true, Bool.not_false, Bool.and_true, Bool.or_self,
        Bool.false_eq_true, if_false, and_self]
    · have hnc : st.system_state.connected = false := by
        cases h : st.system_state.connected
        · rfl
        · exact absurd ⟨h, ha⟩ hx
      rw [(segment_set_post cfg _ _ _ _ _).1, (segment_set_post cfg _ _ _ _ _).2.2]
      simp only [hnc, ha, if_true, Bool.true_or, Bool.false_eq_true, if_false, and_self]
    · rw [(segment_set_post cfg _ _ _ _ _).1, (segment_set_post cfg _ _ _ _ _).2.2]
      simp only [hc, ha, Bool.not_false, Bool.and_self, Bool.or_true, Bool.false_eq_true,
        if_true, if_false, and_self]
  have hidle : ∀ i : Fin NUM_SEGMENTS, (i : Nat) ≠ st.system_state.active_profile →
      ((display_connection_status cfg st).conn_bar.segments i).color = colors COLOR_BACKGROUND ∧
      ((display_connection_status cfg st).conn_bar.segments i).target_brightness = 100 ∧
      ((display_connection_status cfg st).conn_bar.segments i).animation = ANIM_FADE := by
    intro i hi
    rw [hseg i, if_neg hi]
    exact ⟨(segment_set_post cfg _ _ _ _ _).1,
      by rw [(segment_set_post cfg _ _ _ _ _).2.1]; exact u8_max_brightness,
      (segment_set_post cfg _ _ _ _ _).2.2⟩
  refine ⟨hactive, hidle, fun hp hc ha => ?_⟩
  have h1 := hactive 1 (by rw [hp]; rfl)
  refine ⟨(h1.2.2.1 ha).1, (h1.2.2.1 ha).2, fun i hi => ?_⟩
  have hne : (i : Nat) ≠ st.system_state.active_profile := by
    rw [hp]
    intro h
    exact hi (Fin.ext h)
  exact ⟨(hidle i hne).1, (hidle i hne).2.2⟩

/-- Instance of C7 on the zeroed bars with profile 1 selected, not connected
and advertising: segment 1 is open-yellow + `Breath`, segment 0 is
background + `Fade`. -/
theorem connection_status_policy_witness :
    ((display_connection_status example_config (zeroed_state advertising_status)).conn_bar.segments
        1).color = colors COLOR_PROFILE_OPEN ∧
    ((display_connection_status example_config (zeroed_state advertising_status)).conn_bar.segments
        1).animation = ANIM_BREATH ∧
    ((display_connection_status example_config (zeroed_state advertising_status)).conn_bar.segments
        0).color = colors COLOR_BACKGROUND ∧
    ((display_connection_status example_config (zeroed_state advertising_status)).conn_bar.segments
        0).animation = ANIM_FADE :=
  have h := (connection_status_policy example_config (zeroed_state advertising_status)
    (by decide)).2.2 rfl rfl rfl
  ⟨h.1, h.2.1, (h.2.2 0 (by decide)).1, (h.2.2 0 (by decide)).2⟩

/-! ## Display windows -/

/-- C8. `show_connection_status` and `show_battery_status`, called at uptime
`now`, set the bar's `expire_time` to the maximum of its old value and
`now + LED_EVENT_DISPLAY_TIME_MS`; so a request never decreases `expire_time`,
and after two requests in a row (at any two times, in particular
`t1 <= t2`) the `expire_time` is at least what it was after the first. -/
theorem display_request_never_shortens_window (cfg : Config) (st : State) (now t1 t2 : Int) :
    (show_connection_status cfg now st).conn_bar.expire_time =
      max st.conn_bar.expire_time (now + cfg.LED_EVENT_DISPLAY_TIME_MS) ∧
    (show_battery_status cfg now st).batt_bar.expire_time =
      max st.batt_bar.expire_time (now + cfg.LED_EVENT_DISPLAY_TIME_MS) ∧
    st.conn_bar.expire_time ≤ (show_connection_status cfg now st).conn_bar.expire_time ∧
    st.batt_bar.expire_time ≤ (show_battery_status cfg now st).batt_bar.expire_time ∧
    (show_connection_status cfg t1 st).conn_bar.expire_time ≤
      (show_connection_status cfg t2 (show_connection_status cfg t1 st)).conn_bar.expire_time ∧
    (show_battery_status cfg t1 st).batt_bar.expire_time ≤
      (show_battery_status cfg t2 (show_battery_status cfg t1 st)).batt_bar.expire_time := by
  have hc : ∀ (s : State) (t : Int), (show_connection_status cfg t s).conn_bar.expire_time =
      max s.conn_bar.expire_time (t + cfg.LED_EVENT_DISPLAY_TIME_MS) := by
    intro s t
    simp only [show_connection_status]
    split_ifs with h
    · exact (max_eq_right (le_of_lt h)).symm
    · exact (max_eq_left (not_lt.mp h)).symm
  have hb : ∀ (s : State) (t : Int), (show_battery_status cfg t s).batt_bar.expire_time =
      max s.batt_bar.expire_time (t + cfg.LED_EVENT_DISPLAY_TIME_MS) := by
    intro s t
    simp only [show_battery_status]
    split_ifs with h
    · exact (max_eq_right (le_of_lt h)).symm
    · exact (max_eq_left (not_lt.mp h)).symm
  refine ⟨hc st now, hb st now, ?_, ?_, ?_, ?_⟩
  · rw [hc]; exact le_max_left _ _
  · rw [hb]; exact le_max_left _ _
  · rw [hc (show_connection_status cfg t1 st) t2]; exact le_max_left _ _
  · rw [hb (show_battery_status cfg t1 st) t2]; exact le_max_left _ _

/-! ## Render loop -/

/-- The function `bars_animating` is false exactly when all eight segments
have animation `None`. -/
theorem bars_animating_eq_false_iff (st : State) :
    bars_animating st = false ↔
      ∀ i : Fin NUM_SEGMENTS,
        (st.conn_bar.segments i).animation = ANIM_NONE ∧
        (st.batt_bar.segments i).animation = ANIM_NONE := by
  simp only [bars_animating, finRange_segments, List.any_cons, List.any_nil, Bool.or_false,
    Bool.or_eq_false_iff, decide_eq_false_iff_not, ne_eq, not_not]
  constructor
  · rintro ⟨h0, h1, h2, h3⟩ i
    fin_cases i
    · exact h0
    · exact h1
    · exact h2
    · exact h3
  · intro h
    exact ⟨h 0, h 1, h 2, h 3⟩

/-- C10. In an iteration of the render loop, after the tick the loop blocks
on the wake semaphore with the 100 ms timeout exactly when `bars_animating` is
false, which is exactly when all 8 segments of the two bars have animation
`None` after the tick; if some segment is in `Fade` or `Breath` the loop takes
the 10 ms sleep instead. -/
theorem render_loop_blocks_iff_settled (cfg : Config) (env : Env) (st : State) :
    ((led_thread_iteration cfg env st).2.2 = Wait.k_sem_take 100 ↔
      bars_animating (led_thread_iteration cfg env st).1 = false) ∧
    (bars_animating (led_thread_iteration cfg env st).1 = false ↔
      ∀ i : Fin NUM_SEGMENTS,
        (((led_thread_iteration cfg env st).1).conn_bar.segments i).animation = ANIM_NONE ∧
        (((led_thread_iteration cfg env st).1).batt_bar.segments i).animation = ANIM_NONE) ∧
    ((∃ i : Fin NUM_SEGMENTS,
        (((led_thread_iteration cfg env st).1).conn_bar.segments i).animation ≠ ANIM_NONE ∨
        (((led_thread_iteration cfg env st).1).batt_bar.segments i).animation ≠ ANIM_NONE) ↔
      (led_thread_iteration cfg env st).2.2 = Wait.k_sleep 10) ∧
    (led_thread_iteration cfg env st).1 = (update_bars cfg env st).1 ∧
    (led_thread_iteration cfg env st).2.1 = (update_bars cfg env st).2 := by
  have hst : (led_thread_iteration cfg env st).1 = (update_bars cfg env st).1 := by
    simp only [led_thread_iteration]; split_ifs <;> rfl
  have hcmd : (led_thread_iteration cfg env st).2.1 = (update_bars cfg env st).2 := by
    simp only [led_thread_iteration]; split_ifs <;> rfl
  have hwait : (led_thread_iteration cfg env st).2.2 =
      if bars_animating (update_bars cfg env st).1 then Wait.k_sleep 10
      else Wait.k_sem_take 100 := by
    simp only [led_thread_iteration]; split_ifs <;> rfl
  have hiff := bars_animating_eq_false_iff (update_bars cfg env st).1
  rw [hst, hwait]
  refine ⟨?_, hiff, ?_, rfl, hcmd⟩
  · cases h : bars_animating (update_bars cfg env st).1 <;> simp
  · cases h : bars_animating (update_bars cfg env st).1
    · have hall := hiff.1 h
      simp only [Bool.false_eq_true, if_false]
      constructor
      · rintro ⟨i, hi | hi⟩
        · exact absurd (hall i).1 hi
        · exact absurd (hall i).2 hi
      · intro hw; cases hw
    · simp only [if_true, iff_true]
      by_contra hne
      have : bars_animating (update_bars cfg env st).1 = false := by
        rw [hiff]
        intro i
        constructor
        · by_contra hc; exact hne ⟨i, Or.inl hc⟩
        · by_contra hc; exact hne ⟨i, Or.inr hc⟩
      rw [h] at this
      cases this

/-! ## Display composer -/

/-- The function `fade_out_bar` keeps window and overlay flag and retargets every
segment to 0 with `Fade` and the normal step. -/
theorem fade_out_bar_spec (cfg : Config) (bar : led_bar) :
    ((fade_out_bar cfg bar).expire_time = bar.expire_time ∧
      (fade_out_bar cfg bar).showing_modifiers = bar.showing_modifiers) ∧
    ∀ i : Fin NUM_SEGMENTS,
      (fade_out_bar cfg bar).segments i =
        { (bar.segments i) with
          target_brightness := 0
          animation := ANIM_FADE
          fade_step := i8 cfg.LED_FADE_STEP_SIZE } := by
  have h := for_segments_pointwise
    (fun i (bar : led_bar) =>
      let seg : led_segment :=
        { (bar.segments i) with
          target_brightness := 0
          animation := ANIM_FADE
          fade_step := i8 cfg.LED_FADE_STEP_SIZE }
      bar.setSegment i seg)
    (fun bar => bar.segments)
    (fun bar => (bar.expire_time, bar.showing_modifiers))
    (fun _ _ seg =>
      { seg with
        target_brightness := 0
        animation := ANIM_FADE
        fade_step := i8 cfg.LED_FADE_STEP_SIZE })
    (by intro j s; exact setSegment_same _ _ _)
    (by intro j s i hij; exact setSegment_other _ _ _ _ hij)
    (by intro j s; rfl)
    bar
  obtain ⟨hrest, hseg⟩ := h
  simp only [Prod.mk.injEq] at hrest
  exact ⟨hrest, hseg⟩

/-- The function `display_battery_status` changes nothing but the segments of the
battery bar. -/
theorem display_battery_status_spec (cfg : Config) (st : State) :
    ((display_battery_status cfg st).system_state = st.system_state ∧
      (display_battery_status cfg st).conn_bar = st.conn_bar ∧
      (display_battery_status cfg st).batt_bar.expire_time = st.batt_bar.expire_time ∧
      (display_battery_status cfg st).batt_bar.showing_modifiers =
        st.batt_bar.showing_modifiers) ∧
    ∀ i : Fin NUM_SEGMENTS,
      (display_battery_status cfg st).batt_bar.segments i =
        segment_set cfg (st.batt_bar.segments i)
          (get_battery_segment_config cfg ((i : Nat) : Int) st.system_state.battery_percentage
            st.system_state.charging).color
          MAX_BRIGHTNESS
          (get_battery_segment_config cfg ((i : Nat) : Int) st.system_state.battery_percentage
            st.system_state.charging).animation
          cfg.LED_FADE_STEP_SIZE := by
  have h := for_segments_pointwise
    (fun i (st : State) =>
      let config := get_battery_segment_config cfg ((i : Nat) : Int)
        st.system_state.battery_percentage st.system_state.charging
      let seg := segment_set cfg (st.batt_bar.segments i) config.color MAX_BRIGHTNESS
        config.animation cfg.LED_FADE_STEP_SIZE
      { st with batt_bar := st.batt_bar.setSegment i seg })
    (fun st => st.batt_bar.segments)
    (fun st => (st.system_state, st.conn_bar, st.batt_bar.expire_time,
      st.batt_bar.showing_modifiers))
    (fun i r seg =>
      segment_set cfg seg
        (get_battery_segment_config cfg ((i : Nat) : Int) r.1.battery_percentage
          r.1.charging).color
        MAX_BRIGHTNESS
        (get_battery_segment_config cfg ((i : Nat) : Int) r.1.battery_percentage
          r.1.charging).animation
        cfg.LED_FADE_STEP_SIZE)
    (by intro j s; exact setSegment_same _ _ _)
    (by intro j s i hij; exact setSegment_other _ _ _ _ hij)
    (by intro j s; rfl)
    st
  obtain ⟨hrest, hseg⟩ := h
  simp only [Prod.mk.injEq] at hrest
  exact ⟨hrest, hseg⟩

/-- The function `display_modifiers` changes nothing but the segments of the
connection bar. -/
theorem display_modifiers_spec (cfg : Config) (st : State) :
    ((display_modifiers cfg st).system_state = st.system_state ∧
      (display_modifiers cfg st).batt_bar = st.batt_bar ∧
      (display_modifiers cfg st).conn_bar.expire_time = st.conn_bar.expire_time ∧
      (display_modifiers cfg st).conn_bar.showing_modifiers = st.conn_bar.showing_modifiers) ∧
    ∀ i : Fin NUM_SEGMENTS,
      (display_modifiers cfg st).conn_bar.segments i =
        if st.system_state.modifiers i then
          segment_set cfg (st.conn_bar.segments i) COLOR_MODIFIER_ACTIVE MAX_BRIGHTNESS ANIM_FADE
            cfg.MODIFIER_FADE_STEP_SIZE
        else if (st.conn_bar.segments i).target_brightness ≠ 0 then
          { (st.conn_bar.segments i) with
            target_brightness := 0
            animation := ANIM_FADE
            fade_step := i8 cfg.MODIFIER_FADE_STEP_SIZE }
        else st.conn_bar.segments i := by
  have h := for_segments_pointwise
    (fun i (st : State) =>
      if st.system_state.modifiers i then
        let seg := segment_set cfg (st.conn_bar.segments i) COLOR_MODIFIER_ACTIVE MAX_BRIGHTNESS
          ANIM_FADE cfg.MODIFIER_FADE_STEP_SIZE
        { st with conn_bar := st.conn_bar.setSegment i seg }
      else if (st.conn_bar.segments i).target_brightness ≠ 0 then
        let seg : led_segment :=
          { (st.conn_bar.segments i) with
            target_brightness := 0
            animation := ANIM_FADE
            fade_step := i8 cfg.MODIFIER_FADE_STEP_SIZE }
        { st with conn_bar := st.conn_bar.setSegment i seg }
      else st)
    (fun st => st.conn_bar.segments)
    (fun st => (st.system_state, st.batt_bar, st.conn_bar.expire_time,
      st.conn_bar.showing_modifiers))
    (fun i r seg =>
      if r.1.modifiers i then
        segment_set cfg seg COLOR_MODIFIER_ACTIVE MAX_BRIGHTNESS ANIM_FADE
          cfg.MODIFIER_FADE_STEP_SIZE
      else if seg.target_brightness ≠ 0 then
        { seg with
          target_brightness := 0
          animation := ANIM_FADE
          fade_step := i8 cfg.MODIFIER_FADE_STEP_SIZE }
      else seg)
    (by intro j s; dsimp only; split_ifs <;> first | exact setSegment_same _ _ _ | rfl)
    (by intro j s i hij; dsimp only; split_ifs <;>
          first | exact setSegment_other _ _ _ _ hij | rfl)
    (by intro j s; dsimp only; split_ifs <;> rfl)
    st
  obtain ⟨hrest, hseg⟩ := h
  simp only [Prod.mk.injEq] at hrest
  exact ⟨hrest, hseg⟩

/-- The last loop of `update_bars` ticks and writes every segment of both bars and
changes nothing else of the state. -/
theorem update_bars_tick_spec (cfg : Config) (p : State × List HwCmd) :
    ((update_bars_tick cfg p).1.system_state = p.1.system_state ∧
      (update_bars_tick cfg p).1.conn_bar.expire_time = p.1.conn_bar.expire_time ∧
      (update_bars_tick cfg p).1.conn_bar.showing_modifiers = p.1.conn_bar.showing_modifiers ∧
      (update_bars_tick cfg p).1.batt_bar.expire_time = p.1.batt_bar.expire_time ∧
      (update_bars_tick cfg p).1.batt_bar.showing_modifiers =
        p.1.batt_bar.showing_modifiers) ∧
    ∀ i : Fin NUM_SEGMENTS,
      (update_bars_tick cfg p).1.conn_bar.segments i =
        (segment_write_hardware Device.led_conn_dev i
          (segment_update cfg (p.1.conn_bar.segments i))).1 ∧
      (update_bars_tick cfg p).1.batt_bar.segments i =
        (segment_write_hardware Device.led_batt_dev i
          (segment_update cfg (p.1.batt_bar.segments i))).1 := by
  have h := for_segments_pointwise
    (fun i (p : State × List HwCmd) =>
      let st := p.1
      let c := segment_update cfg (st.conn_bar.segments i)
      let st := { st with conn_bar := st.conn_bar.setSegment i c }
      let b := segment_update cfg (st.batt_bar.segments i)
      let st := { st with batt_bar := st.batt_bar.setSegment i b }
      let wc := segment_write_hardware Device.led_conn_dev i (st.conn_bar.segments i)
      let st := { st with conn_bar := st.conn_bar.setSegment i wc.1 }
      let wb := segment_write_hardware Device.led_batt_dev i (st.batt_bar.segments i)
      let st := { st with batt_bar := st.batt_bar.setSegment i wb.1 }
      (st, p.2 ++ wc.2 ++ wb.2))
    (fun p i => (p.1.conn_bar.segments i, p.1.batt_bar.segments i))
    (fun p => (p.1.system_state, p.1.conn_bar.expire_time, p.1.conn_bar.showing_modifiers,
      p.1.batt_bar.expire_time, p.1.batt_bar.showing_modifiers))
    (fun i _ cb =>
      ((segment_write_hardware Device.led_conn_dev i (segment_update cfg cb.1)).1,
       (segment_write_hardware Device.led_batt_dev i (segment_update cfg cb.2)).1))
    (by intro j s; simp only [setSegment_same])
    (by intro j s i hij; simp only [setSegment_other _ _ _ _ hij])
    (by intro j s; rfl)
    p
  obtain ⟨hrest, hseg⟩ := h
  simp only [Prod.mk.injEq] at hrest hseg
  exact ⟨hrest, hseg⟩

/-- The battery part of `update_bars` leaves the connection bar and the status
snapshot alone. -/
theorem update_bars_batt_frame (cfg : Config) (t : Int) (st : State) :
    (update_bars_batt cfg t st).conn_bar = st.conn_bar ∧
    (update_bars_batt cfg t st).system_state = st.system_state := by
  simp only [update_bars_batt]
  split_ifs <;> exact ⟨rfl, rfl⟩

/-- The status refresh leaves both bars and the modifier flags alone. -/
theorem update_bars_refresh_frame (env : Env) (st : State) :
    (update_bars_refresh env st).conn_bar = st.conn_bar ∧
    (update_bars_refresh env st).batt_bar = st.batt_bar ∧
    (update_bars_refresh env st).system_state.modifiers = st.system_state.modifiers ∧
    any_modifier_active (update_bars_refresh env st) = any_modifier_active st := by
  simp only [update_bars_refresh]
  split_ifs <;> exact ⟨rfl, rfl, rfl, rfl⟩

/-- With the connection window open and no overlay, the connection part of
`update_bars` is `display_connection_status`, whatever the modifiers are. -/
theorem update_bars_conn_window (cfg : Config) (t : Int) (st : State)
    (hexp : 0 < st.conn_bar.expire_time) (hlt : t < st.conn_bar.expire_time)
    (hshow : st.conn_bar.showing_modifiers = false) :
    update_bars_conn cfg t st = display_connection_status cfg st := by
  have h1 : ¬ st.conn_bar.expire_time ≤ t := by omega
  simp only [update_bars_conn, gt_iff_lt, ge_iff_le, h1, and_false, if_false, hexp, hshow,
    and_self, if_true]

/-- With the connection window expiring, no overlay and a modifier held, the
connection part of `update_bars` clears the window, fades the bar out, enters
overlay mode and applies `display_modifiers`. -/
theorem update_bars_conn_expiry (cfg : Config) (t : Int) (st : State)
    (hexp : 0 < st.conn_bar.expire_time) (hge : st.conn_bar.expire_time ≤ t)
    (hshow : st.conn_bar.showing_modifiers = false) (hmod : any_modifier_active st = true) :
    update_bars_conn cfg t st =
      display_modifiers cfg
        { st with
          conn_bar :=
            { fade_out_bar cfg { st.conn_bar with expire_time := 0 } with
              showing_modifiers := true } } := by
  have hfe : ∀ bar : led_bar, (fade_out_bar cfg bar).expire_time = bar.expire_time :=
    fun bar => (fade_out_bar_spec cfg bar).1.1
  have h2 : ¬ (0 : Int) < 0 := by decide
  have h3 : ∀ c b : led_bar, any_modifier_active
      { conn_bar := c, batt_bar := b, system_state := st.system_state } = true :=
    fun _ _ => hmod
  simp only [update_bars_conn, gt_iff_lt, ge_iff_le, hexp, hge, and_self, if_true, hshow,
    Bool.not_false, hfe, h2, false_and, if_false, h3]

/-- Counterexample to C9 as stated: the connection window is open until
uptime 1000, the bar is not in overlay mode and shift is held; the tick at
uptime 500 leaves `showing_modifiers` false and renders the connection status
(segment 0, the shift position, gets the background colour with target 100,
not the modifier colour). -/
theorem overlay_preempts_window_counterexample :
    0 < (env_at 500).uptime ∧
    (env_at 500).uptime < window_with_shift_held.conn_bar.expire_time ∧
    window_with_shift_held.conn_bar.showing_modifiers = false ∧
    any_modifier_active window_with_shift_held = true ∧
    (update_bars example_config (env_at 500) window_with_shift_held).1.conn_bar.showing_modifiers
      = false ∧
    ((update_bars example_config (env_at 500) window_with_shift_held).1.conn_bar.segments 0).color
      = colors COLOR_BACKGROUND ∧
    ((update_bars example_config (env_at 500) window_with_shift_held).1.conn_bar.segments 0).color
      ≠ colors COLOR_MODIFIER_ACTIVE ∧
    ((display_modifiers example_config window_with_shift_held).conn_bar.segments 0).color
      = colors COLOR_MODIFIER_ACTIVE := by
  decide

/-- C9, amended. While the connection window is still open
(`0 < expire_time`, `now < expire_time`) and the bar is not in overlay mode, a
held modifier does not switch the bar to the overlay: the tick leaves
`showing_modifiers` false and the window set, and what is ticked and written
is the result of `display_connection_status`, not of `display_modifiers`.  The
overlay takes over on the tick on which the window expires
(`0 < expire_time <= now`) with a modifier held: `expire_time` becomes 0,
`showing_modifiers` becomes true, and `display_modifiers` is applied to the
faded-out bar. -/
theorem window_preempts_overlay (cfg : Config) (env : Env) (st : State)
    (hexp : 0 < st.conn_bar.expire_time) (hshow : st.conn_bar.showing_modifiers = false)
    (hmod : any_modifier_active st = true) :
    (env.uptime < st.conn_bar.expire_time →
      (update_bars cfg env st).1.conn_bar.showing_modifiers = false ∧
      (update_bars cfg env st).1.conn_bar.expire_time = st.conn_bar.expire_time ∧
      (update_bars_compose cfg env st).conn_bar =
        (display_connection_status cfg (refresh_system_state env st)).conn_bar ∧
      ∀ i : Fin NUM_SEGMENTS,
        (update_bars cfg env st).1.conn_bar.segments i =
          (segment_write_hardware Device.led_conn_dev i
            (segment_update cfg
              ((display_connection_status cfg
                (refresh_system_state env st)).conn_bar.segments i))).1) ∧
    (st.conn_bar.expire_time ≤ env.uptime →
      (update_bars cfg env st).1.conn_bar.showing_modifiers = true ∧
      (update_bars cfg env st).1.conn_bar.expire_time = 0 ∧
      (update_bars_compose cfg env st).conn_bar =
        (display_modifiers cfg
          { refresh_system_state env st with
            conn_bar :=
              { fade_out_bar cfg { st.conn_bar with expire_time := 0 } with
                showing_modifiers := true } }).conn_bar ∧
      ∀ i : Fin NUM_SEGMENTS,
        (update_bars cfg env st).1.conn_bar.segments i =
          (segment_write_hardware Device.led_conn_dev i
            (segment_update cfg
              ((display_modifiers cfg
                { refresh_system_state env st with
                  conn_bar :=
                    { fade_out_bar cfg { st.conn_bar with expire_time := 0 } with
                      showing_modifiers := true } }).conn_bar.segments i))).1) := by
  have hrefresh : update_bars_refresh env st = refresh_system_state env st := by
    simp only [update_bars_refresh, gt_iff_lt, hexp, true_or, if_true]
  have htick := update_bars_tick_spec cfg (update_bars_compose cfg env st, [])
  have hcompose : (update_bars_compose cfg env st).conn_bar =
      (update_bars_conn cfg env.uptime (refresh_system_state env st)).conn_bar := by
    show (update_bars_batt cfg env.uptime
      (update_bars_conn cfg env.uptime (update_bars_refresh env st))).conn_bar = _
    rw [(update_bars_batt_frame cfg env.uptime _).1, hrefresh]
  constructor
  · intro hlt
    have hconn := update_bars_conn_window cfg env.uptime (refresh_system_state env st)
      hexp hlt hshow
    have hspec := (display_connection_status_spec cfg (refresh_system_state env st)).1
    rw [hconn] at hcompose
    refine ⟨?_, ?_, hcompose, fun i => ?_⟩
    · show (update_bars_tick cfg (update_bars_compose cfg env st, [])).1.conn_bar.showing_modifiers
        = false
      rw [htick.1.2.2.1]
      show (update_bars_compose cfg env st).conn_bar.showing_modifiers = false
      rw [hcompose, hspec.2.2.2]
      exact hshow
    · show (update_bars_tick cfg (update_bars_compose cfg env st, [])).1.conn_bar.expire_time
        = st.conn_bar.expire_time
      rw [htick.1.2.1]
      show (update_bars_compose cfg env st).conn_bar.expire_time = st.conn_bar.expire_time
      rw [hcompose, hspec.2.2.1]
      rfl
    · show (update_bars_tick cfg (update_bars_compose cfg env st, [])).1.conn_bar.segments i = _
      rw [(htick.2 i).1]
      show (segment_write_hardware Device.led_conn_dev i
        (segment_update cfg ((update_bars_compose cfg env st).conn_bar.segments i))).1 = _
      rw [hcompose]
  · intro hge
    have hconn := update_bars_conn_expiry cfg env.uptime (refresh_system_state env st)
      hexp hge hshow hmod
    have hfade := (fade_out_bar_spec cfg { st.conn_bar with expire_time := 0 }).1
    have hspec := (display_modifiers_spec cfg
      { refresh_system_state env st with
        conn_bar :=
          { fade_out_bar cfg { st.conn_bar with expire_time := 0 } with
            showing_modifiers := true } }).1
    have hc : (update_bars_compose cfg env st).conn_bar =
        (display_modifiers cfg
          { refresh_system_state env st with
            conn_bar :=
              { fade_out_bar cfg { st.conn_bar with expire_time := 0 } with
                showing_modifiers := true } }).conn_bar :=
      hcompose.trans (congrArg State.conn_bar hconn)
    refine ⟨?_, ?_, hc, fun i => ?_⟩
    · exact htick.1.2.2.1.trans ((congrArg led_bar.showing_modifiers hc).trans hspec.2.2.2)
    · exact htick.1.2.1.trans
        ((congrArg led_bar.expire_time hc).trans (hspec.2.2.1.trans hfade.1))
    · exact (htick.2 i).1.trans
        (congrArg (fun bar : led_bar => (segment_write_hardware Device.led_conn_dev i
          (segment_update cfg (bar.segments i))).1) hc)

/-- Instance of C9 as amended, on the zeroed bars with the window open until
uptime 1000 and shift held: the tick at uptime 500 stays out of overlay mode,
the tick at uptime 1000 enters it and clears the window. -/
theorem window_preempts_overlay_witness :
    (update_bars example_config (env_at 500) window_with_shift_held).1.conn_bar.showing_modifiers
      = false ∧
    (update_bars example_config (env_at 1000) window_with_shift_held).1.conn_bar.showing_modifiers
      = true ∧
    (update_bars example_config (env_at 1000) window_with_shift_held).1.conn_bar.expire_time = 0 :=
  ⟨((window_preempts_overlay example_config (env_at 500) window_with_shift_held (by decide) rfl
      (by decide)).1 (by decide)).1,
    ((window_preempts_overlay example_config (env_at 1000) window_with_shift_held (by decide) rfl
      (by decide)).2 (by decide)).1,
    ((window_preempts_overlay example_config (env_at 1000) window_with_shift_held (by decide) rfl
      (by decide)).2 (by decide)).2.1⟩

/-! ## Priority order of the connection bar -/

/-- The connection part of `update_bars` is the expiry step followed by the
three-way choice. -/
theorem update_bars_conn_eq (cfg : Config) (t : Int) (st : State) :
    update_bars_conn cfg t st =
      if (update_bars_conn_expire cfg t st).conn_bar.expire_time > 0 ∧
          (update_bars_conn_expire cfg t st).conn_bar.showing_modifiers = false then
        display_connection_status cfg (update_bars_conn_expire cfg t st)
      else if any_modifier_active (update_bars_conn_expire cfg t st) then
        display_modifiers cfg
          { update_bars_conn_expire cfg t st with
            conn_bar :=
              { (update_bars_conn_expire cfg t st).conn_bar with showing_modifiers := true } }
      else if (update_bars_conn_expire cfg t st).conn_bar.showing_modifiers then
        { update_bars_conn_expire cfg t st with
          conn_bar :=
            fade_out_bar cfg
              { (update_bars_conn_expire cfg t st).conn_bar with showing_modifiers := false } }
      else update_bars_conn_expire cfg t st := rfl

/-- What the expiry step of the connection bar changes: only `expire_time`,
and the segments when the bar is not in overlay mode. -/
theorem update_bars_conn_expire_spec (cfg : Config) (t : Int) (st : State) :
    (update_bars_conn_expire cfg t st).system_state = st.system_state ∧
    (update_bars_conn_expire cfg t st).batt_bar = st.batt_bar ∧
    (update_bars_conn_expire cfg t st).conn_bar.showing_modifiers =
      st.conn_bar.showing_modifiers ∧
    any_modifier_active (update_bars_conn_expire cfg t st) = any_modifier_active st ∧
    (update_bars_conn_expire cfg t st).conn_bar.expire_time =
      (if st.conn_bar.expire_time > 0 ∧ t ≥ st.conn_bar.expire_time then 0
       else st.conn_bar.expire_time) ∧
    (¬ (st.conn_bar.expire_time > 0 ∧ t ≥ st.conn_bar.expire_time) →
      update_bars_conn_expire cfg t st = st) ∧
    (st.conn_bar.showing_modifiers = true →
      (update_bars_conn_expire cfg t st).conn_bar.segments = st.conn_bar.segments) ∧
    (st.conn_bar.expire_time > 0 ∧ t ≥ st.conn_bar.expire_time →
      st.conn_bar.showing_modifiers = false →
      update_bars_conn_expire cfg t st =
        { st with conn_bar := fade_out_bar cfg { st.conn_bar with expire_time := 0 } }) := by
  refine ⟨?_, ?_, ?_, ?_, ?_, ?_, ?_, ?_⟩
  · simp only [update_bars_conn_expire]; split_ifs <;> rfl
  · simp only [update_bars_conn_expire]; split_ifs <;> rfl
  · simp only [update_bars_conn_expire]; split_ifs <;> rfl
  · simp only [update_bars_conn_expire]; split_ifs <;> rfl
  · simp only [update_bars_conn_expire]; split_ifs <;> rfl
  · intro hn
    unfold update_bars_conn_expire
    rw [if_neg hn]
  · intro hs
    simp only [update_bars_conn_expire, hs, Bool.not_true, Bool.false_eq_true, if_false]
    split_ifs <;> rfl
  · intro h hs
    simp only [update_bars_conn_expire, if_pos h, hs, Bool.not_false, if_true]

/-- When the window is not open without overlay, the first test of the
three-way choice fails on the state the expiry step leaves. -/
theorem update_bars_conn_closed (cfg : Config) (t : Int) (st : State)
    (hna : ¬ (0 < st.conn_bar.expire_time ∧ t < st.conn_bar.expire_time ∧
      st.conn_bar.showing_modifiers = false)) :
    ¬ ((update_bars_conn_expire cfg t st).conn_bar.expire_time > 0 ∧
      (update_bars_conn_expire cfg t st).conn_bar.showing_modifiers = false) := by
  obtain ⟨_, _, hshow, _, hexp, _, _, _⟩ := update_bars_conn_expire_spec cfg t st
  intro hc
  rw [hexp, hshow] at hc
  split_ifs at hc with h
  · exact absurd hc.1 (by decide)
  · exact hna ⟨hc.1, by
      by_contra hge
      exact h ⟨hc.1, not_lt.mp hge⟩, hc.2⟩

/-- Outside an open window without overlay, a held modifier makes the
connection step enter (or stay in) overlay mode and apply `display_modifiers`. -/
theorem update_bars_conn_modifier (cfg : Config) (t : Int) (st : State)
    (hna : ¬ (0 < st.conn_bar.expire_time ∧ t < st.conn_bar.expire_time ∧
      st.conn_bar.showing_modifiers = false))
    (hm : any_modifier_active st = true) :
    (update_bars_conn cfg t st).conn_bar.showing_modifiers = true ∧
    update_bars_conn cfg t st =
      display_modifiers cfg
        { update_bars_conn_expire cfg t st with
          conn_bar :=
            { (update_bars_conn_expire cfg t st).conn_bar with showing_modifiers := true } } := by
  obtain ⟨_, _, _, hmod, _, _, _, _⟩ := update_bars_conn_expire_spec cfg t st
  have heq : update_bars_conn cfg t st =
      display_modifiers cfg
        { update_bars_conn_expire cfg t st with
          conn_bar :=
            { (update_bars_conn_expire cfg t st).conn_bar with
              showing_modifiers := true } } := by
    rw [update_bars_conn_eq, if_neg (update_bars_conn_closed cfg t st hna),
      if_pos (hmod.trans hm)]
  refine ⟨?_, heq⟩
  rw [heq]
  exact (display_modifiers_spec cfg _).1.2.2.2

/-- In overlay mode with no modifier held, the connection step leaves overlay
mode and fades every segment out with the normal step. -/
theorem update_bars_conn_leave_overlay (cfg : Config) (t : Int) (st : State)
    (hm : any_modifier_active st = false) (hs : st.conn_bar.showing_modifiers = true) :
    (update_bars_conn cfg t st).conn_bar.showing_modifiers = false ∧
    ∀ i : Fin NUM_SEGMENTS,
      (update_bars_conn cfg t st).conn_bar.segments i =
        { (st.conn_bar.segments i) with
          target_brightness := 0
          animation := ANIM_FADE
          fade_step := i8 cfg.LED_FADE_STEP_SIZE } := by
  obtain ⟨_, _, hshow, hmod, _, _, hsegs, _⟩ := update_bars_conn_expire_spec cfg t st
  have hna : ¬ (0 < st.conn_bar.expire_time ∧ t < st.conn_bar.expire_time ∧
      st.conn_bar.showing_modifiers = false) := by
    rw [hs]; exact fun h => absurd h.2.2 (by decide)
  have heq : update_bars_conn cfg t st =
      { update_bars_conn_expire cfg t st with
        conn_bar :=
          fade_out_bar cfg
            { (update_bars_conn_expire cfg t st).conn_bar with
              showing_modifiers := false } } := by
    rw [update_bars_conn_eq, if_neg (update_bars_conn_closed cfg t st hna),
      if_neg (by rw [hmod, hm]; decide), if_pos (hshow.trans hs)]
  rw [heq]
  refine ⟨(fade_out_bar_spec cfg _).1.2, fun i => ?_⟩
  have hseg := (fade_out_bar_spec cfg
    { (update_bars_conn_expire cfg t st).conn_bar with showing_modifiers := false }).2 i
  have hsame : (update_bars_conn_expire cfg t st).conn_bar.segments i =
      st.conn_bar.segments i := by rw [hsegs hs]
  exact hseg.trans (by rw [← hsame])

/-- With no window set, no modifier held and no overlay, the connection step
returns the state unchanged. -/
theorem update_bars_conn_idle (cfg : Config) (t : Int) (st : State)
    (hne : ¬ 0 < st.conn_bar.expire_time) (hm : any_modifier_active st = false)
    (hs : st.conn_bar.showing_modifiers = false) :
    update_bars_conn cfg t st = st := by
  obtain ⟨_, _, hshow, hmod, _, hid, _, _⟩ := update_bars_conn_expire_spec cfg t st
  have hno : ¬ (st.conn_bar.expire_time > 0 ∧ t ≥ st.conn_bar.expire_time) :=
    fun h => hne h.1
  have hna : ¬ (0 < st.conn_bar.expire_time ∧ t < st.conn_bar.expire_time ∧
      st.conn_bar.showing_modifiers = false) := fun h => hne h.1
  rw [update_bars_conn_eq, if_neg (update_bars_conn_closed cfg t st hna),
    if_neg (by rw [hmod, hm]; decide), if_neg (by rw [hshow, hs]; decide)]
  exact hid hno

/-- The connection bar that `update_bars` ticks is the one its connection step
produces from the refreshed state, whose connection bar and modifier flags
are those of the state before. -/
theorem update_bars_conn_link (cfg : Config) (env : Env) (st : State) :
    (update_bars_compose cfg env st).conn_bar =
      (update_bars_conn cfg env.uptime (update_bars_refresh env st)).conn_bar ∧
    (update_bars_refresh env st).conn_bar = st.conn_bar ∧
    any_modifier_active (update_bars_refresh env st) = any_modifier_active st :=
  ⟨(update_bars_batt_frame cfg env.uptime _).1, (update_bars_refresh_frame env st).1,
    (update_bars_refresh_frame env st).2.2.2⟩

/-- C11. The connection-bar step of `update_bars` at uptime `t`, on any state:
(a) if the window is open (`0 < expire_time`, `t < expire_time`) and
`showing_modifiers` is false, it is `display_connection_status`, whatever the
modifiers are; (b) otherwise, if a modifier is held, `showing_modifiers` ends
up true and `display_modifiers` is applied (to the state the expiry check
leaves); (c) otherwise, if `showing_modifiers` was true, it becomes false and
every segment is retargeted to 0 with `Fade` and the normal step; (d) with no
window set, no modifier and no overlay, the state is returned unchanged, so
that `update_bars` only ticks and writes the connection segments.  The one
remaining case, the tick on which the window expires with no modifier and no
overlay, clears the window and fades the bar out.  In `update_bars` the step
runs on the refreshed state, whose connection bar and modifier flags are
those of the state before. -/
theorem connection_composer_priority (cfg : Config) (t : Int) (st : State) :
    (0 < st.conn_bar.expire_time → t < st.conn_bar.expire_time →
      st.conn_bar.showing_modifiers = false →
      update_bars_conn cfg t st = display_connection_status cfg st) ∧
    (¬ (0 < st.conn_bar.expire_time ∧ t < st.conn_bar.expire_time ∧
        st.conn_bar.showing_modifiers = false) →
      any_modifier_active st = true →
      (update_bars_conn cfg t st).conn_bar.showing_modifiers = true ∧
      update_bars_conn cfg t st =
        display_modifiers cfg
          { update_bars_conn_expire cfg t st with
            conn_bar :=
              { (update_bars_conn_expire cfg t st).conn_bar with showing_modifiers := true } }) ∧
    (¬ (0 < st.conn_bar.expire_time ∧ t < st.conn_bar.expire_time ∧
        st.conn_bar.showing_modifiers = false) →
      any_modifier_active st = false → st.conn_bar.showing_modifiers = true →
      (update_bars_conn cfg t st).conn_bar.showing_modifiers = false ∧
      ∀ i : Fin NUM_SEGMENTS,
        (update_bars_conn cfg t st).conn_bar.segments i =
          { (st.conn_bar.segments i) with
            target_brightness := 0
            animation := ANIM_FADE
            fade_step := i8 cfg.LED_FADE_STEP_SIZE }) ∧
    (¬ 0 < st.conn_bar.expire_time → any_modifier_active st = false →
      st.conn_bar.showing_modifiers = false →
      update_bars_conn cfg t st = st ∧
      ∀ (env : Env) (i : Fin NUM_SEGMENTS),
        (update_bars cfg env st).1.conn_bar.segments i =
          (segment_write_hardware Device.led_conn_dev i
            (segment_update cfg (st.conn_bar.segments i))).1) ∧
    (0 < st.conn_bar.expire_time → st.conn_bar.expire_time ≤ t →
      any_modifier_active st = false → st.conn_bar.showing_modifiers = false →
      update_bars_conn cfg t st =
        { st with conn_bar := fade_out_bar cfg { st.conn_bar with expire_time := 0 } }) ∧
    (∀ env : Env,
      (update_bars_compose cfg env st).conn_bar =
        (update_bars_conn cfg env.uptime (update_bars_refresh env st)).conn_bar ∧
      (update_bars_refresh env st).conn_bar = st.conn_bar ∧
      any_modifier_active (update_bars_refresh env st) = any_modifier_active st) := by
  refine ⟨fun he hlt hs => update_bars_conn_window cfg t st he hlt hs,
    fun hna hm => update_bars_conn_modifier cfg t st hna hm,
    fun _ hm hs => update_bars_conn_leave_overlay cfg t st hm hs,
    fun hne hm hs => ⟨update_bars_conn_idle cfg t st hne hm hs, fun env i => ?_⟩,
    fun he hge hm hs => ?_, fun env => update_bars_conn_link cfg env st⟩
  · have htick := (update_bars_tick_spec cfg (update_bars_compose cfg env st, [])).2 i
    obtain ⟨hlink, hbar, hmods⟩ := update_bars_conn_link cfg env st
    have hconn : (update_bars_compose cfg env st).conn_bar = st.conn_bar := by
      rw [hlink, update_bars_conn_idle cfg env.uptime (update_bars_refresh env st)
        (by rw [hbar]; exact hne) (hmods.trans hm) (by rw [hbar]; exact hs)]
      exact hbar
    exact htick.1.trans (congrArg (fun bar : led_bar =>
      (segment_write_hardware Device.led_conn_dev i (segment_update cfg (bar.segments i))).1)
      hconn)
  · obtain ⟨_, _, hshow, hmod, _, _, _, hfade⟩ := update_bars_conn_expire_spec cfg t st
    have hyes : st.conn_bar.expire_time > 0 ∧ t ≥ st.conn_bar.expire_time := ⟨he, hge⟩
    have hna : ¬ (0 < st.conn_bar.expire_time ∧ t < st.conn_bar.expire_time ∧
        st.conn_bar.showing_modifiers = false) := fun h => absurd h.2.1 (not_lt.mpr hge)
    rw [update_bars_conn_eq, if_neg (update_bars_conn_closed cfg t st hna),
      if_neg (by rw [hmod, hm]; decide), if_neg (by rw [hshow, hs]; decide)]
    exact hfade hyes hs

/-- Instance of C11: with the window open until uptime 1000 and shift held the
step at uptime 500 is `display_connection_status`; the step at uptime 1000
enters overlay mode; on the zeroed bars with no window and no modifier the
step changes nothing. -/
theorem connection_composer_priority_witness :
    update_bars_conn example_config 500 window_with_shift_held =
      display_connection_status example_config window_with_shift_held ∧
    (update_bars_conn example_config 1000 window_with_shift_held).conn_bar.showing_modifiers
      = true ∧
    update_bars_conn example_config 0 (zeroed_state advertising_status) =
      zeroed_state advertising_status :=
  ⟨(connection_composer_priority example_config 500 window_with_shift_held).1 (by decide)
      (by decide) rfl,
    ((connection_composer_priority example_config 1000 window_with_shift_held).2.1 (by decide)
      (by decide)).1,
    ((connection_composer_priority example_config 0 (zeroed_state advertising_status)).2.2.2.1
      (by decide) (by decide) rfl).1⟩

/-! ## Modifier overlay -/

/-- Counterexample to C12 as stated: when the connection window expires with
shift held, `fade_out_bar` has retargeted every segment to 0 with the normal
step before `display_modifiers` runs; the released position 1 (ctrl) then has
target 0 and brightness 100, and `display_modifiers` leaves its fade step at
the normal step 5, not at `MODIFIER_FADE_STEP_SIZE = 10`. -/
theorem modifier_release_step_counterexample :
    (∀ i : Fin NUM_SEGMENTS,
      (update_bars_conn example_config 1000
        (settled_window_state fun i => decide (i = 0))).conn_bar.segments i =
      (display_modifiers example_config fading_out_shift_held).conn_bar.segments i) ∧
    fading_out_shift_held.system_state.modifiers 1 = false ∧
    ((display_modifiers example_config fading_out_shift_held).conn_bar.segments 1).target_brightness
      = 0 ∧
    ((display_modifiers example_config fading_out_shift_held).conn_bar.segments 1).brightness
      ≠ 0 ∧
    ((display_modifiers example_config fading_out_shift_held).conn_bar.segments 1).animation
      = ANIM_FADE ∧
    ((display_modifiers example_config fading_out_shift_held).conn_bar.segments 1).fade_step
      = i8 example_config.LED_FADE_STEP_SIZE ∧
    ((display_modifiers example_config fading_out_shift_held).conn_bar.segments 1).fade_step
      ≠ i8 example_config.MODIFIER_FADE_STEP_SIZE := by
  decide

/-- C12, amended. After `display_modifiers`, for each of the 4 positions: if
its modifier is held, the segment has the modifier-active colour, target
brightness 100 and animation `Fade`, and its fade step is
`MODIFIER_FADE_STEP_SIZE` (as an `int8_t`) whenever the segment did not
already have that colour, target and animation, in which case it is left as
it was; if its modifier is released and the target brightness was not
already 0, the segment gets target 0, `Fade` and the fade step
`MODIFIER_FADE_STEP_SIZE`, with colour and brightness unchanged; if its
modifier is released and the target brightness was already 0, the segment is
left as it was, with whatever animation and fade step it had. -/
theorem display_modifiers_policy (cfg : Config) (st : State) (i : Fin NUM_SEGMENTS) :
    (st.system_state.modifiers i = true →
      ((display_modifiers cfg st).conn_bar.segments i).color = colors COLOR_MODIFIER_ACTIVE ∧
      ((display_modifiers cfg st).conn_bar.segments i).target_brightness = 100 ∧
      ((display_modifiers cfg st).conn_bar.segments i).animation = ANIM_FADE ∧
      (¬ ((st.conn_bar.segments i).color = colors COLOR_MODIFIER_ACTIVE ∧
          (st.conn_bar.segments i).target_brightness = 100 ∧
          (st.conn_bar.segments i).animation = ANIM_FADE) →
        ((display_modifiers cfg st).conn_bar.segments i).fade_step =
          i8 cfg.MODIFIER_FADE_STEP_SIZE ∧
        ((display_modifiers cfg st).conn_bar.segments i).brightness =
          (st.conn_bar.segments i).brightness) ∧
      ((st.conn_bar.segments i).color = colors COLOR_MODIFIER_ACTIVE ∧
          (st.conn_bar.segments i).target_brightness = 100 ∧
          (st.conn_bar.segments i).animation = ANIM_FADE →
        (display_modifiers cfg st).conn_bar.segments i = st.conn_bar.segments i)) ∧
    (st.system_state.modifiers i = false → (st.conn_bar.segments i).target_brightness ≠ 0 →
      (display_modifiers cfg st).conn_bar.segments i =
        { (st.conn_bar.segments i) with
          target_brightness := 0
          animation := ANIM_FADE
          fade_step := i8 cfg.MODIFIER_FADE_STEP_SIZE }) ∧
    (st.system_state.modifiers i = false → (st.conn_bar.segments i).target_brightness = 0 →
      (display_modifiers cfg st).conn_bar.segments i = st.conn_bar.segments i) := by
  have hseg := (display_modifiers_spec cfg st).2 i
  refine ⟨fun hheld => ?_, fun hrel ht => ?_, fun hrel ht => ?_⟩
  · rw [hseg, if_pos hheld]
    have hpost := segment_set_post cfg (st.conn_bar.segments i) COLOR_MODIFIER_ACTIVE
      MAX_BRIGHTNESS ANIM_FADE cfg.MODIFIER_FADE_STEP_SIZE
    refine ⟨hpost.1, by rw [hpost.2.1]; exact u8_max_brightness, hpost.2.2, fun hchg => ?_,
      fun hsame => ?_⟩
    · have hchg' : ¬ ((st.conn_bar.segments i).color = colors COLOR_MODIFIER_ACTIVE ∧
          (st.conn_bar.segments i).target_brightness = u8 ((MAX_BRIGHTNESS : Nat) : Int) ∧
          (st.conn_bar.segments i).animation = ANIM_FADE) := by
        rw [u8_max_brightness]; exact hchg
      simp only [segment_set, hchg', if_false]
      exact ⟨rfl, rfl⟩
    · exact segment_set_unchanged cfg _ _ _ _ _
        ⟨hsame.1, by rw [u8_max_brightness]; exact hsame.2.1, hsame.2.2⟩
  · rw [hseg, if_neg (by rw [hrel]; decide), if_pos ht]
  · rw [hseg, if_neg (by rw [hrel]; decide), if_neg (not_not.mpr ht)]

/-- Instance of C12 as amended: on the bar that is fading out with shift held,
position 0 (held) gets the modifier colour with the fade step 10, position 1
(released, target already 0) is left as it was; on the settled bar position 1
(released, target 100) is retargeted to 0 with the fade step 10. -/
theorem display_modifiers_policy_witness :
    ((display_modifiers example_config fading_out_shift_held).conn_bar.segments 0).fade_step
      = 10 ∧
    (display_modifiers example_config fading_out_shift_held).conn_bar.segments 1 =
      fading_out_shift_held.conn_bar.segments 1 ∧
    ((display_modifiers example_config
      (settled_window_state fun i => decide (i = 0))).conn_bar.segments 1).fade_step = 10 :=
  ⟨(((display_modifiers_policy example_config fading_out_shift_held 0).1 (by decide)).2.2.2.1
      (by decide)).1,
    (display_modifiers_policy example_config fading_out_shift_held 1).2.2 (by decide)
      (by decide),
    congrArg led_segment.fade_step
      ((display_modifiers_policy example_config
        (settled_window_state fun i => decide (i = 0)) 1).2.1 (by decide) (by decide))⟩

/-! ## Modifier flags -/

/-- A key event of a modifier key sets the flag of its position to the state
of that event, whatever the flag and the other key of the pair were. -/
theorem update_modifier_state_flag (hid : HidUsage) (keycode : Nat) (pressed : Bool) (st : State)
    (segment : Fin NUM_SEGMENTS) (h : modifier_segment hid (u8 keycode) = some segment) :
    (update_modifier_state hid keycode pressed st).system_state.modifiers segment = pressed := by
  simp only [update_modifier_state, h]
  split_ifs with hne
  · simp only [Function.update_same]
  · exact not_not.mp hne

/-- C13, the code at the failing input.  Starting from all modifiers released,
after left shift down, right shift down, right shift up the left shift key is
still held and the right one is not, but the shift flag `modifiers[0]` is
false: it is the state of the last event, not the OR of the two keys. -/
theorem modifier_flag_is_last_event_not_or :
    (zeroed_state advertising_status).system_state.modifiers MOD_SEGMENT_SHIFT = false ∧
    key_held shift_events usb_hid_usage.HID_USAGE_KEY_KEYBOARD_LEFTSHIFT = true ∧
    key_held shift_events usb_hid_usage.HID_USAGE_KEY_KEYBOARD_RIGHTSHIFT = false ∧
    (handle_key_events usb_hid_usage shift_events
      (zeroed_state advertising_status)).system_state.modifiers MOD_SEGMENT_SHIFT = false ∧
    (handle_key_events usb_hid_usage shift_events
      (zeroed_state advertising_status)).system_state.modifiers MOD_SEGMENT_SHIFT ≠
      (key_held shift_events usb_hid_usage.HID_USAGE_KEY_KEYBOARD_LEFTSHIFT ||
        key_held shift_events usb_hid_usage.HID_USAGE_KEY_KEYBOARD_RIGHTSHIFT) := by
  decide

/-! ## Overlay mode -/

/-- The connection step of `update_bars` leaves the status snapshot and the
battery bar alone. -/
theorem update_bars_conn_frame (cfg : Config) (t : Int) (st : State) :
    (update_bars_conn cfg t st).system_state = st.system_state ∧
    (update_bars_conn cfg t st).batt_bar = st.batt_bar := by
  obtain ⟨hsys, hbatt, _⟩ := update_bars_conn_expire_spec cfg t st
  rw [update_bars_conn_eq]
  split_ifs
  · exact ⟨(display_connection_status_spec cfg _).1.1.trans hsys,
      (display_connection_status_spec cfg _).1.2.1.trans hbatt⟩
  · exact ⟨(display_modifiers_spec cfg _).1.1.trans hsys,
      (display_modifiers_spec cfg _).1.2.1.trans hbatt⟩
  · exact ⟨hsys, hbatt⟩
  · exact ⟨hsys, hbatt⟩

/-- A tick does not change the modifier flags. -/
theorem update_bars_modifiers (cfg : Config) (env : Env) (st : State) :
    (update_bars cfg env st).1.system_state.modifiers = st.system_state.modifiers := by
  have htick := (update_bars_tick_spec cfg (update_bars_compose cfg env st, [])).1.1
  have h1 : (update_bars_compose cfg env st).system_state =
      (update_bars_refresh env st).system_state :=
    (update_bars_batt_frame cfg env.uptime _).2.trans (update_bars_conn_frame cfg env.uptime _).1
  show (update_bars_tick cfg (update_bars_compose cfg env st, [])).1.system_state.modifiers = _
  rw [htick]
  show (update_bars_compose cfg env st).system_state.modifiers = _
  rw [h1]
  exact (update_bars_refresh_frame env st).2.2.1

/-- The overlay flag after a tick is the one the connection step leaves. -/
theorem update_bars_showing_modifiers (cfg : Config) (env : Env) (st : State) :
    (update_bars cfg env st).1.conn_bar.showing_modifiers =
      (update_bars_conn cfg env.uptime (update_bars_refresh env st)).conn_bar.showing_modifiers :=
  (update_bars_tick_spec cfg (update_bars_compose cfg env st, [])).1.2.2.1.trans
    (congrArg led_bar.showing_modifiers (update_bars_conn_link cfg env st).1)

/-- Counterexample to C14 as stated: the tick at uptime 1000 on the bars with
the window open until 1000 and shift held enters overlay mode; a
`show_connection_status` at uptime 1100 then clears `showing_modifiers` although
shift is still held. -/
theorem overlay_left_by_request_counterexample :
    (update_bars example_config (env_at 1000) window_with_shift_held).1.conn_bar.showing_modifiers
      = true ∧
    any_modifier_active (update_bars example_config (env_at 1000) window_with_shift_held).1
      = true ∧
    any_modifier_active (show_connection_status example_config 1100
      (update_bars example_config (env_at 1000) window_with_shift_held).1) = true ∧
    (show_connection_status example_config 1100
      (update_bars example_config (env_at 1000)
        window_with_shift_held).1).conn_bar.showing_modifiers = false := by
  decide

/-- C14, amended. In overlay mode (`showing_modifiers = true`) with at least
one modifier held, a tick of `update_bars` at any time, a window expiry
included, and `show_battery_status` leave `showing_modifiers` true;
`show_connection_status` sets it to false although the modifier is still held.
A tick with no modifier held leaves overlay mode.  Neither a tick nor
`show_battery_status` changes the modifier flags. -/
theorem overlay_persists_until_release_or_request (cfg : Config) (st : State)
    (hs : st.conn_bar.showing_modifiers = true) :
    (any_modifier_active st = true →
      (∀ env : Env, (update_bars cfg env st).1.conn_bar.showing_modifiers = true) ∧
      (∀ now : Int, (show_battery_status cfg now st).conn_bar.showing_modifiers = true) ∧
      (∀ now : Int,
        (show_connection_status cfg now st).conn_bar.showing_modifiers = false ∧
        any_modifier_active (show_connection_status cfg now st) = true)) ∧
    (any_modifier_active st = false →
      ∀ env : Env, (update_bars cfg env st).1.conn_bar.showing_modifiers = false) ∧
    (∀ env : Env,
      (update_bars cfg env st).1.system_state.modifiers = st.system_state.modifiers) ∧
    (∀ now : Int,
      (show_battery_status cfg now st).system_state.modifiers = st.system_state.modifiers) := by
  refine ⟨fun hm => ⟨fun env => ?_, fun now => ?_, fun now => ⟨?_, ?_⟩⟩, fun hm env => ?_,
    fun env => update_bars_modifiers cfg env st, fun now => ?_⟩
  · obtain ⟨_, hbar, hmods⟩ := update_bars_conn_link cfg env st
    rw [update_bars_showing_modifiers]
    exact (update_bars_conn_modifier cfg env.uptime _
      (by rw [hbar, hs]; exact fun h => absurd h.2.2 (by decide)) (hmods.trans hm)).1
  · simp only [show_battery_status]
    split_ifs <;> exact hs
  · simp only [show_connection_status]
  · simp only [show_connection_status]
    split_ifs <;> exact hm
  · obtain ⟨_, hbar, hmods⟩ := update_bars_conn_link cfg env st
    rw [update_bars_showing_modifiers]
    exact (update_bars_conn_leave_overlay cfg env.uptime _ (hmods.trans hm)
      (by rw [hbar]; exact hs)).1
  · simp only [show_battery_status]
    split_ifs <;> rfl

/-- Instance of C14 as amended, on the state after the tick at uptime 1000 with
shift held: a further tick at uptime 5000 stays in overlay mode, a
`show_connection_status` leaves it. -/
theorem overlay_persists_until_release_or_request_witness :
    (update_bars example_config (env_at 5000)
      (update_bars example_config (env_at 1000)
        window_with_shift_held).1).1.conn_bar.showing_modifiers = true ∧
    (show_connection_status example_config 1100
      (update_bars example_config (env_at 1000)
        window_with_shift_held).1).conn_bar.showing_modifiers = false :=
  ⟨((overlay_persists_until_release_or_request example_config
      (update_bars example_config (env_at 1000) window_with_shift_held).1 (by decide)).1
      (by decide)).1 (env_at 5000),
    (((overlay_persists_until_release_or_request example_config
      (update_bars example_config (env_at 1000) window_with_shift_held).1 (by decide)).1
      (by decide)).2.2 1100).1⟩

/-! ## Hardware writes of settled segments -/

/-- C15, the code at the failing input.  In the middle of a connection window
(uptime 500, window until 1000) with profile 1 connected and the status
unchanged, all four connection segments have settled (brightness = target =
100, `None`, clean).  One further tick of `update_bars` leaves the state of
segment 0 as it was, but issues `led_set_color`, `led_on` and
`led_set_brightness` for every one of the four segments. -/
theorem settled_segment_rewritten_every_tick :
    (0 < (connected_env_at 500).uptime ∧
      (connected_env_at 500).uptime < (settled_window_state fun _ => false).conn_bar.expire_time) ∧
    ((refresh_system_state (connected_env_at 500)
        (settled_window_state fun _ => false)).system_state.connected =
        (settled_window_state fun _ => false).system_state.connected ∧
      (refresh_system_state (connected_env_at 500)
        (settled_window_state fun _ => false)).system_state.advertising =
        (settled_window_state fun _ => false).system_state.advertising ∧
      (refresh_system_state (connected_env_at 500)
        (settled_window_state fun _ => false)).system_state.battery_percentage =
        (settled_window_state fun _ => false).system_state.battery_percentage ∧
      (refresh_system_state (connected_env_at 500)
        (settled_window_state fun _ => false)).system_state.charging =
        (settled_window_state fun _ => false).system_state.charging) ∧
    ((settled_window_state fun _ => false).conn_bar.segments 0 =
      settled_segment COLOR_BACKGROUND) ∧
    ((update_bars example_config (connected_env_at 500)
        (settled_window_state fun _ => false)).1.conn_bar.segments 0 =
      (settled_window_state fun _ => false).conn_bar.segments 0) ∧
    (update_bars example_config (connected_env_at 500) (settled_window_state fun _ => false)).2 =
      [HwCmd.led_set_color Device.led_conn_dev 0 (colors COLOR_BACKGROUND),
       HwCmd.led_on Device.led_conn_dev 0,
       HwCmd.led_set_brightness Device.led_conn_dev 0 100,
       HwCmd.led_set_color Device.led_conn_dev 1 (colors COLOR_PROFILE_CONNECTED),
       HwCmd.led_on Device.led_conn_dev 1,
       HwCmd.led_set_brightness Device.led_conn_dev 1 100,
       HwCmd.led_set_color Device.led_conn_dev 2 (colors COLOR_BACKGROUND),
       HwCmd.led_on Device.led_conn_dev 2,
       HwCmd.led_set_brightness Device.led_conn_dev 2 100,
       HwCmd.led_set_color Device.led_conn_dev 3 (colors COLOR_BACKGROUND),
       HwCmd.led_on Device.led_conn_dev 3,
       HwCmd.led_set_brightness Device.led_conn_dev 3 100] := by
  decide

/-! ## Range invariant -/

/-- C16. With `0 <= LED_BREATH_MIN <= LED_BREATH_MAX <= 100`, the predicate
"brightness <= 100 and target_brightness <= 100" holds for the zeroed segment
of the initialization and is preserved by `segment_set` with a target of at
most 100, by `segment_update` in every mode (with any fade step), by
`fade_out_bar` and by `display_modifiers`. -/
theorem brightness_range_invariant (cfg : Config)
    (hmin : 0 ≤ cfg.LED_BREATH_MIN) (hle : cfg.LED_BREATH_MIN ≤ cfg.LED_BREATH_MAX)
    (hmax : cfg.LED_BREATH_MAX ≤ 100) :
    brightness_in_range zero_segment ∧
    (∀ (seg : led_segment) (color : color_index) (target : Nat) (anim : animation_type)
        (fade_step : Int), brightness_in_range seg → target ≤ 100 →
      brightness_in_range (segment_set cfg seg color target anim fade_step)) ∧
    (∀ seg : led_segment, brightness_in_range seg →
      brightness_in_range (segment_update cfg seg)) ∧
    (∀ bar : led_bar, (∀ i, brightness_in_range (bar.segments i)) →
      ∀ i, brightness_in_range ((fade_out_bar cfg bar).segments i)) ∧
    (∀ st : State, (∀ i, brightness_in_range (st.conn_bar.segments i)) →
      ∀ i, brightness_in_range ((display_modifiers cfg st).conn_bar.segments i)) := by
  have hMax : u8 cfg.LED_BREATH_MAX ≤ 100 := by unfold u8; omega
  have hMin : u8 cfg.LED_BREATH_MIN ≤ 100 := by unfold u8; omega
  have hset : ∀ (seg : led_segment) (color : color_index) (target : Nat) (anim : animation_type)
      (fade_step : Int), brightness_in_range seg → target ≤ 100 →
      brightness_in_range (segment_set cfg seg color target anim fade_step) := by
    intro seg color target anim fade_step hseg ht
    have hu : u8 (target : Int) = target := u8_of_lt target (by omega)
    simp only [brightness_in_range, segment_set, hu]
    split_ifs <;> first | exact hseg | exact ⟨hseg.1, ht⟩ | exact ⟨hMax, ht⟩ | exact ⟨hMin, ht⟩
  refine ⟨by decide, hset, fun seg hseg => ?_, fun bar hbar i => ?_, fun st hst i => ?_⟩
  · obtain ⟨hb, ht⟩ := hseg
    cases hA : seg.animation
    · simp only [brightness_in_range, segment_update, hA]
      split_ifs <;> first | exact ⟨hb, ht⟩ | exact ⟨ht, ht⟩
    · simp only [brightness_in_range, segment_update, hA]
      split_ifs with h1 h2 h3
      · exact ⟨ht, ht⟩
      · refine ⟨?_, ht⟩
        simp only [u8, abs] at h2 ⊢
        split_ifs at h2 ⊢ <;> omega
      · refine ⟨?_, ht⟩
        simp only [u8, abs] at h2 ⊢
        split_ifs at h2 ⊢ <;> omega
      · exact ⟨hb, ht⟩
    · have hr := segment_update_breath_range cfg hmin hle hmax seg hA
      refine ⟨by omega, ?_⟩
      simp only [segment_update, hA]
      split_ifs <;> exact ht
  · rw [(fade_out_bar_spec cfg bar).2 i]
    exact ⟨(hbar i).1, Nat.zero_le _⟩
  · rw [(display_modifiers_spec cfg st).2 i]
    split_ifs
    · exact hset _ _ _ _ _ (hst i) (le_refl _)
    · exact ⟨(hst i).1, Nat.zero_le _⟩
    · exact hst i

/-- Instance of C16 with the breath bounds 20 and 100: a fading segment at
brightness 98 with target 100 and fade step 7 stays within range after a
tick, and so does the segment that `segment_set` makes breathe. -/
theorem brightness_range_invariant_witness :
    brightness_in_range (segment_update example_config
      { color := colors COLOR_BACKGROUND, brightness := 98, target_brightness := 100,
        animation := ANIM_FADE, fade_step := 7, breath_ascending := false, dirty := false }) ∧
    brightness_in_range (segment_set example_config zero_segment COLOR_PROFILE_OPEN 100
      ANIM_BREATH 5) :=
  ⟨(brightness_range_invariant example_config (by decide) (by decide) (by decide)).2.2.1 _
      (by decide),
    (brightness_range_invariant example_config (by decide) (by decide) (by decide)).2.1 _ _ _ _ _
      (by decide) (by decide)⟩

/-! ## Breath step -/

/-- A breath tick that does not leave the 8-bit range before the clamp moves
the brightness by the step and clamps: ascending (with `b + STEP <= 255`) to
`min(b + STEP, MAX)`, descending (with `STEP <= b`) to `max(b - STEP, MIN)`,
flipping the direction exactly when a bound is reached. -/
theorem segment_update_breath_without_wrap (cfg : Config)
    (hmin : 0 ≤ cfg.LED_BREATH_MIN) (hlt : cfg.LED_BREATH_MIN < cfg.LED_BREATH_MAX)
    (hmax : cfg.LED_BREATH_MAX ≤ 100) (hstep : 1 ≤ cfg.LED_BREATH_STEP_SIZE)
    (seg : led_segment) (hA : seg.animation = ANIM_BREATH)
    (hlo : cfg.LED_BREATH_MIN ≤ (seg.brightness : Int))
    (hhi : (seg.brightness : Int) ≤ cfg.LED_BREATH_MAX) :
    (seg.breath_ascending = true → (seg.brightness : Int) + cfg.LED_BREATH_STEP_SIZE ≤ 255 →
      ((segment_update cfg seg).brightness : Int) =
        min ((seg.brightness : Int) + cfg.LED_BREATH_STEP_SIZE) cfg.LED_BREATH_MAX ∧
      ((segment_update cfg seg).breath_ascending = false ↔
        ((segment_update cfg seg).brightness : Int) = cfg.LED_BREATH_MAX)) ∧
    (seg.breath_ascending = false → cfg.LED_BREATH_STEP_SIZE ≤ (seg.brightness : Int) →
      ((segment_update cfg seg).brightness : Int) =
        max ((seg.brightness : Int) - cfg.LED_BREATH_STEP_SIZE) cfg.LED_BREATH_MIN ∧
      ((segment_update cfg seg).breath_ascending = true ↔
        ((segment_update cfg seg).brightness : Int) = cfg.LED_BREATH_MIN)) ∧
    (segment_update cfg seg).dirty = true := by
  have hMax : (u8 cfg.LED_BREATH_MAX : Int) = cfg.LED_BREATH_MAX := by unfold u8; omega
  have hMin : (u8 cfg.LED_BREATH_MIN : Int) = cfg.LED_BREATH_MIN := by unfold u8; omega
  refine ⟨fun hasc hfit => ?_, fun hdesc hfit => ?_, ?_⟩
  · have hb : (u8 ((seg.brightness : Int) + cfg.LED_BREATH_STEP_SIZE) : Int) =
        (seg.brightness : Int) + cfg.LED_BREATH_STEP_SIZE := by unfold u8; omega
    simp only [segment_update, hA, hasc, if_true, hb]
    split_ifs with h1 h2
    · refine ⟨by simp only [hMax]; omega, ?_⟩
      simp only [hMax]
    · omega
    · refine ⟨by simp only [hb]; omega, ?_⟩
      simp only [hb, hasc, Bool.true_eq_false, false_iff]
      omega
  · have hb : (u8 ((seg.brightness : Int) + -cfg.LED_BREATH_STEP_SIZE) : Int) =
        (seg.brightness : Int) - cfg.LED_BREATH_STEP_SIZE := by unfold u8; omega
    simp only [segment_update, hA, hdesc, Bool.false_eq_true, if_false, hb]
    split_ifs with h1 h2
    · omega
    · refine ⟨by simp only [hMin]; omega, ?_⟩
      simp only [hMin]
    · refine ⟨by simp only [hb]; omega, ?_⟩
      simp only [hb, hdesc, Bool.false_eq_true, false_iff]
      omega
  · simp only [segment_update, hA]
    split_ifs <;> rfl

/-- C17, the code at the failing input.  With `LED_BREATH_MIN = 0`,
`LED_BREATH_MAX = 100` and `LED_BREATH_STEP_SIZE = 3`, a breathing segment on
its way down at brightness 1 (which 34 ticks after `segment_set` selected
`Breath` on a zeroed segment reach) is not clamped to the lower bound: the
8-bit subtraction wraps to 254, the upper clamp fires, the brightness becomes
100 and the direction stays descending, where `max(b - STEP, MIN)` is 0. -/
theorem breath_descending_below_step_jumps_to_max :
    (0 ≤ breath_from_zero_config.LED_BREATH_MIN ∧
      breath_from_zero_config.LED_BREATH_MIN < breath_from_zero_config.LED_BREATH_MAX ∧
      breath_from_zero_config.LED_BREATH_MAX ≤ 100 ∧
      1 ≤ breath_from_zero_config.LED_BREATH_STEP_SIZE) ∧
    (breath_low_segment.animation = ANIM_BREATH ∧
      breath_low_segment.breath_ascending = false ∧
      breath_from_zero_config.LED_BREATH_MIN ≤ (breath_low_segment.brightness : Int) ∧
      (breath_low_segment.brightness : Int) ≤ breath_from_zero_config.LED_BREATH_MAX) ∧
    ((ticks breath_from_zero_config 34
        (segment_set breath_from_zero_config zero_segment COLOR_PROFILE_OPEN 100 ANIM_BREATH
          5)).brightness = 1 ∧
      (ticks breath_from_zero_config 34
        (segment_set breath_from_zero_config zero_segment COLOR_PROFILE_OPEN 100 ANIM_BREATH
          5)).breath_ascending = false) ∧
    max ((breath_low_segment.brightness : Int) - breath_from_zero_config.LED_BREATH_STEP_SIZE)
      breath_from_zero_config.LED_BREATH_MIN = 0 ∧
    (segment_update breath_from_zero_config breath_low_segment).brightness = 100 ∧
    (segment_update breath_from_zero_config breath_low_segment).breath_ascending = false := by
  decide

/-! ## Battery segment policy: the partial segment -/

/-- C18. Not charging and not critical, with `filled = pct / 25 < 4` and
`r = pct - 25 * filled`: the partial segment `i = filled` has animation `Fade`;
in granular mode its colour is the neutral background if `r < 8`, the mid
tone if `8 <= r < 17` and the full tone if `r >= 17`, in yellow when `i = 0`
and `pct < BATTERY_LOW_THRESHOLD` and in white otherwise; without granular
mode it is low-battery yellow when `i = 0` and `pct < BATTERY_LOW_THRESHOLD`
and full-battery white otherwise.  Every segment `i > filled` (`i` in 0..3)
is neutral background with `Fade`. -/
theorem battery_partial_policy (cfg : Config) (pct : Nat) (hpct : pct < 256)
    (hcrit : cfg.BATTERY_CRITICAL_THRESHOLD ≤ (pct : Int)) (hfilled : pct / 25 < 4) :
    (cfg.BATTERY_GRANULAR = true →
      get_battery_segment_config cfg ((pct / 25 : Nat) : Int) pct false =
        { color :=
            if pct - 25 * (pct / 25) < 8 then COLOR_BACKGROUND
            else if pct - 25 * (pct / 25) < 17 then
              (if pct / 25 = 0 ∧ (pct : Int) < cfg.BATTERY_LOW_THRESHOLD
               then COLOR_BATTERY_YELLOW_MID else COLOR_BATTERY_WHITE_MID)
            else
              (if pct / 25 = 0 ∧ (pct : Int) < cfg.BATTERY_LOW_THRESHOLD
               then COLOR_BATTERY_YELLOW else COLOR_BATTERY_WHITE)
          animation := ANIM_FADE }) ∧
    (cfg.BATTERY_GRANULAR = false →
      get_battery_segment_config cfg ((pct / 25 : Nat) : Int) pct false =
        { color :=
            if pct / 25 = 0 ∧ (pct : Int) < cfg.BATTERY_LOW_THRESHOLD then COLOR_BATTERY_YELLOW
            else COLOR_BATTERY_WHITE
          animation := ANIM_FADE }) ∧
    (∀ i : Nat, i ≤ 3 → pct / 25 < i →
      get_battery_segment_config cfg (i : Int) pct false =
        { color := COLOR_BACKGROUND, animation := ANIM_FADE }) := by
  have hu := u8_of_lt pct hpct
  have hf := u8_filled pct hpct
  have hnc : ¬ (pct : Int) < cfg.BATTERY_CRITICAL_THRESHOLD := by omega
  have hnlt : ¬ ((pct / 25 : Nat) : Int) < ((pct / 25 : Nat) : Int) := lt_irrefl _
  have hstart : u8 ((pct / 25 * BATTERY_PER_SEGMENT : Nat) : Int) = pct / 25 * 25 := by
    show u8 ((pct / 25 * 25 : Nat) : Int) = pct / 25 * 25
    unfold u8; omega
  have hin : u8 ((pct : Int) - ((pct / 25 * 25 : Nat) : Int)) = pct - 25 * (pct / 25) := by
    unfold u8; omega
  have hz : ((pct / 25 : Nat) : Int) = 0 ↔ pct / 25 = 0 := by omega
  refine ⟨fun hg => ?_, fun hg => ?_, fun i hi hgt => ?_⟩
  · simp only [get_battery_segment_config, hu, hf, hnc, hnlt, hstart, hin, hz, hg, hfilled,
      decide_False, Bool.false_and, Bool.false_eq_true, if_true, if_false, and_self,
      NUM_SEGMENTS]
    split_ifs <;> simp_all
  · simp only [get_battery_segment_config, hu, hf, hnc, hnlt, hz, hg, hfilled,
      decide_False, Bool.false_and, Bool.false_eq_true, if_true, if_false, and_self,
      NUM_SEGMENTS]
  · have h1 : ¬ (i : Int) < ((pct / 25 : Nat) : Int) := by omega
    have h2 : ¬ ((i : Int) = ((pct / 25 : Nat) : Int) ∧ pct / 25 < NUM_SEGMENTS) := by
      intro h; omega
    simp only [get_battery_segment_config, hu, hf, hnc, h1, h2, decide_False, Bool.false_and,
      Bool.false_eq_true, if_false]

/-- Instance of C18 in granular mode with the thresholds of the examples
(critical 15, low 30): at 20 percent the partial segment 0 has `r = 20` and is
full yellow; at 35 percent the partial segment 1 has `r = 10` and is mid
white; segment 3 is background. -/
theorem battery_partial_policy_witness :
    get_battery_segment_config granular_config 0 20 false =
      { color := COLOR_BATTERY_YELLOW, animation := ANIM_FADE } ∧
    get_battery_segment_config granular_config 1 35 false =
      { color := COLOR_BATTERY_WHITE_MID, animation := ANIM_FADE } ∧
    get_battery_segment_config granular_config 3 35 false =
      { color := COLOR_BACKGROUND, animation := ANIM_FADE } :=
  ⟨(battery_partial_policy granular_config 20 (by decide) (by decide) (by decide)).1 rfl,
    (battery_partial_policy granular_config 35 (by decide) (by decide) (by decide)).1 rfl,
    (battery_partial_policy granular_config 35 (by decide) (by decide) (by decide)).2.2 3
      (by decide) (by decide)⟩

/-! ## Ticking and writing a segment repeatedly -/

/-- After `segment_write_hardware` the segment is the same with `dirty` cleared. -/
theorem segment_write_hardware_fst (dev : Device) (index : Nat) (seg : led_segment) :
    (segment_write_hardware dev index seg).1 = { seg with dirty := false } := by
  cases hd : seg.dirty
  · simp only [segment_write_hardware, hd, Bool.not_false, if_true]
    cases seg
    simp only [] at hd
    rw [hd]
  · simp only [segment_write_hardware, hd, Bool.not_true, Bool.false_eq_true, if_false]

theorem tick_and_write_eq (cfg : Config) (dev : Device) (index : Nat) (seg : led_segment) :
    tick_and_write cfg dev index seg = { segment_update cfg seg with dirty := false } :=
  segment_write_hardware_fst dev index (segment_update cfg seg)

/-- The tick does not read `dirty`: apart from `dirty` its result is the same
whatever `dirty` was. -/
theorem segment_update_dirty_irrelevant (cfg : Config) (seg : led_segment) (d : Bool) :
    { segment_update cfg { seg with dirty := d } with dirty := false } =
      { segment_update cfg seg with dirty := false } := by
  obtain ⟨c, b, t, a, fs, asc, dirty⟩ := seg
  cases a <;> simp only [segment_update] <;> split_ifs <;> rfl

/-- The tick never changes the colour bytes. -/
theorem segment_update_color (cfg : Config) (seg : led_segment) :
    (segment_update cfg seg).color = seg.color := by
  obtain ⟨c, b, t, a, fs, asc, dirty⟩ := seg
  cases a <;> simp only [segment_update] <;> split_ifs <;> rfl

theorem ticks_color (cfg : Config) (k : Nat) (seg : led_segment) :
    (ticks cfg k seg).color = seg.color := by
  induction k with
  | zero => rfl
  | succ k ih => rw [ticks_succ, segment_update_color, ih]

/-- Ticking and writing `k + 1` times gives what `k + 1` ticks give, written. -/
theorem tick_and_write_iterate (cfg : Config) (dev : Device) (index : Nat) (seg : led_segment)
    (k : Nat) :
    (tick_and_write cfg dev index)^[k + 1] seg = { ticks cfg (k + 1) seg with dirty := false } := by
  induction k with
  | zero =>
    show tick_and_write cfg dev index seg = _
    rw [tick_and_write_eq]
    rfl
  | succ k ih =>
    rw [Function.iterate_succ_apply', ih, tick_and_write_eq, segment_update_dirty_irrelevant,
      ticks_succ cfg (k + 1)]

/-- A fade that is ticked and written `k >= 1` times: colour and target stay,
the segment is clean; while `k * S` is below the distance it still fades,
from then on it sits at the target with animation `None`. -/
theorem tick_and_write_fade (cfg : Config) (dev : Device) (index : Nat) (seg : led_segment)
    (S : Nat) (hA : seg.animation = ANIM_FADE) (hS : abs seg.fade_step = (S : Int))
    (hS1 : 1 ≤ S) (hB : seg.brightness < 256) (hT : seg.target_brightness < 256)
    (k : Nat) (hk : 1 ≤ k) :
    ((tick_and_write cfg dev index)^[k] seg).color = seg.color ∧
    ((tick_and_write cfg dev index)^[k] seg).target_brightness = seg.target_brightness ∧
    ((tick_and_write cfg dev index)^[k] seg).dirty = false ∧
    (k * S < Int.natAbs ((seg.target_brightness : Int) - (seg.brightness : Int)) →
      ((tick_and_write cfg dev index)^[k] seg).animation = ANIM_FADE) ∧
    (Int.natAbs ((seg.target_brightness : Int) - (seg.brightness : Int)) ≤ k * S →
      ((tick_and_write cfg dev index)^[k] seg).brightness = seg.target_brightness ∧
      ((tick_and_write cfg dev index)^[k] seg).animation = ANIM_NONE) := by
  obtain ⟨j, rfl⟩ : ∃ j, k = j + 1 := ⟨k - 1, by omega⟩
  rw [tick_and_write_iterate]
  obtain ⟨ht, htraj⟩ := fade_trajectory cfg seg S hA hS hS1 hB hT (j + 1)
  refine ⟨ticks_color cfg _ seg, ht, rfl, fun hlt => ?_, fun hge => ?_⟩
  · rcases htraj with ⟨_, _, _, hanim, _⟩ | ⟨hle, _, _⟩
    · exact hanim
    · omega
  · rcases htraj with ⟨hlt, _, _, _, _⟩ | ⟨_, hb, hnone | ⟨hz, _⟩⟩
    · omega
    · exact ⟨hb, hnone⟩
    · omega

/-! ## Battery window expiry -/

/-- With no battery window set, the battery part of `update_bars` returns the
state unchanged. -/
theorem update_bars_batt_idle (cfg : Config) (t : Int) (st : State)
    (hne : ¬ 0 < st.batt_bar.expire_time) : update_bars_batt cfg t st = st := by
  have h1 : ¬ (st.batt_bar.expire_time > 0 ∧ t ≥ st.batt_bar.expire_time) := fun h => hne h.1
  simp only [update_bars_batt, if_neg h1]
  exact if_neg hne

/-- When the battery window expires, the battery part of `update_bars` clears
the window and fades the bar out; `display_battery_status` is not called. -/
theorem update_bars_batt_expiry (cfg : Config) (t : Int) (st : State)
    (hexp : 0 < st.batt_bar.expire_time) (hge : st.batt_bar.expire_time ≤ t) :
    update_bars_batt cfg t st =
      { st with batt_bar := fade_out_bar cfg { st.batt_bar with expire_time := 0 } } := by
  have h1 : st.batt_bar.expire_time > 0 ∧ t ≥ st.batt_bar.expire_time := ⟨hexp, hge⟩
  have h2 : ¬ (fade_out_bar cfg { st.batt_bar with expire_time := 0 }).expire_time > 0 := by
    rw [(fade_out_bar_spec cfg _).1.1]
    exact lt_irrefl (0 : Int)
  simp only [update_bars_batt, if_pos h1]
  exact if_neg h2

/-- The battery bar that `update_bars` ticks is the one its battery part
produces; before that part the battery bar is the one of the state before. -/
theorem update_bars_batt_link (cfg : Config) (env : Env) (st : State) :
    (update_bars_conn cfg env.uptime (update_bars_refresh env st)).batt_bar = st.batt_bar ∧
    (update_bars cfg env st).1.batt_bar.expire_time =
      (update_bars_compose cfg env st).batt_bar.expire_time ∧
    ∀ i : Fin NUM_SEGMENTS,
      (update_bars cfg env st).1.batt_bar.segments i =
        tick_and_write cfg Device.led_batt_dev i
          ((update_bars_compose cfg env st).batt_bar.segments i) := by
  have htick := update_bars_tick_spec cfg (update_bars_compose cfg env st, [])
  exact ⟨(update_bars_conn_frame cfg env.uptime _).2.trans (update_bars_refresh_frame env st).2.1,
    htick.1.2.2.2.1, fun i => (htick.2 i).2⟩

/-- A tick with no battery window set only ticks and writes the battery
segments. -/
theorem update_bars_battery_idle (cfg : Config) (env : Env) (st : State)
    (hne : ¬ 0 < st.batt_bar.expire_time) :
    (update_bars cfg env st).1.batt_bar.expire_time = st.batt_bar.expire_time ∧
    ∀ i : Fin NUM_SEGMENTS,
      (update_bars cfg env st).1.batt_bar.segments i =
        tick_and_write cfg Device.led_batt_dev i (st.batt_bar.segments i) := by
  obtain ⟨hbar, hexp, hseg⟩ := update_bars_batt_link cfg env st
  have hcompose : (update_bars_compose cfg env st).batt_bar = st.batt_bar := by
    show (update_bars_batt cfg env.uptime
      (update_bars_conn cfg env.uptime (update_bars_refresh env st))).batt_bar = _
    rw [update_bars_batt_idle cfg env.uptime _ (by rw [hbar]; exact hne)]
    exact hbar
  refine ⟨by rw [hexp, hcompose], fun i => ?_⟩
  rw [hseg i, hcompose]

/-- The tick on which the battery window expires hands the faded-out bar to
the tick loop. -/
theorem update_bars_battery_expiry (cfg : Config) (env : Env) (st : State)
    (hexp : 0 < st.batt_bar.expire_time) (hge : st.batt_bar.expire_time ≤ env.uptime) :
    (update_bars_compose cfg env st).batt_bar =
      fade_out_bar cfg { st.batt_bar with expire_time := 0 } := by
  have hbar := (update_bars_batt_link cfg env st).1
  show (update_bars_batt cfg env.uptime
    (update_bars_conn cfg env.uptime (update_bars_refresh env st))).batt_bar = _
  rw [update_bars_batt_expiry cfg env.uptime _ (by rw [hbar]; exact hexp)
    (by rw [hbar]; exact hge)]
  show fade_out_bar cfg
    { (update_bars_conn cfg env.uptime (update_bars_refresh env st)).batt_bar with
      expire_time := 0 } = _
  rw [hbar]

theorem update_bars_run_cons (cfg : Config) (env : Env) (envs : List Env) (st : State) :
    update_bars_run cfg (env :: envs) st = update_bars_run cfg envs (update_bars cfg env st).1 :=
  rfl

/-- Ticks with no battery window set: the window stays unset and every
battery segment is ticked and written once per tick. -/
theorem update_bars_run_battery_idle (cfg : Config) (envs : List Env) :
    ∀ st : State, ¬ 0 < st.batt_bar.expire_time →
      (update_bars_run cfg envs st).batt_bar.expire_time = st.batt_bar.expire_time ∧
      ∀ i : Fin NUM_SEGMENTS,
        (update_bars_run cfg envs st).batt_bar.segments i =
          (tick_and_write cfg Device.led_batt_dev i)^[envs.length] (st.batt_bar.segments i) := by
  induction envs with
  | nil => intro st _; exact ⟨rfl, fun _ => rfl⟩
  | cons env envs ih =>
    intro st hne
    obtain ⟨hexp, hseg⟩ := update_bars_battery_idle cfg env st hne
    obtain ⟨hexp', hseg'⟩ := ih (update_bars cfg env st).1 (by rw [hexp]; exact hne)
    rw [update_bars_run_cons]
    refine ⟨hexp'.trans hexp, fun i => ?_⟩
    rw [hseg' i, hseg i, List.length_cons, Function.iterate_succ_apply]

theorem i8_of_range (x : Int) (h : -128 ≤ x ∧ x ≤ 127) : i8 x = x := by
  unfold i8; omega

/-- Counterexample to C19 as stated: with `LED_FADE_STEP_SIZE = 200`, of
magnitude 200, the claim allows `ceil(100/200) = 1` tick. The `int8_t` field
`fade_step` holds 200 as -56, so the expiry tick of the battery bar at full
brightness leaves every battery segment at brightness 44, still in `Fade`,
with the step -56 and not 200. -/
theorem battery_fade_wide_step_counterexample :
    abs wide_fade_config.LED_FADE_STEP_SIZE = 200 ∧ fade_ticks 100 200 = 1 ∧
    0 < battery_window_state.batt_bar.expire_time ∧
    battery_window_state.batt_bar.expire_time ≤ (env_at 1000).uptime ∧
    (∀ i : Fin NUM_SEGMENTS, (battery_window_state.batt_bar.segments i).brightness = 100) ∧
    ∀ i : Fin NUM_SEGMENTS,
      ((update_bars_compose wide_fade_config (env_at 1000)
        battery_window_state).batt_bar.segments i).fade_step = -56 ∧
      ((update_bars_compose wide_fade_config (env_at 1000)
        battery_window_state).batt_bar.segments i).fade_step ≠
          wide_fade_config.LED_FADE_STEP_SIZE ∧
      ((update_bars_run wide_fade_config [env_at 1000]
        battery_window_state).batt_bar.segments i).brightness = 44 ∧
      ((update_bars_run wide_fade_config [env_at 1000]
        battery_window_state).batt_bar.segments i).animation = ANIM_FADE := by
  decide

/-- C19, amended. A tick of `update_bars` with `batt_bar.expire_time > 0` and
`now >= expire_time` sets `expire_time` to 0 and hands to the tick loop the bar
that `fade_out_bar` produces, not one rendered by `display_battery_status`:
every battery segment has target 0, `Fade` and, as step, `LED_FADE_STEP_SIZE`
as the `int8_t` field `fade_step` stores it, which is the constant itself
when it lies in -128..127. With `S >= 1` the magnitude of that stored step,
all battery brightnesses at most 100 and only ticks following, after
`ceil(100/S)` ticks or more, the expiry tick counted, the window is still
unset and every battery segment has brightness 0 and animation `None`. -/
theorem battery_window_expiry_fades_to_off (cfg : Config) (env : Env) (st : State) (S : Nat)
    (hS : abs (i8 cfg.LED_FADE_STEP_SIZE) = (S : Int)) (hS1 : 1 ≤ S)
    (hexp : 0 < st.batt_bar.expire_time) (hge : st.batt_bar.expire_time ≤ env.uptime)
    (hb : ∀ i : Fin NUM_SEGMENTS, (st.batt_bar.segments i).brightness ≤ 100) :
    (update_bars cfg env st).1.batt_bar.expire_time = 0 ∧
    (update_bars_compose cfg env st).batt_bar =
      fade_out_bar cfg { st.batt_bar with expire_time := 0 } ∧
    (∀ i : Fin NUM_SEGMENTS,
      ((update_bars_compose cfg env st).batt_bar.segments i).target_brightness = 0 ∧
      ((update_bars_compose cfg env st).batt_bar.segments i).animation = ANIM_FADE ∧
      ((update_bars_compose cfg env st).batt_bar.segments i).fade_step =
        i8 cfg.LED_FADE_STEP_SIZE) ∧
    (-128 ≤ cfg.LED_FADE_STEP_SIZE ∧ cfg.LED_FADE_STEP_SIZE ≤ 127 →
      i8 cfg.LED_FADE_STEP_SIZE = cfg.LED_FADE_STEP_SIZE ∧
      abs cfg.LED_FADE_STEP_SIZE = (S : Int)) ∧
    (∀ later : List Env, fade_ticks 100 S ≤ later.length + 1 →
      (update_bars_run cfg (env :: later) st).batt_bar.expire_time = 0 ∧
      ∀ i : Fin NUM_SEGMENTS,
        ((update_bars_run cfg (env :: later) st).batt_bar.segments i).brightness = 0 ∧
        ((update_bars_run cfg (env :: later) st).batt_bar.segments i).animation = ANIM_NONE) := by
  have hcompose := update_bars_battery_expiry cfg env st hexp hge
  obtain ⟨_, hexp1, hseg1⟩ := update_bars_batt_link cfg env st
  have hfade := fade_out_bar_spec cfg { st.batt_bar with expire_time := 0 }
  have hzero : (update_bars cfg env st).1.batt_bar.expire_time = 0 := by
    rw [hexp1, hcompose, hfade.1.1]
  have hsegs : ∀ i : Fin NUM_SEGMENTS,
      (update_bars_compose cfg env st).batt_bar.segments i =
        { (st.batt_bar.segments i) with
          target_brightness := 0
          animation := ANIM_FADE
          fade_step := i8 cfg.LED_FADE_STEP_SIZE } := by
    intro i
    rw [hcompose]
    exact hfade.2 i
  refine ⟨hzero, hcompose, fun i => ?_, fun hrange => ?_, fun later hlen => ?_⟩
  · rw [hsegs i]
    exact ⟨rfl, rfl, rfl⟩
  · have hi8 := i8_of_range cfg.LED_FADE_STEP_SIZE hrange
    exact ⟨hi8, by rw [← hS, hi8]⟩
  · obtain ⟨hexp2, hseg2⟩ := update_bars_run_battery_idle cfg later (update_bars cfg env st).1
      (by rw [hzero]; exact lt_irrefl (0 : Int))
    rw [update_bars_run_cons]
    refine ⟨hexp2.trans hzero, fun i => ?_⟩
    rw [hseg2 i, hseg1 i, ← Function.iterate_succ_apply, hsegs i]
    have hk : ¬ later.length + 1 < fade_ticks 100 S := by omega
    rw [lt_fade_ticks_iff _ _ _ hS1] at hk
    have h := tick_and_write_fade cfg Device.led_batt_dev i
      { (st.batt_bar.segments i) with
        target_brightness := 0
        animation := ANIM_FADE
        fade_step := i8 cfg.LED_FADE_STEP_SIZE }
      S rfl hS hS1
      (show (st.batt_bar.segments i).brightness < 256 by have := hb i; omega)
      (show (0 : Nat) < 256 by decide) (later.length + 1) (by omega)
    have hb' := hb i
    exact h.2.2.2.2 (by
      show Int.natAbs (((0 : Nat) : Int) - ((st.batt_bar.segments i).brightness : Int)) ≤ _
      omega)

/-- Instance of C19 with `LED_FADE_STEP_SIZE = 5`: from the battery bar at
full brightness whose window ends at uptime 1000, twenty ticks at or after
that time leave segment 0 at brightness 0 with animation `None`. -/
theorem battery_window_expiry_fades_to_off_witness :
    fade_ticks 100 5 = 20 ∧
    ((update_bars_run example_config (env_at 1000 :: List.replicate 19 (env_at 1001))
      battery_window_state).batt_bar.segments 0).brightness = 0 ∧
    ((update_bars_run example_config (env_at 1000 :: List.replicate 19 (env_at 1001))
      battery_window_state).batt_bar.segments 0).animation = ANIM_NONE :=
  ⟨by decide,
    (((battery_window_expiry_fades_to_off example_config (env_at 1000) battery_window_state 5
      (by decide) (by decide) (by decide) (by decide) (by decide)).2.2.2.2
      (List.replicate 19 (env_at 1001)) (by decide)).2 0).1,
    (((battery_window_expiry_fades_to_off example_config (env_at 1000) battery_window_state 5
      (by decide) (by decide) (by decide) (by decide) (by decide)).2.2.2.2
      (List.replicate 19 (env_at 1001)) (by decide)).2 0).2⟩

/-! ## Startup animation -/

/-- One iteration of a startup stage ticks and writes its two segments and
changes nothing else of the state. -/
theorem led_init_stage_body_spec (cfg : Config) (ci bi : Fin NUM_SEGMENTS)
    (p : State × List HwCmd) (i : Fin NUM_SEGMENTS) :
    (led_init_stage_body cfg ci bi p).1.conn_bar.segments i =
      (if i = ci then tick_and_write cfg Device.led_conn_dev ci (p.1.conn_bar.segments i)
       else p.1.conn_bar.segments i) ∧
    (led_init_stage_body cfg ci bi p).1.batt_bar.segments i =
      (if i = bi then tick_and_write cfg Device.led_batt_dev bi (p.1.batt_bar.segments i)
       else p.1.batt_bar.segments i) := by
  constructor
  · by_cases h : i = ci
    · subst h
      simp only [led_init_stage_body, setSegment_same, if_true, tick_and_write]
    · simp only [led_init_stage_body, setSegment_other _ _ _ _ h, if_neg h]
  · by_cases h : i = bi
    · subst h
      simp only [led_init_stage_body, setSegment_same, if_true, tick_and_write]
    · simp only [led_init_stage_body, setSegment_other _ _ _ _ h, if_neg h]

/-- The state after `j` iterations of a startup stage. -/
theorem led_init_stage_body_iterate (cfg : Config) (ci bi : Fin NUM_SEGMENTS)
    (p : State × List HwCmd) (j : Nat) (i : Fin NUM_SEGMENTS) :
    ((led_init_stage_body cfg ci bi)^[j] p).1.conn_bar.segments i =
      (if i = ci then (tick_and_write cfg Device.led_conn_dev ci)^[j] (p.1.conn_bar.segments i)
       else p.1.conn_bar.segments i) ∧
    ((led_init_stage_body cfg ci bi)^[j] p).1.batt_bar.segments i =
      (if i = bi then (tick_and_write cfg Device.led_batt_dev bi)^[j] (p.1.batt_bar.segments i)
       else p.1.batt_bar.segments i) := by
  induction j with
  | zero => exact ⟨by split_ifs <;> rfl, by split_ifs <;> rfl⟩
  | succ j ih =>
    rw [Function.iterate_succ_apply']
    obtain ⟨hc, hb⟩ := led_init_stage_body_spec cfg ci bi
      ((led_init_stage_body cfg ci bi)^[j] p) i
    rw [hc, hb, ih.1, ih.2]
    constructor
    · split_ifs
      · rw [Function.iterate_succ_apply']
      · rfl
    · split_ifs
      · rw [Function.iterate_succ_apply']
      · rfl

/-- The `while` loop of a stage makes exactly `n` iterations when its
condition holds after each of the first `n - 1` and fails after the `n`-th,
provided the fuel allows `n` iterations. -/
theorem led_init_stage_loop_run (cfg : Config) (ci bi : Fin NUM_SEGMENTS) (n : Nat) :
    ∀ (fuel : Nat) (p : State × List HwCmd), n ≤ fuel →
      (∀ j, j < n →
        (((led_init_stage_body cfg ci bi)^[j] p).1.conn_bar.segments ci).animation ≠ ANIM_NONE ∨
        (((led_init_stage_body cfg ci bi)^[j] p).1.batt_bar.segments bi).animation ≠ ANIM_NONE) →
      ¬ ((((led_init_stage_body cfg ci bi)^[n] p).1.conn_bar.segments ci).animation ≠ ANIM_NONE ∨
        (((led_init_stage_body cfg ci bi)^[n] p).1.batt_bar.segments bi).animation ≠ ANIM_NONE) →
      led_init_stage_loop cfg ci bi fuel p =
        some (((led_init_stage_body cfg ci bi)^[n] p).1,
          ((led_init_stage_body cfg ci bi)^[n] p).2, n) := by
  induction n with
  | zero =>
    intro fuel p _ _ hstop
    have hstop' : ¬ ((p.1.conn_bar.segments ci).animation ≠ ANIM_NONE ∨
        (p.1.batt_bar.segments bi).animation ≠ ANIM_NONE) := hstop
    unfold led_init_stage_loop
    rw [if_neg hstop']
    rfl
  | succ n ih =>
    intro fuel p hfuel hgo hstop
    obtain ⟨f, rfl⟩ : ∃ f, fuel = f + 1 := ⟨fuel - 1, by omega⟩
    have hgo' : (p.1.conn_bar.segments ci).animation ≠ ANIM_NONE ∨
        (p.1.batt_bar.segments bi).animation ≠ ANIM_NONE := hgo 0 (by omega)
    unfold led_init_stage_loop
    rw [if_pos hgo']
    simp only []
    rw [ih f (led_init_stage_body cfg ci bi p) (by omega)
      (fun j hj => by
        rw [← Function.iterate_succ_apply]
        exact hgo (j + 1) (by omega))
      (by rw [← Function.iterate_succ_apply]; exact hstop)]
    rw [← Function.iterate_succ_apply]
    rfl

/-- Whatever the loop of a stage returns, it differs from the start only in
the two segments of the stage. -/
theorem led_init_stage_loop_frame (cfg : Config) (ci bi : Fin NUM_SEGMENTS) :
    ∀ (fuel : Nat) (p : State × List HwCmd) (r : State × List HwCmd × Nat),
      led_init_stage_loop cfg ci bi fuel p = some r →
      ∀ i : Fin NUM_SEGMENTS,
        (i ≠ ci → r.1.conn_bar.segments i = p.1.conn_bar.segments i) ∧
        (i ≠ bi → r.1.batt_bar.segments i = p.1.batt_bar.segments i) := by
  intro fuel
  induction fuel with
  | zero =>
    intro p r h i
    unfold led_init_stage_loop at h
    split_ifs at h
    cases h
    exact ⟨fun _ => rfl, fun _ => rfl⟩
  | succ f ih =>
    intro p r h i
    unfold led_init_stage_loop at h
    split_ifs at h
    · simp only [Option.map_eq_some'] at h
      obtain ⟨r', hr', rfl⟩ := h
      obtain ⟨hc, hb⟩ := ih _ r' hr' i
      obtain ⟨hc', hb'⟩ := led_init_stage_body_spec cfg ci bi p i
      exact ⟨fun hne => (hc hne).trans (by rw [hc', if_neg hne]),
        fun hne => (hb hne).trans (by rw [hb', if_neg hne])⟩
    · cases h
      exact ⟨fun _ => rfl, fun _ => rfl⟩

/-- What `segment_set` makes of a zeroed segment at the start of a stage. -/
theorem startup_segment_set (cfg : Config) :
    segment_set cfg zero_segment COLOR_BACKGROUND MAX_BRIGHTNESS ANIM_FADE
        cfg.LED_INIT_FADE_STEP_SIZE =
      { color := colors COLOR_BACKGROUND, brightness := 0, target_brightness := 100,
        animation := ANIM_FADE, fade_step := i8 cfg.LED_INIT_FADE_STEP_SIZE,
        breath_ascending := false, dirty := true } := rfl

/-- The segment of a stage while it is ticked and written: still fading before
`ceil(100/S)` iterations, settled at full brightness after exactly that many. -/
theorem startup_fade (cfg : Config) (dev : Device) (index : Nat) (S : Nat)
    (hS : abs (i8 cfg.LED_INIT_FADE_STEP_SIZE) = (S : Int)) (hS1 : 1 ≤ S) (j : Nat) :
    (j < fade_ticks 100 S →
      ((tick_and_write cfg dev index)^[j]
        (segment_set cfg zero_segment COLOR_BACKGROUND MAX_BRIGHTNESS ANIM_FADE
          cfg.LED_INIT_FADE_STEP_SIZE)).animation = ANIM_FADE) ∧
    (j = fade_ticks 100 S →
      startup_settled ((tick_and_write cfg dev index)^[j]
        (segment_set cfg zero_segment COLOR_BACKGROUND MAX_BRIGHTNESS ANIM_FADE
          cfg.LED_INIT_FADE_STEP_SIZE))) := by
  rw [startup_segment_set]
  have hpos : 0 < fade_ticks 100 S := (lt_fade_ticks_iff 100 S 0 hS1).2 (by omega)
  have hiff := lt_fade_ticks_iff 100 S j hS1
  rcases Nat.eq_zero_or_pos j with hj | hj
  · subst hj
    exact ⟨fun _ => rfl, fun h => absurd h (by omega)⟩
  · have h := tick_and_write_fade cfg dev index
      { color := colors COLOR_BACKGROUND, brightness := 0, target_brightness := 100,
        animation := ANIM_FADE, fade_step := i8 cfg.LED_INIT_FADE_STEP_SIZE,
        breath_ascending := false, dirty := true }
      S rfl hS hS1 (show (0 : Nat) < 256 by decide) (show (100 : Nat) < 256 by decide) j hj
    obtain ⟨hcol, htgt, hdirty, hfade, hdone⟩ := h
    refine ⟨fun hlt => hfade (by
        show j * S < Int.natAbs (((100 : Nat) : Int) - ((0 : Nat) : Int))
        have := hiff.1 hlt
        omega), fun heq => ?_⟩
    have hge : ¬ j * S < 100 := fun hlt => by
      have := hiff.2 hlt
      omega
    obtain ⟨hb, hnone⟩ := hdone (by
      show Int.natAbs (((100 : Nat) : Int) - ((0 : Nat) : Int)) ≤ j * S
      omega)
    exact ⟨hcol, hb, htgt, hnone, hdirty⟩

/-- The start of a stage sets its two segments and leaves the others alone. -/
theorem led_init_stage_start_spec (cfg : Config) (stage : Fin NUM_SEGMENTS)
    (p : State × List HwCmd) :
    (led_init_stage_start cfg stage p).1.conn_bar.segments (stage_conn_idx stage) =
      segment_set cfg (p.1.conn_bar.segments (stage_conn_idx stage)) COLOR_BACKGROUND
        MAX_BRIGHTNESS ANIM_FADE cfg.LED_INIT_FADE_STEP_SIZE ∧
    (led_init_stage_start cfg stage p).1.batt_bar.segments stage =
      segment_set cfg (p.1.batt_bar.segments stage) COLOR_BACKGROUND
        MAX_BRIGHTNESS ANIM_FADE cfg.LED_INIT_FADE_STEP_SIZE ∧
    ∀ i : Fin NUM_SEGMENTS,
      (i ≠ stage_conn_idx stage →
        (led_init_stage_start cfg stage p).1.conn_bar.segments i = p.1.conn_bar.segments i) ∧
      (i ≠ stage →
        (led_init_stage_start cfg stage p).1.batt_bar.segments i = p.1.batt_bar.segments i) :=
  ⟨setSegment_same _ _ _, setSegment_same _ _ _,
    fun _ => ⟨fun hne => setSegment_other _ _ _ _ hne, fun hne => setSegment_other _ _ _ _ hne⟩⟩

/-- A stage only touches its own two segments. -/
theorem led_init_stage_frame (cfg : Config) (fuel : Nat) (stage : Fin NUM_SEGMENTS)
    (p : State × List HwCmd) (r : State × List HwCmd × Nat)
    (h : led_init_stage cfg fuel stage p = some r) (i : Fin NUM_SEGMENTS) :
    (i ≠ stage_conn_idx stage → r.1.conn_bar.segments i = p.1.conn_bar.segments i) ∧
    (i ≠ stage → r.1.batt_bar.segments i = p.1.batt_bar.segments i) := by
  obtain ⟨hc, hb⟩ := led_init_stage_loop_frame cfg (stage_conn_idx stage) stage fuel _ r h i
  obtain ⟨_, _, hother⟩ := led_init_stage_start_spec cfg stage p
  exact ⟨fun hne => (hc hne).trans ((hother i).1 hne),
    fun hne => (hb hne).trans ((hother i).2 hne)⟩

/-- A stage that starts with its two segments zeroed terminates after exactly
`ceil(100/S)` iterations, given at least that much fuel, and leaves the two
segments settled at full brightness. -/
theorem led_init_stage_run (cfg : Config) (S : Nat)
    (hS : abs (i8 cfg.LED_INIT_FADE_STEP_SIZE) = (S : Int)) (hS1 : 1 ≤ S)
    (fuel : Nat) (hfuel : fade_ticks 100 S ≤ fuel) (stage : Fin NUM_SEGMENTS)
    (p : State × List HwCmd)
    (hc : p.1.conn_bar.segments (stage_conn_idx stage) = zero_segment)
    (hb : p.1.batt_bar.segments stage = zero_segment) :
    ∃ r, led_init_stage cfg fuel stage p = some r ∧ r.2.2 = fade_ticks 100 S ∧
      startup_settled (r.1.conn_bar.segments (stage_conn_idx stage)) ∧
      startup_settled (r.1.batt_bar.segments stage) := by
  obtain ⟨hc0, hb0, _⟩ := led_init_stage_start_spec cfg stage p
  rw [hc] at hc0
  rw [hb] at hb0
  have hconn : ∀ j, (((led_init_stage_body cfg (stage_conn_idx stage) stage)^[j]
      (led_init_stage_start cfg stage p)).1.conn_bar.segments (stage_conn_idx stage)) =
      (tick_and_write cfg Device.led_conn_dev (stage_conn_idx stage))^[j]
        (segment_set cfg zero_segment COLOR_BACKGROUND MAX_BRIGHTNESS ANIM_FADE
          cfg.LED_INIT_FADE_STEP_SIZE) := by
    intro j
    rw [(led_init_stage_body_iterate cfg _ _ _ j _).1, if_pos rfl, hc0]
  have hbatt : ∀ j, (((led_init_stage_body cfg (stage_conn_idx stage) stage)^[j]
      (led_init_stage_start cfg stage p)).1.batt_bar.segments stage) =
      (tick_and_write cfg Device.led_batt_dev stage)^[j]
        (segment_set cfg zero_segment COLOR_BACKGROUND MAX_BRIGHTNESS ANIM_FADE
          cfg.LED_INIT_FADE_STEP_SIZE) := by
    intro j
    rw [(led_init_stage_body_iterate cfg _ _ _ j _).2, if_pos rfl, hb0]
  have hrun := led_init_stage_loop_run cfg (stage_conn_idx stage) stage (fade_ticks 100 S) fuel
    (led_init_stage_start cfg stage p) hfuel
    (fun j hj => Or.inl (by
      rw [hconn j, (startup_fade cfg _ _ S hS hS1 j).1 hj]
      decide))
    (by
      rw [hconn, hbatt, ((startup_fade cfg _ _ S hS hS1 _).2 rfl).2.2.2.1,
        ((startup_fade cfg _ _ S hS hS1 _).2 rfl).2.2.2.1]
      exact fun h => h.elim (fun h => h rfl) (fun h => h rfl))
  refine ⟨_, hrun, rfl, ?_, ?_⟩
  · show startup_settled (((led_init_stage_body cfg (stage_conn_idx stage) stage)^[_]
      _).1.conn_bar.segments (stage_conn_idx stage))
    rw [hconn]
    exact (startup_fade cfg _ _ S hS hS1 _).2 rfl
  · show startup_settled (((led_init_stage_body cfg (stage_conn_idx stage) stage)^[_]
      _).1.batt_bar.segments stage)
    rw [hbatt]
    exact (startup_fade cfg _ _ S hS hS1 _).2 rfl

/-- The `while` loop of a stage runs out of fuel when its condition still
holds after every one of the iterations the fuel allows. -/
theorem led_init_stage_loop_out_of_fuel (cfg : Config) (ci bi : Fin NUM_SEGMENTS) :
    ∀ (fuel : Nat) (p : State × List HwCmd),
      (∀ j, j ≤ fuel →
        (((led_init_stage_body cfg ci bi)^[j] p).1.conn_bar.segments ci).animation ≠ ANIM_NONE ∨
        (((led_init_stage_body cfg ci bi)^[j] p).1.batt_bar.segments bi).animation ≠ ANIM_NONE) →
      led_init_stage_loop cfg ci bi fuel p = none := by
  intro fuel
  induction fuel with
  | zero =>
    intro p hgo
    have hgo' : (p.1.conn_bar.segments ci).animation ≠ ANIM_NONE ∨
        (p.1.batt_bar.segments bi).animation ≠ ANIM_NONE := hgo 0 (le_refl _)
    unfold led_init_stage_loop
    rw [if_pos hgo']
  | succ f ih =>
    intro p hgo
    have hgo' : (p.1.conn_bar.segments ci).animation ≠ ANIM_NONE ∨
        (p.1.batt_bar.segments bi).animation ≠ ANIM_NONE := hgo 0 (Nat.zero_le _)
    unfold led_init_stage_loop
    rw [if_pos hgo']
    simp only []
    rw [ih (led_init_stage_body cfg ci bi p) (fun j hj => by
      rw [← Function.iterate_succ_apply]
      exact hgo (j + 1) (by omega))]
    rfl

theorem stage_conn_idx_val (stage : Fin NUM_SEGMENTS) :
    (stage_conn_idx stage : Nat) = 3 - (stage : Nat) := rfl

/-- The `for` loop of the startup animation written out stage by stage. -/
theorem led_init_startup_animation_unfold (cfg : Config) (fuel : Nat) (st : State) :
    led_init_startup_animation cfg fuel st =
      ((((led_init_stage cfg fuel 0 (st, [])).map fun q => (q.1, q.2.1, [] ++ [q.2.2])).bind
        fun a => (led_init_stage cfg fuel 1 (a.1, a.2.1)).map
          fun q => (q.1, q.2.1, a.2.2 ++ [q.2.2])).bind
        fun a => (led_init_stage cfg fuel 2 (a.1, a.2.1)).map
          fun q => (q.1, q.2.1, a.2.2 ++ [q.2.2])).bind
        fun a => (led_init_stage cfg fuel 3 (a.1, a.2.1)).map
          fun q => (q.1, q.2.1, a.2.2 ++ [q.2.2]) := rfl

/-- The segment of a stage when the init step is held as 0: it never leaves
the start, brightness 0 with target 100 in `Fade`. -/
theorem startup_fade_stuck (cfg : Config) (dev : Device) (index : Nat)
    (h0 : i8 cfg.LED_INIT_FADE_STEP_SIZE = 0) (j : Nat) :
    ((tick_and_write cfg dev index)^[j]
      (segment_set cfg zero_segment COLOR_BACKGROUND MAX_BRIGHTNESS ANIM_FADE
        cfg.LED_INIT_FADE_STEP_SIZE)).brightness = 0 ∧
    ((tick_and_write cfg dev index)^[j]
      (segment_set cfg zero_segment COLOR_BACKGROUND MAX_BRIGHTNESS ANIM_FADE
        cfg.LED_INIT_FADE_STEP_SIZE)).target_brightness = 100 ∧
    ((tick_and_write cfg dev index)^[j]
      (segment_set cfg zero_segment COLOR_BACKGROUND MAX_BRIGHTNESS ANIM_FADE
        cfg.LED_INIT_FADE_STEP_SIZE)).animation = ANIM_FADE ∧
    ((tick_and_write cfg dev index)^[j]
      (segment_set cfg zero_segment COLOR_BACKGROUND MAX_BRIGHTNESS ANIM_FADE
        cfg.LED_INIT_FADE_STEP_SIZE)).fade_step = 0 := by
  induction j with
  | zero =>
    rw [startup_segment_set]
    exact ⟨rfl, rfl, rfl, h0⟩
  | succ j ih =>
    rw [Function.iterate_succ_apply']
    generalize (tick_and_write cfg dev index)^[j]
      (segment_set cfg zero_segment COLOR_BACKGROUND MAX_BRIGHTNESS ANIM_FADE
        cfg.LED_INIT_FADE_STEP_SIZE) = seg at ih ⊢
    obtain ⟨c, b, t, a, fs, asc, d⟩ := seg
    obtain ⟨hb, ht, ha, hf⟩ := ih
    simp only at hb ht ha hf
    subst hb ht ha hf
    rw [tick_and_write_eq]
    exact ⟨rfl, rfl, rfl, rfl⟩

/-- With an init step that the `int8_t` parameter holds as 0 the first stage
of the startup animation never finishes, whatever the fuel. -/
theorem led_init_startup_animation_stuck (cfg : Config) (sys : system_state_t)
    (h0 : i8 cfg.LED_INIT_FADE_STEP_SIZE = 0) (fuel : Nat) :
    led_init_startup_animation cfg fuel (zeroed_state sys) = none := by
  have hnone : led_init_stage cfg fuel 0 (zeroed_state sys, []) = none := by
    obtain ⟨hc0, _, _⟩ := led_init_stage_start_spec cfg 0 (zeroed_state sys, [])
    apply led_init_stage_loop_out_of_fuel
    intro j _
    left
    rw [(led_init_stage_body_iterate cfg _ _ _ j _).1, if_pos rfl, hc0]
    have hz : (zeroed_state sys, ([] : List HwCmd)).1.conn_bar.segments (stage_conn_idx 0) =
        zero_segment := rfl
    rw [hz, (startup_fade_stuck cfg _ _ h0 j).2.2.1]
    decide
  rw [led_init_startup_animation_unfold, hnone]
  rfl

/-- With `LED_INIT_FADE_STEP_SIZE = 256`, of magnitude 256, the `int8_t`
parameter holds 0 and the startup animation does not return with any fuel. -/
theorem startup_zero_step_never_returns (fuel : Nat) :
    i8 zero_init_config.LED_INIT_FADE_STEP_SIZE = 0 ∧
    led_init_startup_animation zero_init_config fuel (zeroed_state advertising_status) = none :=
  ⟨by decide, led_init_startup_animation_stuck zero_init_config advertising_status (by decide) fuel⟩

/-- Counterexample to C20 as stated: with `LED_INIT_FADE_STEP_SIZE = 200`, of
magnitude 200, the claim gives `ceil(100/200) = 1` iteration per stage. The
`int8_t` parameter of `segment_set` holds 200 as -56, so with fuel for one
iteration the animation does not return, and with more fuel every stage makes
2 iterations. -/
theorem startup_wide_step_counterexample :
    abs wide_init_config.LED_INIT_FADE_STEP_SIZE = 200 ∧ fade_ticks 100 200 = 1 ∧
    i8 wide_init_config.LED_INIT_FADE_STEP_SIZE = -56 ∧
    (led_init_startup_animation wide_init_config 1
      (zeroed_state advertising_status)).isSome = false ∧
    (led_init_startup_animation wide_init_config 2
      (zeroed_state advertising_status)).map (fun r => r.2.2) = some [2, 2, 2, 2] ∧
    (led_init_startup_animation wide_init_config 5
      (zeroed_state advertising_status)).map (fun r => r.2.2) = some [2, 2, 2, 2] := by
  decide

/-- C20, amended. From the zeroed bars with `dirty = true`, with `S >= 1` the
magnitude of `LED_INIT_FADE_STEP_SIZE` as the `int8_t` parameter of
`segment_set` holds it, which is the magnitude of the constant itself when it
lies in -128..127: given fuel for at least `ceil(100/S)` iterations per
stage, the startup animation returns, every one of its 4 stages having made
exactly `ceil(100/S)` tick+write iterations, and leaves every segment of both
bars with the background colour, brightness 100, target 100, animation
`None` and `dirty = false`; with less fuel the first stage does not finish.
Stage `k` works on connection segment `3 - k` and battery segment `k`: from
zeroed segments there it terminates after `ceil(100/S)` iterations with these
two segments settled, and it changes no other segment. -/
theorem startup_animation_terminates_settled (cfg : Config) (sys : system_state_t) (S : Nat)
    (hS' : abs (i8 cfg.LED_INIT_FADE_STEP_SIZE) = (S : Int)) (hS1 : 1 ≤ S) :
    (∀ fuel : Nat, fade_ticks 100 S ≤ fuel →
      ∃ st cmds,
        led_init_startup_animation cfg fuel (zeroed_state sys) =
          some (st, cmds,
            [fade_ticks 100 S, fade_ticks 100 S, fade_ticks 100 S, fade_ticks 100 S]) ∧
        ∀ i : Fin NUM_SEGMENTS,
          startup_settled (st.conn_bar.segments i) ∧ startup_settled (st.batt_bar.segments i)) ∧
    (∀ fuel : Nat, fuel < fade_ticks 100 S →
      led_init_startup_animation cfg fuel (zeroed_state sys) = none) ∧
    (∀ (fuel : Nat) (stage : Fin NUM_SEGMENTS) (p : State × List HwCmd),
      fade_ticks 100 S ≤ fuel →
      p.1.conn_bar.segments (stage_conn_idx stage) = zero_segment →
      p.1.batt_bar.segments stage = zero_segment →
      ∃ r, led_init_stage cfg fuel stage p = some r ∧ r.2.2 = fade_ticks 100 S ∧
        startup_settled (r.1.conn_bar.segments (stage_conn_idx stage)) ∧
        startup_settled (r.1.batt_bar.segments stage) ∧
        ∀ i : Fin NUM_SEGMENTS,
          (i ≠ stage_conn_idx stage → r.1.conn_bar.segments i = p.1.conn_bar.segments i) ∧
          (i ≠ stage → r.1.batt_bar.segments i = p.1.batt_bar.segments i)) ∧
    (∀ stage : Fin NUM_SEGMENTS, (stage_conn_idx stage : Nat) = 3 - (stage : Nat)) ∧
    (-128 ≤ cfg.LED_INIT_FADE_STEP_SIZE ∧ cfg.LED_INIT_FADE_STEP_SIZE ≤ 127 →
      abs cfg.LED_INIT_FADE_STEP_SIZE = (S : Int)) := by
  have hstage : ∀ (fuel : Nat) (stage : Fin NUM_SEGMENTS) (p : State × List HwCmd),
      fade_ticks 100 S ≤ fuel →
      p.1.conn_bar.segments (stage_conn_idx stage) = zero_segment →
      p.1.batt_bar.segments stage = zero_segment →
      ∃ r, led_init_stage cfg fuel stage p = some r ∧ r.2.2 = fade_ticks 100 S ∧
        startup_settled (r.1.conn_bar.segments (stage_conn_idx stage)) ∧
        startup_settled (r.1.batt_bar.segments stage) ∧
        ∀ i : Fin NUM_SEGMENTS,
          (i ≠ stage_conn_idx stage → r.1.conn_bar.segments i = p.1.conn_bar.segments i) ∧
          (i ≠ stage → r.1.batt_bar.segments i = p.1.batt_bar.segments i) := by
    intro fuel stage p hfuel hc hb
    obtain ⟨r, hr, hn, hcs, hbs⟩ := led_init_stage_run cfg S hS' hS1 fuel hfuel stage p hc hb
    exact ⟨r, hr, hn, hcs, hbs, led_init_stage_frame cfg fuel stage p r hr⟩
  refine ⟨fun fuel hfuel => ?_, fun fuel hfuel => ?_, hstage, stage_conn_idx_val,
    fun hrange => by rw [← hS', i8_of_range _ hrange]⟩
  · obtain ⟨r0, h0, hn0, hc0, hb0, hf0⟩ := hstage fuel 0 (zeroed_state sys, []) hfuel rfl rfl
    obtain ⟨r1, h1, hn1, hc1, hb1, hf1⟩ := hstage fuel 1 (r0.1, r0.2.1) hfuel
      (((hf0 (stage_conn_idx 1)).1 (by decide)).trans rfl)
      (((hf0 1).2 (by decide)).trans rfl)
    obtain ⟨r2, h2, hn2, hc2, hb2, hf2⟩ := hstage fuel 2 (r1.1, r1.2.1) hfuel
      (((hf1 (stage_conn_idx 2)).1 (by decide)).trans
        (((hf0 (stage_conn_idx 2)).1 (by decide)).trans rfl))
      (((hf1 2).2 (by decide)).trans (((hf0 2).2 (by decide)).trans rfl))
    obtain ⟨r3, h3, hn3, hc3, hb3, hf3⟩ := hstage fuel 3 (r2.1, r2.2.1) hfuel
      (((hf2 (stage_conn_idx 3)).1 (by decide)).trans
        (((hf1 (stage_conn_idx 3)).1 (by decide)).trans
          (((hf0 (stage_conn_idx 3)).1 (by decide)).trans rfl)))
      (((hf2 3).2 (by decide)).trans
        (((hf1 3).2 (by decide)).trans (((hf0 3).2 (by decide)).trans rfl)))
    refine ⟨r3.1, r3.2.1, ?_, fun i => ?_⟩
    · rw [led_init_startup_animation_unfold, h0]
      simp only [Option.map_some', Option.some_bind]
      rw [h1]
      simp only [Option.map_some', Option.some_bind]
      rw [h2]
      simp only [Option.map_some', Option.some_bind]
      rw [h3]
      simp only [Option.map_some', hn0, hn1, hn2, hn3, List.nil_append, List.cons_append]
    · fin_cases i
      · exact ⟨hc3, by
          show startup_settled (r3.1.batt_bar.segments 0)
          rw [(hf3 0).2 (by decide), (hf2 0).2 (by decide), (hf1 0).2 (by decide)]
          exact hb0⟩
      · exact ⟨by
          show startup_settled (r3.1.conn_bar.segments 1)
          rw [(hf3 1).1 (by decide)]
          exact hc2, by
          show startup_settled (r3.1.batt_bar.segments 1)
          rw [(hf3 1).2 (by decide), (hf2 1).2 (by decide)]
          exact hb1⟩
      · exact ⟨by
          show startup_settled (r3.1.conn_bar.segments 2)
          rw [(hf3 2).1 (by decide), (hf2 2).1 (by decide)]
          exact hc1, by
          show startup_settled (r3.1.batt_bar.segments 2)
          rw [(hf3 2).2 (by decide)]
          exact hb2⟩
      · exact ⟨by
          show startup_settled (r3.1.conn_bar.segments 3)
          rw [(hf3 3).1 (by decide), (hf2 3).1 (by decide), (hf1 3).1 (by decide)]
          exact hc0, hb3⟩
  · have hnone : led_init_stage cfg fuel 0 (zeroed_state sys, []) = none := by
      obtain ⟨hc0, _, _⟩ := led_init_stage_start_spec cfg 0 (zeroed_state sys, [])
      apply led_init_stage_loop_out_of_fuel
      intro j hj
      left
      rw [(led_init_stage_body_iterate cfg _ _ _ j _).1, if_pos rfl, hc0]
      have hz : (zeroed_state sys, ([] : List HwCmd)).1.conn_bar.segments (stage_conn_idx 0) =
          zero_segment := rfl
      rw [hz, (startup_fade cfg _ _ S hS' hS1 j).1 (by omega)]
      decide
    rw [led_init_startup_animation_unfold, hnone]
    rfl

/-- Instance of C20 with `LED_INIT_FADE_STEP_SIZE = -30`: every stage takes
`ceil(100/30) = 4` iterations and the animation returns with fuel 4. -/
theorem startup_animation_terminates_settled_witness :
    fade_ticks 100 30 = 4 ∧
    ∃ st cmds,
      led_init_startup_animation fast_startup_config 4 (zeroed_state advertising_status) =
        some (st, cmds, [fade_ticks 100 30, fade_ticks 100 30, fade_ticks 100 30,
          fade_ticks 100 30]) ∧
      ∀ i : Fin NUM_SEGMENTS,
        startup_settled (st.conn_bar.segments i) ∧ startup_settled (st.batt_bar.segments i) :=
  ⟨by decide,
    (startup_animation_terminates_settled fast_startup_config advertising_status 30 (by decide)
      (by decide)).1 4 (by decide)⟩

/-! ## Profile index out of range -/

/-- The profile listener stores the index in the 8-bit field as it comes:
every index from 0 to 255 arrives there unchanged, and nothing else of the
status changes. -/
theorem ble_profile_changed_listener_spec (cfg : Config) (index : Int) (now : Int)
    (st : State) :
    (ble_profile_changed_listener cfg index now st).system_state =
      { st.system_state with active_profile := u8 index } ∧
    (0 ≤ index → index < 256 →
      ((ble_profile_changed_listener cfg index now st).system_state.active_profile : Int) =
        index) ∧
    (ble_profile_changed_listener cfg index now st).conn_bar.showing_modifiers = false := by
  refine ⟨?_, ?_, ?_⟩
  · simp only [ble_profile_changed_listener, show_connection_status]
    split_ifs <;> rfl
  · intro h0 h1
    simp only [ble_profile_changed_listener, show_connection_status]
    split_ifs <;> simp only [u8] <;> omega
  · simp only [ble_profile_changed_listener, show_connection_status]

/-- C22. For every state whose `active_profile` is 4 or greater,
`display_connection_status` highlights no segment: each of the four connection
segments is set to the background colour with target 100 and `Fade`, whatever
`connected` and `advertising` are; the battery bar, the status and the window
and overlay fields of the connection bar are untouched, so nothing but the
segments 0..3 of the connection bar is written. Such a state arises from the
profile listener, which stores any index from 4 to 255 unchecked. -/
theorem out_of_range_profile_highlights_nothing (cfg : Config) (st : State)
    (h : 4 ≤ st.system_state.active_profile) :
    (∀ i : Fin NUM_SEGMENTS,
      (display_connection_status cfg st).conn_bar.segments i =
        segment_set cfg (st.conn_bar.segments i) COLOR_BACKGROUND MAX_BRIGHTNESS ANIM_FADE
          cfg.LED_FADE_STEP_SIZE ∧
      ((display_connection_status cfg st).conn_bar.segments i).color = colors COLOR_BACKGROUND ∧
      ((display_connection_status cfg st).conn_bar.segments i).target_brightness = 100 ∧
      ((display_connection_status cfg st).conn_bar.segments i).animation = ANIM_FADE) ∧
    ((display_connection_status cfg st).system_state = st.system_state ∧
      (display_connection_status cfg st).batt_bar = st.batt_bar ∧
      (display_connection_status cfg st).conn_bar.expire_time = st.conn_bar.expire_time ∧
      (display_connection_status cfg st).conn_bar.showing_modifiers =
        st.conn_bar.showing_modifiers) ∧
    (∀ (index now : Int) (st0 : State), 4 ≤ index → index < 256 →
      4 ≤ (ble_profile_changed_listener cfg index now st0).system_state.active_profile ∧
      ∀ i : Fin NUM_SEGMENTS,
        ((display_connection_status cfg
            (ble_profile_changed_listener cfg index now st0)).conn_bar.segments i).color =
          colors COLOR_BACKGROUND) := by
  have key : ∀ s : State, 4 ≤ s.system_state.active_profile → ∀ i : Fin NUM_SEGMENTS,
      (display_connection_status cfg s).conn_bar.segments i =
        segment_set cfg (s.conn_bar.segments i) COLOR_BACKGROUND MAX_BRIGHTNESS ANIM_FADE
          cfg.LED_FADE_STEP_SIZE := by
    intro s hs i
    have hi : (i : Nat) < 4 := i.isLt
    rw [(display_connection_status_spec cfg s).2 i, if_neg (by omega)]
  refine ⟨fun i => ?_, (display_connection_status_spec cfg st).1, ?_⟩
  · have hp := segment_set_post cfg (st.conn_bar.segments i) COLOR_BACKGROUND MAX_BRIGHTNESS
      ANIM_FADE cfg.LED_FADE_STEP_SIZE
    rw [key st h i]
    exact ⟨rfl, hp.1, hp.2.1.trans u8_max_brightness, hp.2.2⟩
  · intro index now st0 h4 h256
    have hidx := (ble_profile_changed_listener_spec cfg index now st0).2.1 (by omega) h256
    have hge : 4 ≤ (ble_profile_changed_listener cfg index now st0).system_state.active_profile := by
      omega
    refine ⟨hge, fun i => ?_⟩
    rw [key _ hge i]
    exact (segment_set_post cfg _ COLOR_BACKGROUND MAX_BRIGHTNESS ANIM_FADE
      cfg.LED_FADE_STEP_SIZE).1

/-- With profile index 4 on the zeroed bars (not connected, advertising) all
four connection segments become background, target 100, `Fade`. -/
theorem out_of_range_profile_highlights_nothing_witness :
    4 ≤ (zeroed_state out_of_range_status).system_state.active_profile ∧
    ∀ i : Fin NUM_SEGMENTS,
      ((display_connection_status example_config
          (zeroed_state out_of_range_status)).conn_bar.segments i).color =
        colors COLOR_BACKGROUND ∧
      ((display_connection_status example_config
          (zeroed_state out_of_range_status)).conn_bar.segments i).target_brightness = 100 ∧
      ((display_connection_status example_config
          (zeroed_state out_of_range_status)).conn_bar.segments i).animation = ANIM_FADE :=
  ⟨by decide, fun i =>
    ((out_of_range_profile_highlights_nothing example_config (zeroed_state out_of_range_status)
      (by decide)).1 i).2⟩

/-! ## Overlay mode and the connection window -/

/-- What `update_bars_conn` makes of the window and overlay fields of the
connection bar: the window is closed when it has run out and is otherwise
kept, and overlay mode is only entered, or kept, without an open window. -/
theorem update_bars_conn_flags (cfg : Config) (t : Int) (st : State) :
    (update_bars_conn cfg t st).conn_bar.expire_time =
      (if st.conn_bar.expire_time > 0 ∧ t ≥ st.conn_bar.expire_time then 0
       else st.conn_bar.expire_time) ∧
    ((update_bars_conn cfg t st).conn_bar.showing_modifiers = true →
      st.conn_bar.showing_modifiers = true ∨
        ¬ (update_bars_conn cfg t st).conn_bar.expire_time > 0) := by
  obtain ⟨_, _, hshow, _, hexp, _, _, _⟩ := update_bars_conn_expire_spec cfg t st
  rw [update_bars_conn_eq]
  generalize update_bars_conn_expire cfg t st = X at hshow hexp ⊢
  generalize (if st.conn_bar.expire_time > 0 ∧ t ≥ st.conn_bar.expire_time then (0 : Int)
    else st.conn_bar.expire_time) = E at hexp ⊢
  split_ifs with h1 h2 h3
  · obtain ⟨⟨_, _, he, hs⟩, _⟩ := display_connection_status_spec cfg X
    rw [he, hs]
    exact ⟨hexp, fun h => by rw [h1.2] at h; cases h⟩
  · obtain ⟨⟨_, _, he, hs⟩, _⟩ := display_modifiers_spec cfg
      { X with conn_bar := { X.conn_bar with showing_modifiers := true } }
    rw [he, hs]
    refine ⟨hexp, fun _ => ?_⟩
    by_cases hs' : X.conn_bar.showing_modifiers = true
    · exact Or.inl (hshow ▸ hs')
    · exact Or.inr fun hpos => h1 ⟨hpos, by simpa using hs'⟩
  · obtain ⟨⟨he, hs⟩, _⟩ := fade_out_bar_spec cfg
      { X.conn_bar with showing_modifiers := false }
    refine ⟨he.trans hexp, fun h => ?_⟩
    rw [hs] at h
    cases h
  · exact ⟨hexp, fun h => absurd h h3⟩

/-- The window and overlay fields of the connection bar after an iteration
of the render loop. -/
theorem update_bars_flags (cfg : Config) (env : Env) (st : State) :
    (update_bars cfg env st).1.conn_bar.expire_time =
      (if st.conn_bar.expire_time > 0 ∧ env.uptime ≥ st.conn_bar.expire_time then 0
       else st.conn_bar.expire_time) ∧
    ((update_bars cfg env st).1.conn_bar.showing_modifiers = true →
      st.conn_bar.showing_modifiers = true ∨
        ¬ (update_bars cfg env st).1.conn_bar.expire_time > 0) := by
  have hlink := update_bars_conn_link cfg env st
  have hflags := update_bars_conn_flags cfg env.uptime (update_bars_refresh env st)
  rw [hlink.2.1] at hflags
  have hexp : (update_bars cfg env st).1.conn_bar.expire_time =
      (update_bars_conn cfg env.uptime (update_bars_refresh env st)).conn_bar.expire_time :=
    (update_bars_tick_spec cfg (update_bars_compose cfg env st, [])).1.2.1.trans
      (congrArg led_bar.expire_time hlink.1)
  rw [hexp, update_bars_showing_modifiers]
  exact hflags

/-- A display request for the connection bar leaves overlay mode and never
moves the end of the window back. -/
theorem show_connection_status_flags (cfg : Config) (now : Int) (st : State) :
    (show_connection_status cfg now st).conn_bar.showing_modifiers = false ∧
    st.conn_bar.expire_time ≤ (show_connection_status cfg now st).conn_bar.expire_time := by
  refine ⟨rfl, ?_⟩
  simp only [show_connection_status]
  split_ifs with h
  · exact le_of_lt h
  · exact le_refl _

/-- The operations other than a tick and a connection request leave the
connection bar as it is. -/
theorem engine_step_conn_bar (cfg : Config) (hid : HidUsage) (op : EngineOp) (st : State) :
    (∃ env, op = .tick env) ∨
    (∃ (s : State) (now : Int), s.conn_bar = st.conn_bar ∧
      (engine_step cfg hid op st).conn_bar = (show_connection_status cfg
        now s).conn_bar) ∨
    (engine_step cfg hid op st).conn_bar = st.conn_bar := by
  cases op with
  | tick env => exact Or.inl ⟨env, rfl⟩
  | show_connection now => exact Or.inr (Or.inl ⟨st, now, rfl, rfl⟩)
  | show_battery now =>
    refine Or.inr (Or.inr ?_)
    simp only [engine_step, show_battery_status]
    split_ifs <;> rfl
  | modifier keycode pressed =>
    refine Or.inr (Or.inr ?_)
    simp only [engine_step, update_modifier_state]
    split <;> [split_ifs <;> rfl; rfl]
  | profile_changed index now =>
    exact Or.inr (Or.inl
      ⟨{ st with system_state := { st.system_state with active_profile := u8 index } },
        now, rfl, rfl⟩)
  | activity_changed active env transport_ble now_conn now_batt =>
    simp only [engine_step, activity_state_changed_listener]
    by_cases ha : active = true
    · rw [if_pos ha]
      by_cases hc : (!(refresh_system_state env st).system_state.connected && transport_ble) = true
      · refine Or.inr (Or.inl ⟨refresh_system_state env st, now_conn, rfl, ?_⟩)
        rw [if_pos hc]
        simp only [show_battery_status]
        split_ifs <;> rfl
      · refine Or.inr (Or.inr ?_)
        rw [if_neg hc]
        simp only [show_battery_status]
        split_ifs <;> rfl
    · rw [if_neg ha]
      exact Or.inr (Or.inr rfl)

/-- Every operation keeps the two facts about the connection bar: overlay
mode excludes an open window, and the end of the window is not negative. -/
theorem engine_step_overlay (cfg : Config) (hid : HidUsage) (op : EngineOp) (st : State) :
    ((st.conn_bar.showing_modifiers = true → ¬ st.conn_bar.expire_time > 0) →
      (engine_step cfg hid op st).conn_bar.showing_modifiers = true →
      ¬ (engine_step cfg hid op st).conn_bar.expire_time > 0) ∧
    (0 ≤ st.conn_bar.expire_time → 0 ≤ (engine_step cfg hid op st).conn_bar.expire_time) := by
  rcases engine_step_conn_bar cfg hid op st with ⟨env, rfl⟩ | ⟨s, now, hs, h⟩ | h
  · obtain ⟨hexp, hshow⟩ := update_bars_flags cfg env st
    refine ⟨fun hW hs => ?_, fun hN => ?_⟩
    · rcases hshow hs with h | h
      · have := hW h
        show ¬ (update_bars cfg env st).1.conn_bar.expire_time > 0
        rw [hexp]
        split_ifs <;> omega
      · exact h
    · show 0 ≤ (update_bars cfg env st).1.conn_bar.expire_time
      rw [hexp]
      split_ifs <;> omega
  · obtain ⟨hf, hle⟩ := show_connection_status_flags cfg now s
    rw [h]
    refine ⟨fun _ hs' => ?_, fun hN => ?_⟩
    · rw [hf] at hs'
      cases hs'
    · rw [hs] at hle
      omega
  · rw [h]
    exact ⟨fun hW => hW, fun hN => hN⟩

/-- The two facts hold along every sequence of operations. -/
theorem engine_run_overlay (cfg : Config) (hid : HidUsage) (ops : List EngineOp) :
    ∀ st : State,
      ((st.conn_bar.showing_modifiers = true → ¬ st.conn_bar.expire_time > 0) →
        (engine_run cfg hid ops st).conn_bar.showing_modifiers = true →
        ¬ (engine_run cfg hid ops st).conn_bar.expire_time > 0) ∧
      (0 ≤ st.conn_bar.expire_time → 0 ≤ (engine_run cfg hid ops st).conn_bar.expire_time) := by
  induction ops with
  | nil => exact fun st => ⟨fun h => h, fun h => h⟩
  | cons op ops ih =>
    intro st
    obtain ⟨h1, h2⟩ := engine_step_overlay cfg hid op st
    obtain ⟨h3, h4⟩ := ih (engine_step cfg hid op st)
    exact ⟨fun hW => h3 (h1 hW), fun hN => h4 (h2 hN)⟩

/-- The `while` loop of a startup stage leaves overlay mode of the connection
bar as it is. -/
theorem led_init_stage_loop_flags (cfg : Config) (ci bi : Fin NUM_SEGMENTS) :
    ∀ (fuel : Nat) (p : State × List HwCmd) (r : State × List HwCmd × Nat),
      led_init_stage_loop cfg ci bi fuel p = some r →
      r.1.conn_bar.showing_modifiers = p.1.conn_bar.showing_modifiers := by
  intro fuel
  induction fuel with
  | zero =>
    intro p r h
    unfold led_init_stage_loop at h
    split_ifs at h
    cases h
    rfl
  | succ f ih =>
    intro p r h
    unfold led_init_stage_loop at h
    split_ifs at h
    · simp only [Option.map_eq_some'] at h
      obtain ⟨r', hr', rfl⟩ := h
      exact (ih (led_init_stage_body cfg ci bi p) r' hr').trans rfl
    · cases h
      rfl

/-- The startup animation leaves overlay mode of the connection bar as it
is. -/
theorem led_init_startup_animation_flags (cfg : Config) (fuel : Nat) (st : State)
    (r : State × List HwCmd × List Nat) (h : led_init_startup_animation cfg fuel st = some r) :
    r.1.conn_bar.showing_modifiers = st.conn_bar.showing_modifiers := by
  have hstage : ∀ (stage : Fin NUM_SEGMENTS) (p : State × List HwCmd)
      (q : State × List HwCmd × Nat), led_init_stage cfg fuel stage p = some q →
      q.1.conn_bar.showing_modifiers = p.1.conn_bar.showing_modifiers :=
    fun stage p q hq =>
      (led_init_stage_loop_flags cfg (stage_conn_idx stage) stage fuel
        (led_init_stage_start cfg stage p) q hq).trans rfl
  rw [led_init_startup_animation_unfold] at h
  simp only [Option.bind_eq_some, Option.map_eq_some'] at h
  obtain ⟨a2, ⟨a1, ⟨a0, ⟨q0, h0, rfl⟩, q1, h1, rfl⟩, q2, h2, rfl⟩, q3, h3, rfl⟩ := h
  exact (hstage 3 _ q3 h3).trans ((hstage 2 _ q2 h2).trans
    ((hstage 1 _ q1 h1).trans (hstage 0 _ q0 h0)))

/-- The connection bar as `led_init` leaves it: untouched when a device is
not ready, otherwise not in overlay mode and with the window open until
`k_uptime_get() + LED_STARTUP_DISPLAY_TIME_MS`. -/
theorem led_init_conn_flags (cfg : Config) (mod : ModFlags) (fuel : Nat) (ienv : InitEnv)
    (st : State) (r : State × List HwCmd) (h : led_init cfg mod fuel ienv st = some r) :
    ((!ienv.conn_dev_ready || !ienv.batt_dev_ready) = true → r.1 = st) ∧
    ((!ienv.conn_dev_ready || !ienv.batt_dev_ready) = false →
      r.1.conn_bar.showing_modifiers = false ∧
      r.1.conn_bar.expire_time = ienv.uptime + cfg.LED_STARTUP_DISPLAY_TIME_MS ∧
      r.1.batt_bar.expire_time = ienv.uptime + cfg.LED_STARTUP_DISPLAY_TIME_MS) := by
  unfold led_init at h
  by_cases hready : (!ienv.conn_dev_ready || !ienv.batt_dev_ready) = true
  · rw [if_pos hready] at h
    cases h
    exact ⟨fun _ => rfl, fun hn => absurd hready (by rw [hn]; decide)⟩
  · rw [if_neg hready] at h
    simp only [Option.map_eq_some'] at h
    obtain ⟨a, ha, rfl⟩ := h
    exact ⟨fun hy => absurd hy hready,
      fun _ => ⟨led_init_startup_animation_flags cfg fuel _ a ha, rfl, rfl⟩⟩

/-- The startup animation returns from the zeroed bars, given fuel for
`ceil(100/S)` iterations per stage. -/
theorem led_init_startup_animation_returns (cfg : Config) (sys : system_state_t) (S : Nat)
    (hS : abs (i8 cfg.LED_INIT_FADE_STEP_SIZE) = (S : Int)) (hS1 : 1 ≤ S)
    (fuel : Nat) (hfuel : fade_ticks 100 S ≤ fuel) :
    ∃ r, led_init_startup_animation cfg fuel (zeroed_state sys) = some r := by
  obtain ⟨r0, h0, _, _, _⟩ :=
    led_init_stage_run cfg S hS hS1 fuel hfuel 0 (zeroed_state sys, []) rfl rfl
  have hf0 := led_init_stage_frame cfg fuel 0 _ r0 h0
  obtain ⟨r1, h1, _, _, _⟩ := led_init_stage_run cfg S hS hS1 fuel hfuel 1 (r0.1, r0.2.1)
    (((hf0 (stage_conn_idx 1)).1 (by decide)).trans rfl)
    (((hf0 1).2 (by decide)).trans rfl)
  have hf1 := led_init_stage_frame cfg fuel 1 _ r1 h1
  obtain ⟨r2, h2, _, _, _⟩ := led_init_stage_run cfg S hS hS1 fuel hfuel 2 (r1.1, r1.2.1)
    (((hf1 (stage_conn_idx 2)).1 (by decide)).trans
      (((hf0 (stage_conn_idx 2)).1 (by decide)).trans rfl))
    (((hf1 2).2 (by decide)).trans (((hf0 2).2 (by decide)).trans rfl))
  have hf2 := led_init_stage_frame cfg fuel 2 _ r2 h2
  obtain ⟨r3, h3, _, _, _⟩ := led_init_stage_run cfg S hS hS1 fuel hfuel 3 (r2.1, r2.2.1)
    (((hf2 (stage_conn_idx 3)).1 (by decide)).trans
      (((hf1 (stage_conn_idx 3)).1 (by decide)).trans
        (((hf0 (stage_conn_idx 3)).1 (by decide)).trans rfl)))
    (((hf2 3).2 (by decide)).trans
      (((hf1 3).2 (by decide)).trans (((hf0 3).2 (by decide)).trans rfl)))
  rw [led_init_startup_animation_unfold, h0]
  simp only [Option.map_some', Option.some_bind]
  rw [h1]
  simp only [Option.map_some', Option.some_bind]
  rw [h2]
  simp only [Option.map_some', Option.some_bind]
  rw [h3]
  exact ⟨_, rfl⟩

/-- The function `led_init` returns: at once when a device is not ready,
otherwise when the animation has fuel for `ceil(100/S)` iterations per stage,
`S >= 1` being the magnitude of the init step as the `int8_t` parameter holds
it. -/
theorem led_init_returns (cfg : Config) (mod : ModFlags) (ienv : InitEnv) (st : State)
    (S : Nat) (hS : abs (i8 cfg.LED_INIT_FADE_STEP_SIZE) = (S : Int)) (hS1 : 1 ≤ S)
    (fuel : Nat) (hfuel : fade_ticks 100 S ≤ fuel) :
    ∃ r, led_init cfg mod fuel ienv st = some r := by
  unfold led_init
  split_ifs
  · exact ⟨_, rfl⟩
  · simp only []
    obtain ⟨a, ha⟩ := led_init_startup_animation_returns cfg
      { active_profile := u8 ienv.active_profile_index
        connected := ienv.status.profile_connected
        advertising := ienv.status.profile_open && !ienv.status.profile_connected
        battery_percentage := led_init_battery_retry ienv.battery_reading 10 0
          (u8 ienv.status.state_of_charge)
        charging := ienv.status.usb_powered
        modifiers :=
          Function.update
            (Function.update
              (Function.update
                (Function.update st.system_state.modifiers MOD_SEGMENT_SHIFT
                  (decide (u8 ienv.explicit_mods &&& (mod.MOD_LSFT ||| mod.MOD_RSFT) ≠ 0)))
                MOD_SEGMENT_CTRL
                (decide (u8 ienv.explicit_mods &&& (mod.MOD_LCTL ||| mod.MOD_RCTL) ≠ 0)))
              MOD_SEGMENT_ALT
              (decide (u8 ienv.explicit_mods &&& (mod.MOD_LALT ||| mod.MOD_RALT) ≠ 0)))
            MOD_SEGMENT_GUI
            (decide (u8 ienv.explicit_mods &&& (mod.MOD_LGUI ||| mod.MOD_RGUI) ≠ 0)) }
      S hS hS1 fuel hfuel
    exact ⟨_, congrArg (Option.map _) ha⟩

/-- An option that is not empty is `some` of its value. -/
theorem some_getD_of_isSome {α : Type} (o : Option α) (d : α) (h : o.isSome = true) :
    o = some (o.getD d) := by
  cases o with
  | none => cases h
  | some x => rfl

/-- C21. Let `led_init` have run on the zero-initialised globals and returned,
and let any sequence of render-loop iterations (`update_bars`), connection and
battery display requests, modifier updates and profile or activity events
follow, each one as a whole. In the state reached, `showing_modifiers = true`
excludes an open connection window (`expire_time > 0`), so the test
`!showing_modifiers` in the expiry branch of `update_bars` is true whenever
that branch is entered; and when the end of the startup window,
`k_uptime_get() + LED_STARTUP_DISPLAY_TIME_MS`, is not negative,
`expire_time` is never negative and `showing_modifiers = true` implies
`expire_time = 0`. -/
theorem overlay_excludes_open_window (cfg : Config) (hid : HidUsage) (mod : ModFlags)
    (fuel : Nat) (ienv : InitEnv) (r : State × List HwCmd)
    (hinit : led_init cfg mod fuel ienv static_state = some r) (ops : List EngineOp) :
    ((engine_run cfg hid ops r.1).conn_bar.showing_modifiers = true →
      ¬ (engine_run cfg hid ops r.1).conn_bar.expire_time > 0) ∧
    (0 ≤ ienv.uptime + cfg.LED_STARTUP_DISPLAY_TIME_MS →
      0 ≤ (engine_run cfg hid ops r.1).conn_bar.expire_time ∧
      ((engine_run cfg hid ops r.1).conn_bar.showing_modifiers = true →
        (engine_run cfg hid ops r.1).conn_bar.expire_time = 0)) ∧
    (∀ env : Env,
      (update_bars_refresh env (engine_run cfg hid ops r.1)).conn_bar.expire_time > 0 ∧
        env.uptime ≥
          (update_bars_refresh env (engine_run cfg hid ops r.1)).conn_bar.expire_time →
      (!(update_bars_refresh env (engine_run cfg hid ops r.1)).conn_bar.showing_modifiers) =
        true) := by
  obtain ⟨hnot, hready⟩ := led_init_conn_flags cfg mod fuel ienv static_state r hinit
  have hshow0 : r.1.conn_bar.showing_modifiers = false := by
    cases hb : (!ienv.conn_dev_ready || !ienv.batt_dev_ready) with
    | true => rw [hnot hb]; rfl
    | false => exact (hready hb).1
  have hexp0 : 0 ≤ ienv.uptime + cfg.LED_STARTUP_DISPLAY_TIME_MS →
      0 ≤ r.1.conn_bar.expire_time := by
    intro h0
    cases hb : (!ienv.conn_dev_ready || !ienv.batt_dev_ready) with
    | true => rw [hnot hb]; exact le_refl _
    | false => rw [(hready hb).2.1]; exact h0
  obtain ⟨hW, hN⟩ := engine_run_overlay cfg hid ops r.1
  have hW' := hW (fun h => by rw [hshow0] at h; cases h)
  refine ⟨hW', fun h0 => ⟨hN (hexp0 h0), fun hs => ?_⟩, fun env hbranch => ?_⟩
  · have h1 := hW' hs
    have h2 := hN (hexp0 h0)
    omega
  · rw [(update_bars_refresh_frame env _).1] at hbranch ⊢
    cases hs : (engine_run cfg hid ops r.1).conn_bar.showing_modifiers with
    | true => exact absurd hbranch.1 (hW' hs)
    | false => rfl

/-- The example boot returns with the windows open until uptime 6000. With
left shift pressed afterwards, the tick at uptime 100000 closes the window
and enters overlay mode: `showing_modifiers = true` and `expire_time = 0`. -/
theorem overlay_excludes_open_window_witness :
    example_boot.isSome = true ∧
    (example_boot.getD (static_state, [])).1.conn_bar.expire_time = 6000 ∧
    (engine_run fast_startup_config usb_hid_usage
        [EngineOp.modifier 0xE1 true, EngineOp.tick (env_at 100000)]
        (example_boot.getD (static_state, [])).1).conn_bar.showing_modifiers = true ∧
    (engine_run fast_startup_config usb_hid_usage
        [EngineOp.modifier 0xE1 true, EngineOp.tick (env_at 100000)]
        (example_boot.getD (static_state, [])).1).conn_bar.expire_time = 0 :=
  ⟨by decide, by decide, by decide,
    ((overlay_excludes_open_window fast_startup_config usb_hid_usage hid_mod_flags 4
      example_init_env (example_boot.getD (static_state, []))
      (some_getD_of_isSome example_boot (static_state, []) (by decide))
      [EngineOp.modifier 0xE1 true, EngineOp.tick (env_at 100000)]).2.1 (by decide)).2
      (by decide)⟩

end LedBar
